import Mathlib

/-!
The media session state machine of gst-rtsp-server (`gst/rtsp-server/rtsp-media.c`).

A shallow embedding of the session-lifecycle controller.  The private structure
of a media object is a record; every call into a collaborator (the media graph
engine, the stream objects, the per-client transports, GLib locks and signals)
is appended to a log, and the answers those collaborators give are explicit
inputs.  The context pool (`gst/rtsp-server/rtsp-thread-pool.c`) follows in the
namespace `RtspThreadPool`.

Conventions
* `gint n_active` is an `Int`; the counter moves by one per transport.
* `GstClockTime` is a `Nat` below `2 ^ 64`; `GST_CLOCK_TIME_NONE` is `2 ^ 64 - 1`.
* Reference counting (`g_object_ref`, `gst_object_unref`) is not modelled.
* The class hooks are the defaults installed by `gst_rtsp_media_class_init`:
  `handle_message = default_handle_message`, `unprepare = default_unprepare`.
* While a thread waits in `gst_rtsp_media_get_status`, the control-message
  thread may handle graph notifications; these, and the deadline, are what
  ends the wait.  In `gst_rtsp_media_prepare_shared` other threads perform
  whole operations as well while the caller holds neither lock.
-/

namespace RtspMedia

/-! ## Enumerations -/

/-- The readiness status of a media session (`GstRTSPMediaStatus`). -/
inductive GstRTSPMediaStatus
  | UNPREPARED
  | UNPREPARING
  | PREPARING
  | PREPARED
  | ERROR
  deriving DecidableEq, Repr

/-- The run state of a graph element (`GstState`). -/
inductive GstState
  | VOID_PENDING
  | NULL
  | READY
  | PAUSED
  | PLAYING
  deriving DecidableEq, Repr

/-- What the graph answers to a run-state request (`GstStateChangeReturn`). -/
inductive GstStateChangeReturn
  | FAILURE
  | SUCCESS
  | ASYNC
  | NO_PREROLL
  deriving DecidableEq, Repr

/-- The seek types used by `gst_rtsp_media_seek` (`GstSeekType`). -/
inductive GstSeekType
  | NONE
  | SET
  deriving DecidableEq, Repr

/-- The unit of a time range (`GstRTSPRangeUnit`). -/
inductive GstRTSPRangeUnit
  | SMPTE
  | SMPTE_30_DROP
  | SMPTE_25
  | NPT
  | CLOCK
  deriving DecidableEq, Repr

/-- The kind of a range bound (`GstRTSPTimeType`). -/
inductive GstRTSPTimeType
  | SECONDS
  | NOW
  | END
  deriving DecidableEq, Repr

/-- A `gdouble` number of seconds, kept symbolically: the code stores either the
constant `-1` or `((gdouble) t) / GST_SECOND` for a 64-bit time `t`. -/
inductive Seconds
  | minus_one
  | of_time (t : Int)
  deriving DecidableEq, Repr

/-- One bound of a range (`GstRTSPTime`). -/
structure GstRTSPTime where
  type : GstRTSPTimeType
  seconds : Seconds
  deriving DecidableEq, Repr

/-- A playable range (`GstRTSPTimeRange`). -/
structure GstRTSPTimeRange where
  unit : GstRTSPRangeUnit
  min : GstRTSPTime
  max : GstRTSPTime
  deriving DecidableEq, Repr

/-- The value `GST_CLOCK_TIME_NONE`, that is `(guint64) -1`. -/
def GST_CLOCK_TIME_NONE : Nat := 18446744073709551615

/-- The conversion of a `gint64` to `GstClockTime` (`guint64`) done by the
assignments `priv->range_start = position` and `priv->range_stop = duration`. -/
def to_clock_time (t : Int) : Nat := (t % 18446744073709551616).toNat

/-- The type of a graph notification (`GST_MESSAGE_TYPE`), with the payload the
handler reads. -/
inductive GstMessage
  | STATE_CHANGED
  | BUFFERING (percent : Int)
  | LATENCY
  | ERROR
  | WARNING
  | ELEMENT
  | STREAM_STATUS
  | ASYNC_DONE
  | EOS
  | OTHER (type : Nat)
  deriving DecidableEq, Repr

/-! ## The data model -/

/-- A stream handle (`GstRTSPStream`), as far as the media object sees it. -/
structure GstRTSPStream where
  idx : Nat
  payloader : Nat
  srcpad : Nat
  pool : Option Nat
  deriving DecidableEq, Repr

/-- The private fields of a media session (`struct _GstRTSPMediaPrivate`).
Pointers are `Option Nat`, `none` being `NULL`. -/
structure GstRTSPMediaPrivate where
  shared : Bool
  reusable : Bool
  protocols : Nat
  reused : Bool
  eos_shutdown : Bool
  buffer_size : Nat
  auth : Option Nat
  pool : Option Nat
  element : Nat
  streams : List GstRTSPStream
  dynamic : List Nat
  status : GstRTSPMediaStatus
  n_active : Int
  adding : Bool
  pipeline : Option Nat
  fakesink : Option Nat
  source : Option Nat
  id : Nat
  is_live : Bool
  seekable : Bool
  buffering : Bool
  target_state : GstState
  rtpbin : Option Nat
  range : GstRTSPTimeRange
  range_start : Nat
  range_stop : Nat
  deriving DecidableEq, Repr

/-- One call into a collaborator, or one store to `priv->status`, in program
order. -/
inductive Event
  | rec_mutex_lock
  | rec_mutex_unlock
  | mutex_lock
  | mutex_unlock
  | cond_broadcast
  | cond_wait_until (signalled : Bool)
  | store_status (s : GstRTSPMediaStatus)
  | element_factory_make_rtpbin
  | element_factory_make_fakesink
  | bus_create_watch
  | source_attach
  | source_destroy
  | bin_add (e : Option Nat)
  | bin_remove (e : Option Nat)
  | stream_join_bin (idx : Nat) (state : GstState)
  | stream_leave_bin (idx : Nat)
  | signal_connect_pad_added (e : Nat)
  | signal_connect_no_more_pads (e : Nat)
  | element_set_state (state : GstState)
  | element_get_state
  | element_seek (start_type : GstSeekType) (start : Nat)
      (stop_type : GstSeekType) (stop : Nat)
  | element_send_eos
  | element_query_position
  | element_query_duration
  | bin_recalculate_latency
  | transport_set_active (trans : Nat) (active : Bool) (changed : Bool)
  | signal_prepared
  | signal_unprepared
  | signal_new_state (state : GstState)
  | signal_new_stream (idx : Nat)
  | bin_get_by_name (dynamic : Bool) (i : Nat)
  | element_get_static_pad (elem : Nat)
  | ghost_pad_new (idx : Nat) (target : Nat)
  | pad_set_active (pad : Nat)
  | element_add_pad (pad : Nat)
  | stream_new (idx : Nat)
  | stream_set_address_pool (idx : Nat) (pool : Option Nat)
  | child_set_state (elem : Nat) (state : GstState)
  deriving DecidableEq, Repr

/-- A request made to the media graph (the pipeline, its bins and the stream
elements joined into it). -/
def Event.is_graph_request : Event → Bool
  | .bin_add _ => true
  | .bin_remove _ => true
  | .stream_join_bin _ _ => true
  | .stream_leave_bin _ => true
  | .element_set_state _ => true
  | .element_get_state => true
  | .element_seek _ _ _ _ => true
  | .element_send_eos => true
  | .element_query_position => true
  | .element_query_duration => true
  | .bin_recalculate_latency => true
  | .bin_get_by_name _ _ => true
  | .element_get_static_pad _ => true
  | .element_add_pad _ => true
  | .child_set_state _ _ => true
  | _ => false

/-- A request to change the run state of the pipeline
(`gst_element_set_state (priv->pipeline, _)`). -/
def Event.is_run_state_request : Event → Bool
  | .element_set_state _ => true
  | _ => false

/-- A seek issued on the pipeline (`gst_element_seek`). -/
def Event.is_seek : Event → Bool
  | .element_seek _ _ _ _ => true
  | _ => false

/-- A query of the playable range (`collect_media_stats` on a non-live media). -/
def Event.is_range_query : Event → Bool
  | .element_query_position => true
  | .element_query_duration => true
  | _ => false

/-- A transport activation that reported a change. -/
def Event.is_activation : Event → Bool
  | .transport_set_active _ active changed => active && changed
  | _ => false

/-- A transport deactivation that reported a change. -/
def Event.is_deactivation : Event → Bool
  | .transport_set_active _ active changed => !active && changed
  | _ => false

/-- The transport and the requested flag of a call of
`gst_rtsp_stream_transport_set_active`. -/
def Event.transport_call : Event → Option (Nat × Bool)
  | .transport_set_active t a _ => some (t, a)
  | _ => none

/-- A media session together with what surrounds it: the per-client transports
that are currently active, the calls made by the thread that runs the operation
(`log`), and the calls made by the control-message thread while another thread
waits (`bus_log`). -/
structure World where
  media : GstRTSPMediaPrivate
  active : List Nat
  log : List Event
  bus_log : List Event
  deriving DecidableEq, Repr

/-- What the collaborators answer during one operation. -/
structure Engine where
  /-- Answer of `gst_element_factory_make ("rtpbin", NULL)`. -/
  factory_make_rtpbin : Option Nat
  /-- Answer of `gst_element_factory_make ("fakesink", "fakesink")`, per dynamic element. -/
  factory_make_fakesink : Nat → Option Nat
  /-- Answer of `gst_bus_create_watch`. -/
  create_watch : Nat
  /-- Answer of `g_source_attach`. -/
  attach_id : Nat
  /-- Answer of `gst_element_set_state (priv->pipeline, _)`. -/
  set_state : GstState → GstStateChangeReturn
  /-- Answer of `gst_element_seek`. -/
  seek : Bool
  /-- Answer of `gst_element_query_position`, `none` when the query fails. -/
  query_position : Option Int
  /-- Answer of `gst_element_query_duration`, `none` when the query fails. -/
  query_duration : Option Int
  /-- Answer of `gst_rtsp_range_get_times`, `none` when the unit is not supported. -/
  range_get_times : GstRTSPTimeRange → Option (Nat × Nat)

/-- Append one call to the log of the running thread. -/
def emit (e : Event) (w : World) : World :=
  { w with log := w.log ++ [e] }

/-- Append calls to the log of the running thread. -/
def emits (es : List Event) (w : World) : World :=
  { w with log := w.log ++ es }

/-- The calls appended to the log between two worlds. -/
def new_events (w w' : World) : List Event :=
  w'.log.drop w.log.length

/-- A direct store to `priv->status`. -/
def store_status (s : GstRTSPMediaStatus) (w : World) : World :=
  emit (.store_status s) { w with media := { w.media with status := s } }

/-- Run `f` on the control-message thread: its calls go to `bus_log`. -/
def on_bus_thread (f : World → World) (w : World) : World :=
  let w1 := f { w with log := w.bus_log, bus_log := [] }
  { w1 with log := w.log, bus_log := w1.log }

/-- Update the private fields of the session. -/
def World.upd (f : GstRTSPMediaPrivate → GstRTSPMediaPrivate) (w : World) : World :=
  { w with media := f w.media }

/-! ## The playable range -/

/-- The function `collect_media_stats` (must be called with the state lock):
a live media gets the open range, otherwise position and duration are queried
from the pipeline, a failed position query counting as `0` and a failed
duration query as `-1`. -/
def collect_media_stats (g : Engine) (w : World) : World :=
  let w := w.upd fun m => { m with range := { m.range with unit := .NPT } }
  if w.media.is_live then
    w.upd fun m => { m with
      range := { m.range with min := ⟨.NOW, .minus_one⟩, max := ⟨.END, .minus_one⟩ }
      range_start := GST_CLOCK_TIME_NONE
      range_stop := GST_CLOCK_TIME_NONE }
  else
    let w := emit .element_query_position w
    let position : Int := match g.query_position with
      | some p => p
      | none => 0
    let w := emit .element_query_duration w
    let duration : Int := match g.query_duration with
      | some d => d
      | none => -1
    let w :=
      if position = -1 then
        w.upd fun m => { m with
          range := { m.range with min := ⟨.NOW, .minus_one⟩ }
          range_start := GST_CLOCK_TIME_NONE }
      else
        w.upd fun m => { m with
          range := { m.range with min := ⟨.SECONDS, .of_time position⟩ }
          range_start := to_clock_time position }
    if duration = -1 then
      w.upd fun m => { m with
        range := { m.range with max := ⟨.END, .minus_one⟩ }
        range_stop := GST_CLOCK_TIME_NONE }
    else
      w.upd fun m => { m with
        range := { m.range with max := ⟨.SECONDS, .of_time duration⟩ }
        range_stop := to_clock_time duration }

/-! ## Status -/

/-- The function `gst_rtsp_media_set_status`: under the attribute mutex, store
the status unless the current one is `ERROR`, then broadcast. -/
def gst_rtsp_media_set_status (status : GstRTSPMediaStatus) (w : World) : World :=
  let w := emit .mutex_lock w
  let w := if w.media.status ≠ .ERROR then store_status status w else w
  let w := emit .cond_broadcast w
  emit .mutex_unlock w

/-! ## Teardown -/

/-- The function `finish_unprepare` (must be called with the state lock). -/
def finish_unprepare (w : World) : World :=
  let w := emit (.element_set_state .NULL) w
  let w := emits (w.media.streams.map fun s => Event.stream_leave_bin s.idx) w
  let w := w.upd fun m => { m with streams := [] }
  let w := emit (.bin_remove w.media.rtpbin) w
  let w := w.upd fun m => { m with rtpbin := none }
  let w := w.upd fun m => { m with pipeline := none }
  let w := w.upd fun m => { m with reused := true }
  let w := store_status .UNPREPARED w
  let w :=
    if w.media.source.isSome then
      (emit .source_destroy w).upd fun m => { m with source := none }
    else w
  emit .signal_unprepared w

/-- The function `default_unprepare` (called with the state lock): with
`eos_shutdown` send end-of-stream, go to playing and wait in `UNPREPARING`,
otherwise tear down at once. -/
def default_unprepare (w : World) : Bool × World :=
  if w.media.eos_shutdown then
    let w := emit .element_send_eos w
    let w := emit (.element_set_state .PLAYING) w
    (true, store_status .UNPREPARING w)
  else
    (true, finish_unprepare w)

/-- The function `gst_rtsp_media_unprepare`. -/
def gst_rtsp_media_unprepare (w : World) : Bool × World :=
  let w := emit .rec_mutex_lock w
  if w.media.status = .UNPREPARED then
    (true, emit .rec_mutex_unlock w)
  else
    let w := w.upd fun m => { m with target_state := .NULL }
    let r : Bool × World :=
      if w.media.status = .PREPARED then default_unprepare w
      else (true, finish_unprepare w)
    (r.1, emit .rec_mutex_unlock r.2)

/-! ## Graph notifications -/

/-- The function `default_handle_message` (called with the state lock). -/
def default_handle_message (g : Engine) (message : GstMessage) (w : World) :
    Bool × World :=
  match message with
  | .STATE_CHANGED => (true, w)
  | .BUFFERING percent =>
    if w.media.is_live then (true, w)
    else if percent = 100 then
      let w := w.upd fun m => { m with buffering := false }
      if w.media.target_state = .PLAYING then
        (true, emit (.element_set_state .PLAYING) w)
      else (true, w)
    else
      let w :=
        if w.media.buffering = false then
          if w.media.target_state = .PLAYING then
            emit (.element_set_state .PAUSED) w
          else w
        else w
      (true, w.upd fun m => { m with buffering := true })
  | .LATENCY => (true, emit .bin_recalculate_latency w)
  | .ERROR => (true, gst_rtsp_media_set_status .ERROR w)
  | .WARNING => (true, w)
  | .ELEMENT => (true, w)
  | .STREAM_STATUS => (true, w)
  | .ASYNC_DONE =>
    if w.media.adding = false then
      let w := collect_media_stats g w
      (true, gst_rtsp_media_set_status .PREPARED w)
    else (true, w)
  | .EOS =>
    if w.media.status = .UNPREPARING then (true, finish_unprepare w)
    else (true, w)
  | .OTHER _ => (true, w)

/-- The function `bus_message`, the callback of the bus watch: take the state
lock and run the message handler of the class. -/
def bus_message (g : Engine) (message : GstMessage) (w : World) : Bool × World :=
  let w := emit .rec_mutex_lock w
  let r := default_handle_message g message w
  (r.1, emit .rec_mutex_unlock r.2)

/-- Delivery of one notification by the main loop of the control-message
thread: the callback of the bus watch runs only while the watch `priv->source`
exists, `g_source_destroy` ending its dispatch. -/
def dispatch (g : Engine) (message : GstMessage) (w : World) : World :=
  on_bus_thread
    (fun w => if w.media.source.isSome then (bus_message g message w).2 else w) w

/-! ## The status wait -/

/-- One return of `g_cond_wait_until` inside the status wait: the notifications
the control-message thread handled while the waiter had released the mutex, and
whether the wait was signalled (`false` when the deadline passed). -/
structure Wake where
  handled : List (Engine × GstMessage)
  signalled : Bool

/-- The loop of `gst_rtsp_media_get_status`: while the status is `PREPARING`,
wait on the condition; a wait that returns `FALSE` stores `ERROR`.  The wakes
before the deadline are the list; once it is used up the deadline has passed
and the next wait returns `FALSE`. -/
def wait_status_loop : List Wake → World → World
  | [], w =>
    if w.media.status = .PREPARING then
      store_status .ERROR (emit (.cond_wait_until false) w)
    else w
  | wake :: rest, w =>
    if w.media.status = .PREPARING then
      let w := wake.handled.foldl (fun w n => dispatch n.1 n.2 w) w
      let w := emit (.cond_wait_until wake.signalled) w
      let w := if wake.signalled then w else store_status .ERROR w
      wait_status_loop rest w
    else w

/-- The function `gst_rtsp_media_get_status`: the status once it is no longer
`PREPARING`, bounded by the 20 second deadline. -/
def gst_rtsp_media_get_status (wakes : List Wake) (w : World) :
    GstRTSPMediaStatus × World :=
  let w := emit .mutex_lock w
  let w := wait_status_loop wakes w
  (w.media.status, emit .mutex_unlock w)

/-! ## Prepare -/

/-- Where the first part of `gst_rtsp_media_prepare` (up to the label
`wait_status`) leaves control: a return, the label `state_failed`, or the
label `wait_status`. -/
inductive PrepareStep
  | returned (ret : Bool) (w : World)
  | state_failed (w : World)
  | wait_status (w : World)

/-- The body of the loop over `priv->dynamic` in `gst_rtsp_media_prepare`. -/
def prepare_dynamic (g : Engine) (w : World) (elem : Nat) : World :=
  let w := emit (.signal_connect_pad_added elem) w
  let w := emit (.signal_connect_no_more_pads elem) w
  let w := emit .element_factory_make_fakesink w
  let w := w.upd fun m => { m with fakesink := g.factory_make_fakesink elem }
  emit (.bin_add w.media.fakesink) w

/-- The setup block of `gst_rtsp_media_prepare`, from "reset some variables" to
the request for `PAUSED`: reset the flags, store `PREPARING`, attach the bus
watch, add `rtpbin` to the pipeline, join the streams, wire the dynamic
elements, request `PAUSED` and store it as the target state. -/
def prepare_setup (g : Engine) (w : World) : World :=
  let w := w.upd fun m => { m with is_live := false }
  let w := w.upd fun m => { m with seekable := false }
  let w := w.upd fun m => { m with buffering := false }
  let w := store_status .PREPARING w
  let w := emit .bus_create_watch w
  let w := w.upd fun m => { m with source := some g.create_watch }
  let w := emit .source_attach w
  let w := w.upd fun m => { m with id := g.attach_id }
  let w := emit (.bin_add w.media.rtpbin) w
  let w := emits (w.media.streams.map fun s => Event.stream_join_bin s.idx .NULL) w
  let w := w.media.dynamic.foldl (prepare_dynamic g) w
  let w := emit (.element_set_state .PAUSED) w
  w.upd fun m => { m with target_state := .PAUSED }

/-- The switch of `gst_rtsp_media_prepare` on the answer to the request for
`PAUSED`: success and async mark the media seekable, no-preroll marks it live
and not seekable and requests `PLAYING`, a failure goes to `state_failed`. -/
def prepare_preroll (g : Engine) (w : World) : PrepareStep :=
  match g.set_state .PAUSED with
  | .SUCCESS => .wait_status (w.upd fun m => { m with seekable := true })
  | .ASYNC => .wait_status (w.upd fun m => { m with seekable := true })
  | .NO_PREROLL =>
    let w := w.upd fun m => { m with seekable := false }
    let w := w.upd fun m => { m with is_live := true }
    let w := emit (.element_set_state .PLAYING) w
    if g.set_state .PLAYING = .FAILURE then .state_failed w
    else .wait_status w
  | .FAILURE => .state_failed w

/-- The function `gst_rtsp_media_prepare` from its entry to the label
`wait_status`. -/
def prepare_begin (g : Engine) (w : World) : PrepareStep :=
  let w := emit .rec_mutex_lock w
  if w.media.status = .PREPARED then
    .returned true (emit .rec_mutex_unlock w)
  else if w.media.status = .PREPARING then
    .wait_status w
  else if w.media.status ≠ .UNPREPARED then
    .returned false (emit .rec_mutex_unlock w)
  else if !w.media.reusable && w.media.reused then
    .returned false (emit .rec_mutex_unlock w)
  else
    let w := emit .element_factory_make_rtpbin w
    let w := w.upd fun m => { m with rtpbin := g.factory_make_rtpbin }
    if w.media.rtpbin = none then
      .returned false (emit .rec_mutex_unlock w)
    else
      prepare_preroll g (prepare_setup g w)

/-- The world a first part of `gst_rtsp_media_prepare` ends in. -/
def PrepareStep.world : PrepareStep → World
  | .returned _ w => w
  | .state_failed w => w
  | .wait_status w => w

/-- The block `state_failed` of `gst_rtsp_media_prepare`: unprepare, release the
state lock, return `FALSE`. -/
def prepare_state_failed (w : World) : Bool × World :=
  let w := (gst_rtsp_media_unprepare w).2
  (false, emit .rec_mutex_unlock w)

/-- The function `gst_rtsp_media_prepare` from the label `wait_status` on:
release the state lock, wait for the status, fail on `ERROR`, otherwise emit
`prepared` and return `TRUE`. -/
def prepare_wait_status (wakes : List Wake) (w : World) : Bool × World :=
  let w := emit .rec_mutex_unlock w
  let r := gst_rtsp_media_get_status wakes w
  if r.1 = .ERROR then prepare_state_failed r.2
  else (true, emit .signal_prepared r.2)

/-- The function `gst_rtsp_media_prepare`. -/
def gst_rtsp_media_prepare (g : Engine) (wakes : List Wake) (w : World) :
    Bool × World :=
  match prepare_begin g w with
  | .returned ret w => (ret, w)
  | .state_failed w => prepare_state_failed w
  | .wait_status w => prepare_wait_status wakes w

/-! ## Seek -/

/-- The function `gst_rtsp_media_seek`. -/
def gst_rtsp_media_seek (g : Engine) (range : GstRTSPTimeRange) (w : World) :
    Bool × World :=
  let w := emit .rec_mutex_lock w
  if w.media.status ≠ .PREPARED then
    (false, emit .rec_mutex_unlock w)
  else if w.media.seekable = false then
    (true, emit .rec_mutex_unlock w)
  else
    match g.range_get_times range with
    | none => (false, emit .rec_mutex_unlock w)
    | some (start0, stop0) =>
      let start : Nat :=
        if w.media.range_start = start0 then GST_CLOCK_TIME_NONE else start0
      let start_type : GstSeekType :=
        if w.media.range_start = start0 then .NONE
        else if start0 ≠ GST_CLOCK_TIME_NONE then .SET else .NONE
      let stop : Nat :=
        if w.media.range_stop = stop0 then GST_CLOCK_TIME_NONE else stop0
      let stop_type : GstSeekType :=
        if w.media.range_stop = stop0 then .NONE
        else if stop0 ≠ GST_CLOCK_TIME_NONE then .SET else .NONE
      if start ≠ GST_CLOCK_TIME_NONE ∨ stop ≠ GST_CLOCK_TIME_NONE then
        let w := emit (.element_seek start_type start stop_type stop) w
        let res := g.seek
        let w := emit .element_get_state w
        let w := collect_media_stats g w
        (res, emit .rec_mutex_unlock w)
      else
        (true, emit .rec_mutex_unlock w)

/-! ## The range string -/

/-- The function `gst_rtsp_media_get_range_string`: `NULL` unless the session is
`PREPARED`; otherwise a copy of the range, whose lower bound is replaced by
"now" when the string is not for a PLAY request and transports are active, is
handed to `gst_rtsp_range_to_string`.  That function belongs to the RTSP
library; its answer is the parameter `range_to_string`, over any type `S` of
strings. -/
def gst_rtsp_media_get_range_string {S : Type}
    (range_to_string : GstRTSPTimeRange → Option S) (play : Bool) (w : World) :
    Option S × World :=
  let w := emit .rec_mutex_lock w
  if w.media.status ≠ .PREPARED then
    (none, emit .rec_mutex_unlock w)
  else
    let w := emit .mutex_lock w
    let range := w.media.range
    let range : GstRTSPTimeRange :=
      if play = false ∧ w.media.n_active > 0 then
        { range with min := ⟨.NOW, .minus_one⟩ }
      else range
    let w := emit .mutex_unlock w
    let w := emit .rec_mutex_unlock w
    (range_to_string range, w)

/-! ## Delivery state -/

/-- Modelled from the spec: `gst_rtsp_stream_transport_set_active` lives in
`rtsp-stream-transport.c`, which is not among the sources.  The spec says that
activation and deactivation of a per-client transport "report whether a net
state change occurred": the call reports a change exactly when the requested
flag differs from the current one, and the transport then has the requested
flag. -/
def gst_rtsp_stream_transport_set_active (tr : Nat) (active : Bool) (w : World) :
    Bool × World :=
  let changed : Bool := decide (tr ∈ w.active) != active
  let w :=
    if changed then
      if active then { w with active := tr :: w.active }
      else { w with active := w.active.filter fun t => t != tr }
    else w
  (changed, emit (.transport_set_active tr active changed) w)

/-- The loop of `gst_rtsp_media_set_state` over the transport array; a `NULL`
entry is skipped. -/
def set_state_transports (activate deactivate : Bool) :
    List (Option Nat) → World → World
  | [], w => w
  | none :: rest, w => set_state_transports activate deactivate rest w
  | some tr :: rest, w =>
    if activate then
      let r := gst_rtsp_stream_transport_set_active tr true w
      let w := if r.1 then r.2.upd fun m => { m with n_active := m.n_active + 1 } else r.2
      set_state_transports activate deactivate rest w
    else if deactivate then
      let r := gst_rtsp_stream_transport_set_active tr false w
      let w := if r.1 then r.2.upd fun m => { m with n_active := m.n_active - 1 } else r.2
      set_state_transports activate deactivate rest w
    else
      set_state_transports activate deactivate rest w

/-- The state a request stands for in `gst_rtsp_media_set_state`: `NULL` and
`READY` are the same. -/
def requested_state (state : GstState) : GstState :=
  if state = .READY then .NULL else state

/-- The block of `gst_rtsp_media_set_state` after the transport loop: `do_state`
holds when the counter was `0` and transports are being activated, or when the
counter is `0` now; when the target state differs from the requested one, a
request with `do_state` unprepares (for `NULL`) or stores the target state and
sets the pipeline to it, and `new-state` is emitted. -/
def set_state_change (state : GstState) (activate : Bool) (old_active : Int)
    (w : World) : World :=
  let do_state : Bool :=
    if old_active = 0 ∧ activate = true then true
    else if w.media.n_active = 0 then true
    else false
  if w.media.target_state ≠ state then
    let w :=
      if do_state then
        if state = .NULL then (gst_rtsp_media_unprepare w).2
        else
          let w := w.upd fun m => { m with target_state := state }
          emit (.element_set_state state) w
      else w
    emit (.signal_new_state state) w
  else w

/-- The last block of `gst_rtsp_media_set_state` ("remember where we are"):
the playable range is collected again unless the request is `NULL`, when the
request is `PAUSED` or the counter moved. -/
def set_state_collect (g : Engine) (state : GstState) (old_active : Int)
    (w : World) : World :=
  if state ≠ .NULL ∧ (state = .PAUSED ∨ old_active ≠ w.media.n_active) then
    collect_media_stats g w
  else w

/-- The function `gst_rtsp_media_set_state`. -/
def gst_rtsp_media_set_state (g : Engine) (state : GstState)
    (transports : List (Option Nat)) (w : World) : Bool × World :=
  let w := emit .rec_mutex_lock w
  if w.media.status ≠ .PREPARED then
    (false, emit .rec_mutex_unlock w)
  else
    let state := requested_state state
    let deactivate : Bool :=
      (state = .NULL ∨ state = .PAUSED) ∧ w.media.target_state = .PLAYING
    let activate : Bool := state = .PLAYING
    let old_active := w.media.n_active
    let w := set_state_transports activate deactivate transports w
    let w := set_state_change state activate old_active w
    let w := set_state_collect g state old_active w
    (true, emit .rec_mutex_unlock w)

/-! ## Configuration -/

/-- The function `gst_rtsp_media_set_shared`. -/
def gst_rtsp_media_set_shared (shared : Bool) (w : World) : World :=
  let w := emit .mutex_lock w
  let w := w.upd fun m => { m with shared := shared }
  emit .mutex_unlock w

/-- The function `gst_rtsp_media_set_reusable`. -/
def gst_rtsp_media_set_reusable (reusable : Bool) (w : World) : World :=
  let w := emit .mutex_lock w
  let w := w.upd fun m => { m with reusable := reusable }
  emit .mutex_unlock w

/-- The function `gst_rtsp_media_set_protocols`. -/
def gst_rtsp_media_set_protocols (protocols : Nat) (w : World) : World :=
  let w := emit .mutex_lock w
  let w := w.upd fun m => { m with protocols := protocols }
  emit .mutex_unlock w

/-- The function `gst_rtsp_media_set_eos_shutdown`. -/
def gst_rtsp_media_set_eos_shutdown (eos_shutdown : Bool) (w : World) : World :=
  let w := emit .mutex_lock w
  let w := w.upd fun m => { m with eos_shutdown := eos_shutdown }
  emit .mutex_unlock w

/-- The function `gst_rtsp_media_set_buffer_size`. -/
def gst_rtsp_media_set_buffer_size (size : Nat) (w : World) : World :=
  let w := emit .mutex_lock w
  let w := w.upd fun m => { m with buffer_size := size }
  emit .mutex_unlock w

/-- The private fields after `g_object_new` (all zero) and
`gst_rtsp_media_init`, with the element given to `gst_rtsp_media_new`. -/
def gst_rtsp_media_new (element : Nat) : GstRTSPMediaPrivate where
  shared := false
  reusable := false
  protocols := 5
  reused := false
  eos_shutdown := false
  buffer_size := 524288
  auth := none
  pool := none
  element := element
  streams := []
  dynamic := []
  status := .UNPREPARED
  n_active := 0
  adding := false
  pipeline := none
  fakesink := none
  source := none
  id := 0
  is_live := false
  seekable := false
  buffering := false
  target_state := .VOID_PENDING
  rtpbin := none
  range := ⟨.SMPTE, ⟨.SECONDS, .of_time 0⟩, ⟨.SECONDS, .of_time 0⟩⟩
  range_start := 0
  range_stop := 0

/-! ## Sequences of operations -/

/-- The operations on a session: the calls of the interface and the delivery of
a graph notification by the control-message thread. -/
inductive Op
  | prepare (g : Engine) (wakes : List Wake)
  | unprepare
  | seek (g : Engine) (range : GstRTSPTimeRange)
  | set_state (g : Engine) (state : GstState) (transports : List (Option Nat))
  | get_status (wakes : List Wake)
  | notify (g : Engine) (message : GstMessage)
  | set_shared (shared : Bool)
  | set_reusable (reusable : Bool)
  | set_protocols (protocols : Nat)
  | set_eos_shutdown (eos_shutdown : Bool)
  | set_buffer_size (size : Nat)

/-- Perform one operation. -/
def Op.run : Op → World → World
  | .prepare g wakes, w => (gst_rtsp_media_prepare g wakes w).2
  | .unprepare, w => (gst_rtsp_media_unprepare w).2
  | .seek g range, w => (gst_rtsp_media_seek g range w).2
  | .set_state g state transports, w => (gst_rtsp_media_set_state g state transports w).2
  | .get_status wakes, w => (gst_rtsp_media_get_status wakes w).2
  | .notify g message, w => dispatch g message w
  | .set_shared b, w => gst_rtsp_media_set_shared b w
  | .set_reusable b, w => gst_rtsp_media_set_reusable b w
  | .set_protocols p, w => gst_rtsp_media_set_protocols p w
  | .set_eos_shutdown b, w => gst_rtsp_media_set_eos_shutdown b w
  | .set_buffer_size n, w => gst_rtsp_media_set_buffer_size n w

/-- Perform a sequence of operations, first to last. -/
def run_ops (ops : List Op) (w : World) : World :=
  ops.foldl (fun w op => op.run w) w

/-- The operation is a call of `gst_rtsp_media_unprepare`. -/
def Op.is_unprepare : Op → Bool
  | .unprepare => true
  | _ => false

/-- The operation is a call of `gst_rtsp_media_set_state`. -/
def Op.is_set_state : Op → Bool
  | .set_state _ _ _ => true
  | _ => false

/-! ## Prepare while other threads use the session -/

/-- Operations other threads perform on the session while the running thread
holds neither the state lock nor the attribute mutex, each run to its end: what
they do to the session and to the calls of the control-message thread stays;
their calls are not calls of the running thread, whose log is as before. -/
def on_other_threads (ops : List Op) (w : World) : World :=
  { run_ops ops w with log := w.log }

/-- One return of `g_cond_wait_until` inside the status wait of a session that
other threads use as well: the operations they performed while the waiter had
released the mutex (the delivery of notifications among them), and whether the
wait was signalled (`false` when the deadline passed). -/
structure Turn where
  others : List Op
  signalled : Bool

/-- The loop of `gst_rtsp_media_get_status` as in `wait_status_loop`, the other
threads performing the operations of each turn during the wait. -/
def wait_status_loop_shared : List Turn → World → World
  | [], w =>
    if w.media.status = .PREPARING then
      store_status .ERROR (emit (.cond_wait_until false) w)
    else w
  | turn :: rest, w =>
    if w.media.status = .PREPARING then
      let w := on_other_threads turn.others w
      let w := emit (.cond_wait_until turn.signalled) w
      let w := if turn.signalled then w else store_status .ERROR w
      wait_status_loop_shared rest w
    else w

/-- The function `gst_rtsp_media_get_status` on a session that other threads
use during the waits. -/
def gst_rtsp_media_get_status_shared (turns : List Turn) (w : World) :
    GstRTSPMediaStatus × World :=
  let w := emit .mutex_lock w
  let w := wait_status_loop_shared turns w
  (w.media.status, emit .mutex_unlock w)

/-- The function `gst_rtsp_media_prepare` on a session that other threads use
while the caller does not hold the state lock: they perform `before` between
the release of the state lock at the label `wait_status` and the acquisition
of the mutex by `gst_rtsp_media_get_status`, and the operations of `turns`
during the waits. -/
def gst_rtsp_media_prepare_shared (g : Engine) (before : List Op) (turns : List Turn)
    (w : World) : Bool × World :=
  match prepare_begin g w with
  | .returned ret w => (ret, w)
  | .state_failed w => prepare_state_failed w
  | .wait_status w =>
    let w := emit .rec_mutex_unlock w
    let w := on_other_threads before w
    let r := gst_rtsp_media_get_status_shared turns w
    if r.1 = .ERROR then prepare_state_failed r.2
    else (true, emit .signal_prepared r.2)

/-- The turn of a wake: the control-message thread handles the notifications
of the wake and no other thread does anything. -/
def Wake.turn (wake : Wake) : Turn :=
  ⟨wake.handled.map fun n => Op.notify n.1 n.2, wake.signalled⟩

/-! ## Concrete sessions and answers used as examples -/

/-- An engine that prerolls asynchronously, seeks successfully, reports
position `0` and duration one minute, and reads every range as that minute. -/
def engine0 : Engine where
  factory_make_rtpbin := some 20
  factory_make_fakesink := fun _ => some 21
  create_watch := 22
  attach_id := 1
  set_state := fun _ => .ASYNC
  seek := true
  query_position := some 0
  query_duration := some 60000000000
  range_get_times := fun _ => some (0, 60000000000)

/-- A new, unprepared session around element `10` with pipeline `11` and two
static streams. -/
def world0 : World where
  media := { gst_rtsp_media_new 10 with
    pipeline := some 11
    streams := [⟨0, 30, 40, none⟩, ⟨1, 31, 41, none⟩] }
  active := []
  log := []
  bus_log := []

/-- The wakes of a preparation that succeeds: the control-message thread
handles the preroll-complete notification and signals the waiter. -/
def wakes_async_done : List Wake :=
  [⟨[(engine0, .ASYNC_DONE)], true⟩]

/-- The session `world0` after a successful `gst_rtsp_media_prepare`, with the
logs cleared. -/
def world_prepared : World :=
  { (gst_rtsp_media_prepare engine0 wakes_async_done world0).2 with log := [], bus_log := [] }

/-! ## Definitions used to state the properties -/

/-- A session in `ERROR`: the prepared session after an error notification. -/
def world_error : World :=
  (default_handle_message engine0 .ERROR world_prepared).2

/-- The number of activations that reported a change. -/
def activations (es : List Event) : Int := (es.countP Event.is_activation : Nat)

/-- The number of deactivations that reported a change. -/
def deactivations (es : List Event) : Int := (es.countP Event.is_deactivation : Nat)

/-- The calls the transport loop makes, given the two flags. -/
def expected_calls (activate deactivate : Bool) (transports : List (Option Nat)) :
    List (Nat × Bool) :=
  if activate then (transports.filterMap id).map fun t => (t, true)
  else if deactivate then (transports.filterMap id).map fun t => (t, false)
  else []

/-- A sequence of `gst_rtsp_media_set_state` calls, first to last. -/
def run_set_states (calls : List (Engine × GstState × List (Option Nat))) (w : World) :
    World :=
  calls.foldl (fun w c => (gst_rtsp_media_set_state c.1 c.2.1 c.2.2 w).2) w

/-- A prepared session with `eos_shutdown` whose client `7` is playing, after
an unprepare request followed by a preroll-complete notification: the status
is `PREPARED` again, the target state is `NULL`, the transport is active. -/
def world_playing_after_unprepare : World :=
  run_ops
    [.set_eos_shutdown true, .prepare engine0 wakes_async_done,
      .set_state engine0 .PLAYING [some 7], .unprepare, .notify engine0 .ASYNC_DONE]
    world0

/-- The statuses a preparation in flight can be in. -/
def in_flight (s : GstRTSPMediaStatus) : Prop :=
  s = .PREPARING ∨ s = .PREPARED ∨ s = .ERROR

instance (s : GstRTSPMediaStatus) : Decidable (in_flight s) := by
  unfold in_flight
  infer_instance

/-- The operation sets the reusable flag. -/
def Op.makes_reusable : Op → Bool
  | .set_reusable true => true
  | _ => false

/-- The state a teardown leaves a non-reusable session in. -/
def used_up (w : World) : Prop :=
  w.media.status = .UNPREPARED ∧ w.media.reused = true ∧ w.media.reusable = false ∧
    w.media.source = none

instance (w : World) : Decidable (used_up w) := by
  unfold used_up
  infer_instance

/-- The prepared example session with client `7` playing: the target state is
playing, the counter is `1`; the logs are cleared. -/
def world_playing : World :=
  { (gst_rtsp_media_set_state engine0 .PLAYING [some 7, none] world_prepared).2 with
    log := [], bus_log := [] }

/-- An engine for a live source: the request for `PAUSED` answers no-preroll,
every other run-state request succeeds, and no range unit is supported. -/
def engine_live : Engine :=
  { engine0 with
    set_state := fun s => if s = .PAUSED then .NO_PREROLL else .SUCCESS
    range_get_times := fun _ => none }

/-- The session `world0` prepared on a live source, with the logs cleared: the
status is `PREPARED`, the media is live and not seekable. -/
def world_live : World :=
  { (gst_rtsp_media_prepare engine_live [⟨[(engine_live, .ASYNC_DONE)], true⟩] world0).2 with
    log := [], bus_log := [] }

/-- The engine `engine0` with a range conversion that supports no unit. -/
def engine_no_unit : Engine :=
  { engine0 with range_get_times := fun _ => none }

/-- The prepared example session with `eos_shutdown` set. -/
def world_prepared_eos : World :=
  { (gst_rtsp_media_set_eos_shutdown true world_prepared) with log := [], bus_log := [] }

/-- A range in normal play time from the start to the end. -/
def range_npt : GstRTSPTimeRange := ⟨.NPT, ⟨.SECONDS, .of_time 0⟩, ⟨.END, .minus_one⟩⟩

/-- Handling of a sequence of notifications by the callback of the bus watch,
first to last. -/
def bus_messages (l : List (Engine × GstMessage)) (w : World) : World :=
  l.foldl (fun w n => (bus_message n.1 n.2 w).2) w

/-- The session fields a teardown resets: the stream registry, the used-once
flag and the attachments to the graph (`rtpbin`, the bus watch, the pipeline). -/
def torn_down (w : World) : Prop :=
  w.media.status = .UNPREPARED ∧ w.media.streams = [] ∧ w.media.reused = true ∧
    w.media.rtpbin = none ∧ w.media.source = none ∧ w.media.pipeline = none

instance (w : World) : Decidable (torn_down w) := by
  unfold torn_down
  infer_instance

/-- The registry, the used-once flag and the graph attachments of two worlds
agree. -/
def same_attachments (w w' : World) : Prop :=
  w'.media.streams = w.media.streams ∧ w'.media.reused = w.media.reused ∧
    w'.media.rtpbin = w.media.rtpbin ∧ w'.media.source = w.media.source ∧
    w'.media.pipeline = w.media.pipeline

instance (w w' : World) : Decidable (same_attachments w w') := by
  unfold same_attachments
  infer_instance

/-! ## The stream registry -/

/-- Modelled from the spec: `gst_rtsp_stream_new` lives in `rtsp-stream.c`,
which is not among the sources.  The spec gives a Stream Handle "an ordinal
index (position of discovery), a reference to its data-producing element in the
processing graph, a published output connection point, optional
network-address-pool binding": a new handle has the index, the producer and the
connection point it is given, and no binding. -/
def gst_rtsp_stream_new (idx payloader srcpad : Nat) : GstRTSPStream :=
  ⟨idx, payloader, srcpad, none⟩

/-- Modelled from the spec: `gst_rtsp_stream_set_address_pool` lives in
`rtsp-stream.c`, which is not among the sources.  The spec calls the pool of a
Stream Handle its "address-pool binding" and says the session "forwards
address-pool assignment to every Stream Handle it owns": the handle is bound to
the pool it is given. -/
def gst_rtsp_stream_set_address_pool (pool : Option Nat) (stream : GstRTSPStream) :
    GstRTSPStream :=
  { stream with pool := pool }

/-- The function `gst_rtsp_media_set_address_pool`. -/
def gst_rtsp_media_set_address_pool (pool : Option Nat) (w : World) : World :=
  let w := emit .mutex_lock w
  let w := if w.media.pool ≠ pool then w.upd fun m => { m with pool := pool } else w
  let w := emits (w.media.streams.map fun s => Event.stream_set_address_pool s.idx pool) w
  let w := w.upd fun m =>
    { m with streams := m.streams.map (gst_rtsp_stream_set_address_pool pool) }
  emit .mutex_unlock w

/-- The function `gst_rtsp_media_get_address_pool`. -/
def gst_rtsp_media_get_address_pool (w : World) : Option Nat × World :=
  let w := emit .mutex_lock w
  let result := w.media.pool
  (result, emit .mutex_unlock w)

/-- The function `gst_rtsp_media_create_stream`, for a payloader and a source
pad that pass its argument checks; `ghost` is the answer of
`gst_ghost_pad_new`. -/
def gst_rtsp_media_create_stream (payloader pad ghost : Nat) (w : World) :
    GstRTSPStream × World :=
  let w := emit .mutex_lock w
  let idx := w.media.streams.length
  let w := emit (.ghost_pad_new idx pad) w
  let srcpad := ghost
  let w := emit (.pad_set_active srcpad) w
  let w := emit (.element_add_pad srcpad) w
  let w := emit (.stream_new idx) w
  let stream := gst_rtsp_stream_new idx payloader srcpad
  let w := if w.media.pool.isSome then emit (.stream_set_address_pool idx w.media.pool) w else w
  let stream :=
    if w.media.pool.isSome then gst_rtsp_stream_set_address_pool w.media.pool stream
    else stream
  let w := w.upd fun m => { m with streams := m.streams ++ [stream] }
  let w := emit .mutex_unlock w
  let w := emit (.signal_new_stream idx) w
  (stream, w)

/-- The function `gst_rtsp_media_n_streams`. -/
def gst_rtsp_media_n_streams (w : World) : Nat × World :=
  let w := emit .mutex_lock w
  let res := w.media.streams.length
  (res, emit .mutex_unlock w)

/-- The function `gst_rtsp_media_get_stream`. -/
def gst_rtsp_media_get_stream (idx : Nat) (w : World) : Option GstRTSPStream × World :=
  let w := emit .mutex_lock w
  let res := if idx < w.media.streams.length then w.media.streams[idx]? else none
  (res, emit .mutex_unlock w)

/-- The function `gst_rtsp_media_get_buffer_size`. -/
def gst_rtsp_media_get_buffer_size (w : World) : Nat × World :=
  let w := emit .mutex_unlock w
  let res := w.media.buffer_size
  (res, emit .mutex_unlock w)

/-! ## Dynamic outputs -/

/-- The function `pad_added_cb`, called from a streaming thread: a stream is
created for the new pad and joined at `PAUSED`, with `adding` set meanwhile. -/
def pad_added_cb (element pad ghost : Nat) (w : World) : World :=
  let r := gst_rtsp_media_create_stream element pad ghost w
  let w := emit .rec_mutex_lock r.2
  let w := w.upd fun m => { m with adding := true }
  let w := emit (.stream_join_bin r.1.idx .PAUSED) w
  let w := w.upd fun m => { m with adding := false }
  emit .rec_mutex_unlock w

/-- The function `no_more_pads_cb`. -/
def no_more_pads_cb (w : World) : World :=
  let w := emit .mutex_lock w
  match w.media.fakesink with
  | some fakesink =>
    let w := w.upd fun m => { m with fakesink := none }
    let w := emit .mutex_unlock w
    let w := emit (.bin_remove (some fakesink)) w
    emit (.child_set_state fakesink .NULL) w
  | none => w

/-! ## Static discovery -/

/-- The name of an element inside the media element, as far as
`gst_rtsp_media_collect_streams` looks at names: `pay%d`, `dynpay%d`, or any
other name. -/
inductive ElementName
  | pay (i : Nat)
  | dynpay (i : Nat)
  | other (n : Nat)
  deriving DecidableEq, Repr

/-- A producer inside the media element: its name, the element and its static
source pad `src`. -/
structure Producer where
  name : ElementName
  elem : Nat
  srcpad : Nat
  deriving DecidableEq, Repr

/-- The function `gst_bin_get_by_name` on the media element: the first element
with the name. -/
def bin_get_by_name (graph : List Producer) (name : ElementName) : Option Producer :=
  graph.find? fun e => e.name = name

/-- One pass of the loop body of `gst_rtsp_media_collect_streams` for the number
`i`: a payloader `pay<i>` gets a stream on its source pad, an element
`dynpay<i>` is prepended to the dynamic elements under the attribute mutex.
The first component is `have_elem`. -/
def collect_streams_body (graph : List Producer) (ghost : Nat → Nat) (i : Nat) (w : World) :
    Bool × World :=
  let w := emit (.bin_get_by_name false i) w
  let r : Bool × World :=
    match bin_get_by_name graph (.pay i) with
    | some elem =>
      let w := emit (.element_get_static_pad elem.elem) w
      (true, (gst_rtsp_media_create_stream elem.elem elem.srcpad
        (ghost w.media.streams.length) w).2)
    | none => (false, w)
  let w := emit (.bin_get_by_name true i) r.2
  match bin_get_by_name graph (.dynpay i) with
  | some elem =>
    let w := emit .mutex_lock w
    let w := w.upd fun m => { m with dynamic := elem.elem :: m.dynamic }
    (true, emit .mutex_unlock w)
  | none => (r.1, w)

/-- The loop `for (i = 0; have_elem; i++)` of `gst_rtsp_media_collect_streams`
from the number `i` on, run for at most `fuel` passes; `none` when the passes
run out. -/
def collect_streams_loop (graph : List Producer) (ghost : Nat → Nat) :
    Nat → Nat → World → Option World
  | 0, _, _ => none
  | fuel + 1, i, w =>
    let r := collect_streams_body graph ghost i w
    if r.1 then collect_streams_loop graph ghost fuel (i + 1) r.2
    else some r.2

/-- The function `gst_rtsp_media_collect_streams` on a media element with the
producers `graph`; `ghost idx` is the answer of `gst_ghost_pad_new` for the
stream `idx`.  One pass more than there are producers is allowed for. -/
def gst_rtsp_media_collect_streams (graph : List Producer) (ghost : Nat → Nat) (w : World) :
    Option World :=
  collect_streams_loop graph ghost (graph.length + 1) 0 w

/-- The number of acquisitions of a lock among the calls minus the number of
its releases. -/
def lock_balance (lock unlock : Event) (es : List Event) : Int :=
  (es.count lock : Int) - (es.count unlock : Int)

/-- No release of the lock among the calls is made while the lock is not held,
`depth` being the number of holds before the calls. -/
def released_only_held (lock unlock : Event) : Int → List Event → Bool
  | _, [] => true
  | depth, e :: es =>
    if e = unlock then decide (0 < depth) && released_only_held lock unlock (depth - 1) es
    else if e = lock then released_only_held lock unlock (depth + 1) es
    else released_only_held lock unlock depth es

/-- Every store to `priv->status` among the calls is made while the lock is
held, `depth` being the number of holds before the calls. -/
def stores_held (lock unlock : Event) : Int → List Event → Bool
  | _, [] => true
  | depth, e :: es =>
    if e = unlock then stores_held lock unlock (depth - 1) es
    else if e = lock then stores_held lock unlock (depth + 1) es
    else
      match e with
      | .store_status _ => decide (0 < depth) && stores_held lock unlock depth es
      | _ => stores_held lock unlock depth es

/-- Every store to `priv->status` among the calls is followed by a broadcast on
the condition. -/
def stores_broadcast : List Event → Bool
  | [] => true
  | .store_status _ :: es => es.contains .cond_broadcast && stores_broadcast es
  | _ :: es => stores_broadcast es

/-- The stream at every position of the registry has the position as its
index. -/
def dense (w : World) : Prop :=
  (w.media.streams.map fun s => s.idx) = List.range w.media.streams.length

instance (w : World) : Decidable (dense w) := by
  unfold dense
  infer_instance

/-- Every stream of the registry is bound to the address pool of the session. -/
def pools_bound (w : World) : Prop :=
  ∀ s ∈ w.media.streams, s.pool = w.media.pool

instance (w : World) : Decidable (pools_bound w) := by
  unfold pools_bound
  infer_instance

/-- The operations on the registry: creation of a stream, assignment of the
address pool, and the teardown. -/
inductive RegistryOp
  | create_stream (payloader pad ghost : Nat)
  | set_address_pool (pool : Option Nat)
  | teardown
  deriving DecidableEq, Repr

/-- Perform one operation on the registry. -/
def RegistryOp.run : RegistryOp → World → World
  | .create_stream payloader pad ghost, w =>
    (gst_rtsp_media_create_stream payloader pad ghost w).2
  | .set_address_pool pool, w => gst_rtsp_media_set_address_pool pool w
  | .teardown, w => finish_unprepare w

/-- Perform a sequence of operations on the registry, first to last. -/
def run_registry_ops (ops : List RegistryOp) (w : World) : World :=
  ops.foldl (fun w op => op.run w) w

/-- A new session around element `10`, with nothing in its registry. -/
def world_new : World := ⟨gst_rtsp_media_new 10, [], [], []⟩

/-- The number `i` names a producer: the graph has `pay<i>` or `dynpay<i>`. -/
def has_producer (graph : List Producer) (i : Nat) : Bool :=
  (bin_get_by_name graph (.pay i)).isSome || (bin_get_by_name graph (.dynpay i)).isSome

/-- The streams `gst_rtsp_media_collect_streams` creates for the numbers below
`k` in a registry that holds `n` streams: one per payloader, in increasing
number, at consecutive indices, bound to `pool`. -/
def collected_streams (graph : List Producer) (ghost : Nat → Nat) (pool : Option Nat) :
    Nat → Nat → List GstRTSPStream
  | 0, _ => []
  | k + 1, n =>
    let l := collected_streams graph ghost pool k n
    match bin_get_by_name graph (.pay k) with
    | some e => l ++ [⟨n + l.length, e.elem, ghost (n + l.length), pool⟩]
    | none => l

/-- The dynamic elements found for the numbers below `k`, the last found
first. -/
def collected_dynamic (graph : List Producer) : Nat → List Nat
  | 0 => []
  | k + 1 =>
    match bin_get_by_name graph (.dynpay k) with
    | some e => e.elem :: collected_dynamic graph k
    | none => collected_dynamic graph k

/-- A media element with the payloaders `pay0` and `pay1`, the dynamic element
`dynpay1`, an element of another name, and a payloader `pay3` behind the gap
at `2`. -/
def graph0 : List Producer :=
  [⟨.pay 0, 100, 200⟩, ⟨.other 0, 101, 201⟩, ⟨.dynpay 1, 102, 202⟩, ⟨.pay 1, 103, 203⟩,
    ⟨.pay 3, 104, 204⟩]

/-- The calls of the loop over `priv->dynamic` in `gst_rtsp_media_prepare`. -/
def prepare_dynamic_events (g : Engine) : List Nat → List Event
  | [] => []
  | elem :: rest =>
    [.signal_connect_pad_added elem, .signal_connect_no_more_pads elem,
      .element_factory_make_fakesink, .bin_add (g.factory_make_fakesink elem)] ++
      prepare_dynamic_events g rest

/-- The calls of the setup block of `gst_rtsp_media_prepare`. -/
def prepare_setup_events (g : Engine) (w : World) : List Event :=
  [.store_status .PREPARING, .bus_create_watch, .source_attach, .bin_add w.media.rtpbin] ++
    (w.media.streams.map fun s => Event.stream_join_bin s.idx .NULL) ++
    prepare_dynamic_events g w.media.dynamic ++ [.element_set_state .PAUSED]

/-- The hold depth of the state lock after the calls logged so far. -/
def state_lock_depth (w : World) : Int :=
  lock_balance .rec_mutex_lock .rec_mutex_unlock w.log

/-- The hold depth of the attribute mutex after the calls logged so far. -/
def mutex_depth (w : World) : Int :=
  lock_balance .mutex_lock .mutex_unlock w.log

/-- The call takes or releases the state lock or the attribute mutex, or
broadcasts on the condition. -/
def Event.is_sync : Event → Bool
  | .rec_mutex_lock => true
  | .rec_mutex_unlock => true
  | .mutex_lock => true
  | .mutex_unlock => true
  | .cond_broadcast => true
  | _ => false

/-- The call is a store to `priv->status`. -/
def Event.is_store : Event → Bool
  | .store_status _ => true
  | _ => false

/-- An engine whose pipeline refuses every run-state request. -/
def engine_fail : Engine :=
  { engine0 with set_state := fun _ => .FAILURE }

/-- The prepared example session with `eos_shutdown` after
`gst_rtsp_media_unprepare`: it waits in `UNPREPARING` for the end-of-stream. -/
def world_unpreparing : World :=
  (gst_rtsp_media_unprepare world_prepared_eos).2

/-- The new session `world0` while a first thread prepares it: that thread has
released the state lock at the label `wait_status` and is about to wait. -/
def world_preparing : World :=
  emit .rec_mutex_unlock (prepare_begin engine0 world0).world

/-- The registry holds the streams `l`, or none at all. -/
def kept_or_emptied (l : List GstRTSPStream) (w : World) : Prop :=
  w.media.streams = l ∨ w.media.streams = []

/-- The number in a name of the form `pay%d` or `dynpay%d`. -/
def ElementName.number : ElementName → Option Nat
  | .pay i => some i
  | .dynpay i => some i
  | .other _ => none

/-- The session fields after `gst_rtsp_media_collect_streams` has gone through
the numbers below `k`: the streams of the payloaders appended, the dynamic
elements prepended. -/
def collected_media (graph : List Producer) (ghost : Nat → Nat) (k : Nat)
    (m : GstRTSPMediaPrivate) : GstRTSPMediaPrivate :=
  { m with
    streams := m.streams ++ collected_streams graph ghost m.pool k m.streams.length
    dynamic := collected_dynamic graph k ++ m.dynamic }

/-- A media element that holds exactly the payloaders `pay0` to `pay(n-1)`. -/
def payloaders_only (n : Nat) (elem pad : Nat → Nat) : List Producer :=
  (List.range n).map fun i => ⟨.pay i, elem i, pad i⟩

end RtspMedia

/-!
The context pool of gst-rtsp-server (`gst/rtsp-server/rtsp-thread-pool.c`).

A thread object is a record; a pointer to one is its index in the list of the
thread objects created so far, so that a new object gets an index no earlier
object has.  The pool is the ceiling, the queue of pointers and that list; the
calls it makes are appended to a log.

Conventions
* `gint reused` is moved by atomic adds, which wrap to 32 bits.
* `gint max_threads` is only stored and compared; it is an `Int`.
* The class is the one `gst_rtsp_thread_pool_class_init` sets up:
  `get_thread = default_get_thread`, and no `configure_thread`, `thread_enter`
  or `thread_leave` hook.
* `g_thread_pool_push` starts `do_loop` on a worker thread; whether the push
  succeeds is an input, and the part of `do_loop` after `g_main_loop_run`
  returns is an operation of its own.
-/

namespace RtspThreadPool

/-- The kinds of thread (`GstRTSPThreadType`); `OTHER` is any value outside the
enumeration, which `default_get_thread` sends to its `default:` arm. -/
inductive GstRTSPThreadType
  | CLIENT
  | MEDIA
  | OTHER
  deriving DecidableEq, Repr

/-- The value a `gint` holds after an atomic add whose exact result is `x`:
two's complement on 32 bits. -/
def wrap_gint (x : Int) : Int :=
  (x + 2147483648) % 4294967296 - 2147483648

/-- A thread object (`GstRTSPThreadImpl`): the public `type`, `context` and
`loop`, the private counter `reused`, the reference count of the mini object,
the pool stored as its qdata, and the number of `g_main_loop_quit` calls made
on its loop. -/
structure GstRTSPThreadImpl where
  type : GstRTSPThreadType
  context : Nat
  loop : Nat
  reused : Int
  refcount : Int
  pool : Option Nat
  quits : Nat
  deriving DecidableEq, Repr

/-- The result of `g_slice_new0 (GstRTSPThreadImpl)`: every field zero. -/
def slice_new0 : GstRTSPThreadImpl :=
  ⟨.CLIENT, 0, 0, 0, 0, none, 0⟩

/-- The function `gst_rtsp_thread_init`: `gst_mini_object_init` gives the
object one reference, then `g_atomic_int_set (&impl->reused, 1)`. -/
def gst_rtsp_thread_init (impl : GstRTSPThreadImpl) : GstRTSPThreadImpl :=
  let impl := { impl with refcount := 1 }
  { impl with reused := 1 }

/-- The function `gst_rtsp_thread_new`; `context` and `loop` are the answers of
`g_main_context_new` and `g_main_loop_new`. -/
def gst_rtsp_thread_new (type : GstRTSPThreadType) (context loop : Nat) :
    GstRTSPThreadImpl :=
  let impl := gst_rtsp_thread_init slice_new0
  let impl := { impl with type := type }
  let impl := { impl with context := context }
  { impl with loop := loop }

/-- The function `gst_rtsp_thread_reuse`: `g_atomic_int_inc (&impl->reused)`. -/
def gst_rtsp_thread_reuse (impl : GstRTSPThreadImpl) : GstRTSPThreadImpl :=
  { impl with reused := wrap_gint (impl.reused + 1) }

/-- The function `gst_rtsp_thread_stop`: `g_atomic_int_dec_and_test` takes one
from the counter and is true when the new value is `0`; then the loop is asked
to quit. -/
def gst_rtsp_thread_stop (impl : GstRTSPThreadImpl) : GstRTSPThreadImpl :=
  let impl := { impl with reused := wrap_gint (impl.reused - 1) }
  if impl.reused = 0 then { impl with quits := impl.quits + 1 }
  else impl

/-- One call made by the pool, or one access to `priv->max_threads`, in program
order. -/
inductive PoolEvent
  | mutex_lock
  | mutex_unlock
  | load_max_threads
  | store_max_threads (max_threads : Int)
  | queue_get_length
  | queue_pop_head
  | queue_push_tail (thread : Nat)
  | queue_remove (thread : Nat)
  | thread_new (thread : Nat)
  | thread_ref (thread : Nat)
  | thread_unref (thread : Nat)
  | thread_pool_push (thread : Nat) (ok : Bool)
  | main_loop_run (thread : Nat)
  | main_loop_quit (thread : Nat)
  deriving DecidableEq, Repr

/-- A pool (`GstRTSPThreadPool` with its private part) and the thread objects
created so far: `self` is the address of the pool, `threads` the queue
`priv->threads` from head to tail. -/
structure GstRTSPThreadPool where
  self : Nat
  max_threads : Int
  threads : List Nat
  heap : List GstRTSPThreadImpl
  log : List PoolEvent
  deriving DecidableEq, Repr

/-- What GLib answers during one acquisition. -/
structure GLib where
  /-- Answer of `g_main_context_new`. -/
  main_context_new : Nat
  /-- Answer of `g_main_loop_new`. -/
  main_loop_new : Nat
  /-- Answer of `g_thread_pool_push`. -/
  thread_pool_push : Bool
  deriving DecidableEq, Repr

/-- Append one call to the log. -/
def pool_emit (e : PoolEvent) (p : GstRTSPThreadPool) : GstRTSPThreadPool :=
  { p with log := p.log ++ [e] }

/-- Update the thread object a pointer refers to. -/
def heap_update (thread : Nat) (f : GstRTSPThreadImpl → GstRTSPThreadImpl)
    (heap : List GstRTSPThreadImpl) : List GstRTSPThreadImpl :=
  match heap[thread]? with
  | some impl => heap.set thread (f impl)
  | none => heap

/-- The value `DEFAULT_MAX_THREADS`. -/
def DEFAULT_MAX_THREADS : Int := 1

/-- The function `gst_rtsp_thread_pool_new` with `gst_rtsp_thread_pool_init`:
the default ceiling and an empty queue. -/
def gst_rtsp_thread_pool_new (self : Nat) : GstRTSPThreadPool where
  self := self
  max_threads := DEFAULT_MAX_THREADS
  threads := []
  heap := []
  log := []

/-- The function `gst_rtsp_thread_ref` on a pointer: one more reference to the
mini object. -/
def gst_rtsp_thread_ref (thread : Nat) (p : GstRTSPThreadPool) : GstRTSPThreadPool :=
  pool_emit (.thread_ref thread)
    { p with heap := heap_update thread (fun t => { t with refcount := t.refcount + 1 }) p.heap }

/-- The function `gst_rtsp_thread_unref` on a pointer: one reference less. -/
def gst_rtsp_thread_unref (thread : Nat) (p : GstRTSPThreadPool) : GstRTSPThreadPool :=
  pool_emit (.thread_unref thread)
    { p with heap := heap_update thread (fun t => { t with refcount := t.refcount - 1 }) p.heap }

/-- The function `g_queue_push_tail` on `priv->threads`. -/
def queue_push_tail (thread : Nat) (p : GstRTSPThreadPool) : GstRTSPThreadPool :=
  pool_emit (.queue_push_tail thread) { p with threads := p.threads ++ [thread] }

/-- The function `do_loop` from the return of `g_main_loop_run` on: under the
lock of the pool the thread is removed from the queue (`g_queue_remove` drops
its first occurrence), then the reference of the worker is released. -/
def do_loop (thread : Nat) (p : GstRTSPThreadPool) : GstRTSPThreadPool :=
  let p := pool_emit (.main_loop_run thread) p
  let p := pool_emit .mutex_lock p
  let p := pool_emit (.queue_remove thread) { p with threads := p.threads.erase thread }
  let p := pool_emit .mutex_unlock p
  gst_rtsp_thread_unref thread p

/-- The function `gst_rtsp_thread_pool_set_max_threads`. -/
def gst_rtsp_thread_pool_set_max_threads (max_threads : Int) (p : GstRTSPThreadPool) :
    GstRTSPThreadPool :=
  let p := pool_emit .mutex_lock p
  let p := pool_emit (.store_max_threads max_threads) { p with max_threads := max_threads }
  pool_emit .mutex_unlock p

/-- The function `gst_rtsp_thread_pool_get_max_threads`. -/
def gst_rtsp_thread_pool_get_max_threads (p : GstRTSPThreadPool) :
    Int × GstRTSPThreadPool :=
  let p := pool_emit .mutex_lock p
  let p := pool_emit .load_max_threads p
  let res := p.max_threads
  (res, pool_emit .mutex_unlock p)

/-- The function `make_thread`: a new thread object with the pool as qdata. -/
def make_thread (a : GLib) (type : GstRTSPThreadType) (p : GstRTSPThreadPool) :
    Nat × GstRTSPThreadPool :=
  let thread := p.heap.length
  let impl := gst_rtsp_thread_new type a.main_context_new a.main_loop_new
  let impl := { impl with pool := some p.self }
  (thread, pool_emit (.thread_new thread) { p with heap := p.heap ++ [impl] })

/-- The block `thread_error` of `default_get_thread`: release the thread,
return `NULL`. -/
def thread_error (thread : Nat) (p : GstRTSPThreadPool) :
    Option Nat × GstRTSPThreadPool :=
  (none, gst_rtsp_thread_unref thread p)

/-- The test `priv->max_threads > 0 && g_queue_get_length (&priv->threads) >=
priv->max_threads` of `default_get_thread`; the length is read only when the
ceiling is positive, and the conversion of the ceiling to `guint` then keeps
its value. -/
def max_threads_reached (p : GstRTSPThreadPool) : Bool × GstRTSPThreadPool :=
  let p := pool_emit .load_max_threads p
  if p.max_threads > 0 then
    let p := pool_emit .queue_get_length p
    let p := pool_emit .load_max_threads p
    (decide ((p.threads.length : Int) ≥ p.max_threads), p)
  else (false, p)

/-- The recycling arm of `default_get_thread`: pop the head of the queue, take
a reference, push it at the tail.  The queue is not empty here, its length
being at least the positive ceiling. -/
def recycle_thread (p : GstRTSPThreadPool) : Option Nat × GstRTSPThreadPool :=
  match p.threads with
  | [] => (none, pool_emit .queue_pop_head p)
  | thread :: rest =>
    let p := pool_emit .queue_pop_head { p with threads := rest }
    let p := gst_rtsp_thread_ref thread p
    (some thread, queue_push_tail thread p)

/-- The function `default_get_thread`. -/
def default_get_thread (a : GLib) (type : GstRTSPThreadType) (p : GstRTSPThreadPool) :
    Option Nat × GstRTSPThreadPool :=
  match type with
  | .CLIENT =>
    let p := pool_emit .load_max_threads p
    if p.max_threads = 0 then (none, p)
    else
      let r := max_threads_reached p
      if r.1 then recycle_thread r.2
      else
        let t := make_thread a type r.2
        let p := pool_emit (.thread_pool_push t.1 a.thread_pool_push) t.2
        if a.thread_pool_push = false then thread_error t.1 p
        else (some t.1, queue_push_tail t.1 p)
  | .MEDIA =>
    let t := make_thread a type p
    let p := pool_emit (.thread_pool_push t.1 a.thread_pool_push) t.2
    if a.thread_pool_push = false then thread_error t.1 p
    else (some t.1, p)
  | .OTHER => (none, p)

/-- The function `gst_rtsp_thread_pool_get_thread`: `NULL` without a client
state, otherwise the `get_thread` of the class. -/
def gst_rtsp_thread_pool_get_thread (a : GLib) (type : GstRTSPThreadType)
    (state : Option Nat) (p : GstRTSPThreadPool) : Option Nat × GstRTSPThreadPool :=
  match state with
  | none => (none, p)
  | some _ => default_get_thread a type p

/-- The function `gst_rtsp_thread_reuse` on a pointer. -/
def thread_reuse (thread : Nat) (p : GstRTSPThreadPool) : GstRTSPThreadPool :=
  { p with heap := heap_update thread gst_rtsp_thread_reuse p.heap }

/-- The function `gst_rtsp_thread_stop` on a pointer; a quit of the loop is
logged. -/
def thread_stop (thread : Nat) (p : GstRTSPThreadPool) : GstRTSPThreadPool :=
  let p' := { p with heap := heap_update thread gst_rtsp_thread_stop p.heap }
  if (p'.heap[thread]?).map (fun t => t.quits) = (p.heap[thread]?).map (fun t => t.quits) then p'
  else pool_emit (.main_loop_quit thread) p'

/-! ## Sequences of pool operations -/

/-- The operations on a pool: an acquisition, a change or a read of the
ceiling, the exit of the loop of a thread, and reuse and stop of a thread. -/
inductive PoolOp
  | get_thread (a : GLib) (type : GstRTSPThreadType)
  | set_max_threads (max_threads : Int)
  | get_max_threads
  | do_loop (thread : Nat)
  | reuse (thread : Nat)
  | stop (thread : Nat)
  deriving DecidableEq, Repr

/-- Perform one operation. -/
def PoolOp.run : PoolOp → GstRTSPThreadPool → GstRTSPThreadPool
  | .get_thread a type, p => (gst_rtsp_thread_pool_get_thread a type (some 0) p).2
  | .set_max_threads m, p => gst_rtsp_thread_pool_set_max_threads m p
  | .get_max_threads, p => (gst_rtsp_thread_pool_get_max_threads p).2
  | .do_loop thread, p => RtspThreadPool.do_loop thread p
  | .reuse thread, p => thread_reuse thread p
  | .stop thread, p => thread_stop thread p

/-- Perform a sequence of operations, first to last. -/
def run_pool_ops (ops : List PoolOp) (p : GstRTSPThreadPool) : GstRTSPThreadPool :=
  ops.foldl (fun p op => op.run p) p

/-! ## Definitions used to state the properties of the pool -/

/-- The ceiling invariant: with a non-negative ceiling the queue is no longer
than the ceiling. -/
def within_ceiling (p : GstRTSPThreadPool) : Prop :=
  0 ≤ p.max_threads → (p.threads.length : Int) ≤ p.max_threads

instance (p : GstRTSPThreadPool) : Decidable (within_ceiling p) := by
  unfold within_ceiling
  infer_instance

/-- The operation does not set a non-negative ceiling below the current length
of the queue. -/
def PoolOp.keeps_ceiling (op : PoolOp) (p : GstRTSPThreadPool) : Bool :=
  match op with
  | .set_max_threads m => decide (m < 0 ∨ (p.threads.length : Int) ≤ m)
  | _ => true

/-- No operation of the sequence, at the state it is performed in, sets a
non-negative ceiling below the current length of the queue. -/
def never_lowered : List PoolOp → GstRTSPThreadPool → Bool
  | [], _ => true
  | op :: ops, p => op.keeps_ceiling p && never_lowered ops (op.run p)

/-- Answers of GLib with a successful push. -/
def glib0 : GLib := ⟨50, 51, true⟩

/-- A new pool at address `1` with ceiling `2` after two acquisitions for
client connections: the queue holds the threads `0` and `1`. -/
def pool_full : GstRTSPThreadPool :=
  run_pool_ops
    [.set_max_threads 2, .get_thread glib0 .CLIENT, .get_thread glib0 .CLIENT]
    (gst_rtsp_thread_pool_new 1)

/-- The calls appended to the log of the pool between two states. -/
def new_pool_events (p p' : GstRTSPThreadPool) : List PoolEvent :=
  p'.log.drop p.log.length

/-- A change of the queue `priv->threads`. -/
def PoolEvent.is_queue_mutation : PoolEvent → Bool
  | .queue_pop_head => true
  | .queue_push_tail _ => true
  | .queue_remove _ => true
  | _ => false

/-- Every change of the queue and every read of the ceiling among the calls is
made while the lock of the pool is held, `depth` being the number of holds
before the calls. -/
def accesses_locked : Int → List PoolEvent → Bool
  | _, [] => true
  | depth, .mutex_lock :: es => accesses_locked (depth + 1) es
  | depth, .mutex_unlock :: es => accesses_locked (depth - 1) es
  | depth, e :: es =>
    (if e.is_queue_mutation || e = .load_max_threads then decide (0 < depth) else true) &&
      accesses_locked depth es

end RtspThreadPool

namespace RtspMedia

/-! ## Basic facts about the log and the fields -/

@[simp]
theorem emit_media (e : Event) (w : World) : (emit e w).media = w.media := rfl

@[simp]
theorem emit_active (e : Event) (w : World) : (emit e w).active = w.active := rfl

@[simp]
theorem emit_log (e : Event) (w : World) : (emit e w).log = w.log ++ [e] := rfl

@[simp]
theorem emit_bus_log (e : Event) (w : World) : (emit e w).bus_log = w.bus_log := rfl

@[simp]
theorem emits_media (es : List Event) (w : World) : (emits es w).media = w.media := rfl

@[simp]
theorem emits_active (es : List Event) (w : World) : (emits es w).active = w.active := rfl

@[simp]
theorem emits_log (es : List Event) (w : World) : (emits es w).log = w.log ++ es := rfl

@[simp]
theorem emits_bus_log (es : List Event) (w : World) : (emits es w).bus_log = w.bus_log := rfl

@[simp]
theorem upd_media (f : GstRTSPMediaPrivate → GstRTSPMediaPrivate) (w : World) :
    (w.upd f).media = f w.media := rfl

@[simp]
theorem upd_active (f : GstRTSPMediaPrivate → GstRTSPMediaPrivate) (w : World) :
    (w.upd f).active = w.active := rfl

@[simp]
theorem upd_log (f : GstRTSPMediaPrivate → GstRTSPMediaPrivate) (w : World) :
    (w.upd f).log = w.log := rfl

@[simp]
theorem upd_bus_log (f : GstRTSPMediaPrivate → GstRTSPMediaPrivate) (w : World) :
    (w.upd f).bus_log = w.bus_log := rfl

@[simp]
theorem store_status_media (s : GstRTSPMediaStatus) (w : World) :
    (store_status s w).media = { w.media with status := s } := rfl

@[simp]
theorem store_status_active (s : GstRTSPMediaStatus) (w : World) :
    (store_status s w).active = w.active := rfl

@[simp]
theorem store_status_log (s : GstRTSPMediaStatus) (w : World) :
    (store_status s w).log = w.log ++ [.store_status s] := rfl

@[simp]
theorem store_status_bus_log (s : GstRTSPMediaStatus) (w : World) :
    (store_status s w).bus_log = w.bus_log := rfl

/-- Two worlds are equal when their four components are. -/
theorem World.ext_iff' (w w' : World) :
    w = w' ↔ w.media = w'.media ∧ w.active = w'.active ∧ w.log = w'.log ∧ w.bus_log = w'.bus_log := by
  cases w; cases w'; simp

/-- The events appended by `emits`. -/
theorem new_events_append (w w' : World) (es : List Event) (h : w'.log = w.log ++ es) :
    new_events w w' = es := by
  simp [new_events, h]

/-- The function `collect_media_stats` changes only the range and its two bounds. -/
theorem collect_media_stats_media (g : Engine) (w : World) :
    ∃ r a b, (collect_media_stats g w).media =
      { w.media with range := r, range_start := a, range_stop := b } := by
  unfold collect_media_stats
  simp only []
  split_ifs <;> exact ⟨_, _, _, rfl⟩

@[simp]
theorem collect_media_stats_active (g : Engine) (w : World) :
    (collect_media_stats g w).active = w.active := by
  unfold collect_media_stats
  simp only []
  split_ifs <;> rfl

@[simp]
theorem collect_media_stats_bus_log (g : Engine) (w : World) :
    (collect_media_stats g w).bus_log = w.bus_log := by
  unfold collect_media_stats
  simp only []
  split_ifs <;> rfl

/-- The function `collect_media_stats` logs only range queries. -/
theorem collect_media_stats_log (g : Engine) (w : World) :
    ∃ es, (collect_media_stats g w).log = w.log ++ es ∧
      ∀ e ∈ es, e = .element_query_position ∨ e = .element_query_duration := by
  unfold collect_media_stats
  simp only []
  split_ifs
  · exact ⟨[], by simp, by simp⟩
  all_goals exact ⟨[.element_query_position, .element_query_duration], by simp, by simp⟩

@[simp]
theorem collect_media_stats_shared (g : Engine) (w : World) :
    (collect_media_stats g w).media.shared = w.media.shared := by
  obtain ⟨r, a, b, h⟩ := collect_media_stats_media g w
  rw [h]

@[simp]
theorem collect_media_stats_reusable (g : Engine) (w : World) :
    (collect_media_stats g w).media.reusable = w.media.reusable := by
  obtain ⟨r, a, b, h⟩ := collect_media_stats_media g w
  rw [h]

@[simp]
theorem collect_media_stats_protocols (g : Engine) (w : World) :
    (collect_media_stats g w).media.protocols = w.media.protocols := by
  obtain ⟨r, a, b, h⟩ := collect_media_stats_media g w
  rw [h]

@[simp]
theorem collect_media_stats_reused (g : Engine) (w : World) :
    (collect_media_stats g w).media.reused = w.media.reused := by
  obtain ⟨r, a, b, h⟩ := collect_media_stats_media g w
  rw [h]

@[simp]
theorem collect_media_stats_eos_shutdown (g : Engine) (w : World) :
    (collect_media_stats g w).media.eos_shutdown = w.media.eos_shutdown := by
  obtain ⟨r, a, b, h⟩ := collect_media_stats_media g w
  rw [h]

@[simp]
theorem collect_media_stats_buffer_size (g : Engine) (w : World) :
    (collect_media_stats g w).media.buffer_size = w.media.buffer_size := by
  obtain ⟨r, a, b, h⟩ := collect_media_stats_media g w
  rw [h]

@[simp]
theorem collect_media_stats_auth (g : Engine) (w : World) :
    (collect_media_stats g w).media.auth = w.media.auth := by
  obtain ⟨r, a, b, h⟩ := collect_media_stats_media g w
  rw [h]

@[simp]
theorem collect_media_stats_pool (g : Engine) (w : World) :
    (collect_media_stats g w).media.pool = w.media.pool := by
  obtain ⟨r, a, b, h⟩ := collect_media_stats_media g w
  rw [h]

@[simp]
theorem collect_media_stats_element (g : Engine) (w : World) :
    (collect_media_stats g w).media.element = w.media.element := by
  obtain ⟨r, a, b, h⟩ := collect_media_stats_media g w
  rw [h]

@[simp]
theorem collect_media_stats_streams (g : Engine) (w : World) :
    (collect_media_stats g w).media.streams = w.media.streams := by
  obtain ⟨r, a, b, h⟩ := collect_media_stats_media g w
  rw [h]

@[simp]
theorem collect_media_stats_dynamic (g : Engine) (w : World) :
    (collect_media_stats g w).media.dynamic = w.media.dynamic := by
  obtain ⟨r, a, b, h⟩ := collect_media_stats_media g w
  rw [h]

@[simp]
theorem collect_media_stats_status (g : Engine) (w : World) :
    (collect_media_stats g w).media.status = w.media.status := by
  obtain ⟨r, a, b, h⟩ := collect_media_stats_media g w
  rw [h]

@[simp]
theorem collect_media_stats_n_active (g : Engine) (w : World) :
    (collect_media_stats g w).media.n_active = w.media.n_active := by
  obtain ⟨r, a, b, h⟩ := collect_media_stats_media g w
  rw [h]

@[simp]
theorem collect_media_stats_adding (g : Engine) (w : World) :
    (collect_media_stats g w).media.adding = w.media.adding := by
  obtain ⟨r, a, b, h⟩ := collect_media_stats_media g w
  rw [h]

@[simp]
theorem collect_media_stats_pipeline (g : Engine) (w : World) :
    (collect_media_stats g w).media.pipeline = w.media.pipeline := by
  obtain ⟨r, a, b, h⟩ := collect_media_stats_media g w
  rw [h]

@[simp]
theorem collect_media_stats_fakesink (g : Engine) (w : World) :
    (collect_media_stats g w).media.fakesink = w.media.fakesink := by
  obtain ⟨r, a, b, h⟩ := collect_media_stats_media g w
  rw [h]

@[simp]
theorem collect_media_stats_source (g : Engine) (w : World) :
    (collect_media_stats g w).media.source = w.media.source := by
  obtain ⟨r, a, b, h⟩ := collect_media_stats_media g w
  rw [h]

@[simp]
theorem collect_media_stats_id (g : Engine) (w : World) :
    (collect_media_stats g w).media.id = w.media.id := by
  obtain ⟨r, a, b, h⟩ := collect_media_stats_media g w
  rw [h]

@[simp]
theorem collect_media_stats_is_live (g : Engine) (w : World) :
    (collect_media_stats g w).media.is_live = w.media.is_live := by
  obtain ⟨r, a, b, h⟩ := collect_media_stats_media g w
  rw [h]

@[simp]
theorem collect_media_stats_seekable (g : Engine) (w : World) :
    (collect_media_stats g w).media.seekable = w.media.seekable := by
  obtain ⟨r, a, b, h⟩ := collect_media_stats_media g w
  rw [h]

@[simp]
theorem collect_media_stats_buffering (g : Engine) (w : World) :
    (collect_media_stats g w).media.buffering = w.media.buffering := by
  obtain ⟨r, a, b, h⟩ := collect_media_stats_media g w
  rw [h]

@[simp]
theorem collect_media_stats_target_state (g : Engine) (w : World) :
    (collect_media_stats g w).media.target_state = w.media.target_state := by
  obtain ⟨r, a, b, h⟩ := collect_media_stats_media g w
  rw [h]

@[simp]
theorem collect_media_stats_rtpbin (g : Engine) (w : World) :
    (collect_media_stats g w).media.rtpbin = w.media.rtpbin := by
  obtain ⟨r, a, b, h⟩ := collect_media_stats_media g w
  rw [h]

@[simp]
theorem on_bus_thread_media (f : World → World) (w : World) :
    (on_bus_thread f w).media = (f { w with log := w.bus_log, bus_log := [] }).media := rfl

@[simp]
theorem on_bus_thread_active (f : World → World) (w : World) :
    (on_bus_thread f w).active = (f { w with log := w.bus_log, bus_log := [] }).active := rfl

@[simp]
theorem on_bus_thread_log (f : World → World) (w : World) :
    (on_bus_thread f w).log = w.log := rfl

/-- An `ERROR` status survives `gst_rtsp_media_set_status`. -/
theorem set_status_of_error (s : GstRTSPMediaStatus) (w : World)
    (h : w.media.status = .ERROR) :
    (gst_rtsp_media_set_status s w).media.status = .ERROR := by
  simp [gst_rtsp_media_set_status, h]

/-- An `ERROR` status survives every notification. -/
theorem handle_message_of_error (g : Engine) (message : GstMessage) (w : World)
    (h : w.media.status = .ERROR) :
    (default_handle_message g message w).2.media.status = .ERROR := by
  cases message <;> simp [default_handle_message, gst_rtsp_media_set_status, h]
  all_goals split_ifs <;> simp [h]

theorem bus_message_of_error (g : Engine) (message : GstMessage) (w : World)
    (h : w.media.status = .ERROR) :
    (bus_message g message w).2.media.status = .ERROR := by
  simp [bus_message, handle_message_of_error, h]

theorem dispatch_of_error (g : Engine) (message : GstMessage) (w : World)
    (h : w.media.status = .ERROR) :
    (dispatch g message w).media.status = .ERROR := by
  simp only [dispatch, on_bus_thread_media]
  split_ifs
  · exact bus_message_of_error _ _ _ h
  · exact h

theorem wait_status_loop_of_not_preparing (wakes : List Wake) (w : World)
    (h : w.media.status ≠ .PREPARING) : wait_status_loop wakes w = w := by
  cases wakes <;> simp [wait_status_loop, h]

theorem get_status_of_not_preparing (wakes : List Wake) (w : World)
    (h : w.media.status ≠ .PREPARING) :
    gst_rtsp_media_get_status wakes w =
      (w.media.status, emits [.mutex_lock, .mutex_unlock] w) := by
  simp [gst_rtsp_media_get_status, wait_status_loop_of_not_preparing, h, emit, emits]

theorem op_run_of_error (op : Op) (w : World) (h : w.media.status = .ERROR)
    (hop : op.is_unprepare = false) : (op.run w).media.status = .ERROR := by
  cases op with
  | prepare g wakes => simp [Op.run, gst_rtsp_media_prepare, prepare_begin, h]
  | unprepare => simp [Op.is_unprepare] at hop
  | seek g range => simp [Op.run, gst_rtsp_media_seek, h]
  | set_state g state transports => simp [Op.run, gst_rtsp_media_set_state, h]
  | get_status wakes => simp [Op.run, get_status_of_not_preparing, h]
  | notify g message => exact dispatch_of_error g message w h
  | set_shared b => simpa [Op.run, gst_rtsp_media_set_shared] using h
  | set_reusable b => simpa [Op.run, gst_rtsp_media_set_reusable] using h
  | set_protocols b => simpa [Op.run, gst_rtsp_media_set_protocols] using h
  | set_eos_shutdown b => simpa [Op.run, gst_rtsp_media_set_eos_shutdown] using h
  | set_buffer_size b => simpa [Op.run, gst_rtsp_media_set_buffer_size] using h

theorem run_ops_of_error (ops : List Op) (w : World) (h : w.media.status = .ERROR)
    (hops : ∀ op ∈ ops, op.is_unprepare = false) :
    (run_ops ops w).media.status = .ERROR := by
  induction ops generalizing w with
  | nil => simpa [run_ops] using h
  | cons op ops ih =>
    have h1 := op_run_of_error op w h (hops op (by simp))
    have := ih (op.run w) h1 (fun o ho => hops o (by simp [ho]))
    simpa [run_ops] using this

@[simp]
theorem set_active_log (t : Nat) (a : Bool) (w : World) :
    (gst_rtsp_stream_transport_set_active t a w).2.log =
      w.log ++ [.transport_set_active t a (decide (t ∈ w.active) != a)] := by
  simp only [gst_rtsp_stream_transport_set_active]
  split_ifs <;> rfl

@[simp]
theorem set_active_media (t : Nat) (a : Bool) (w : World) :
    (gst_rtsp_stream_transport_set_active t a w).2.media = w.media := by
  simp only [gst_rtsp_stream_transport_set_active]
  split_ifs <;> rfl

@[simp]
theorem set_active_bus_log (t : Nat) (a : Bool) (w : World) :
    (gst_rtsp_stream_transport_set_active t a w).2.bus_log = w.bus_log := by
  simp only [gst_rtsp_stream_transport_set_active]
  split_ifs <;> rfl

@[simp]
theorem set_active_fst (t : Nat) (a : Bool) (w : World) :
    (gst_rtsp_stream_transport_set_active t a w).1 = (decide (t ∈ w.active) != a) := rfl

/-- The transport loop changes no field but `n_active`. -/
theorem set_state_transports_media (a d : Bool) (ts : List (Option Nat)) (w : World) :
    (set_state_transports a d ts w).media =
      { w.media with n_active := (set_state_transports a d ts w).media.n_active } := by
  induction ts generalizing w with
  | nil => rfl
  | cons x ts ih =>
    cases x with
    | none => simpa [set_state_transports] using ih w
    | some t =>
      simp only [set_state_transports]
      split_ifs <;> rw [ih] <;> simp

@[simp]
theorem set_state_transports_bus_log (a d : Bool) (ts : List (Option Nat)) (w : World) :
    (set_state_transports a d ts w).bus_log = w.bus_log := by
  induction ts generalizing w with
  | nil => rfl
  | cons x ts ih =>
    cases x with
    | none => simpa [set_state_transports] using ih w
    | some t =>
      simp only [set_state_transports]
      split_ifs <;> rw [ih] <;> simp

/-- What the transport loop logs and how it moves the counter. -/
theorem set_state_transports_log (a d : Bool) (ts : List (Option Nat)) (w : World) :
    ∃ es, (set_state_transports a d ts w).log = w.log ++ es ∧
      es.filterMap Event.transport_call = expected_calls a d ts ∧
      (∀ e ∈ es, e.transport_call.isSome = true) ∧
      (set_state_transports a d ts w).media.n_active =
        w.media.n_active + activations es - deactivations es := by
  induction ts generalizing w with
  | nil => exact ⟨[], by simp [set_state_transports, expected_calls, activations, deactivations]⟩
  | cons x ts ih =>
    cases x with
    | none =>
      obtain ⟨es, h1, h2, h3, h4⟩ := ih w
      exact ⟨es, by simpa [set_state_transports] using h1,
        by simpa [expected_calls] using h2, h3, by simpa [set_state_transports] using h4⟩
    | some t =>
      simp only [set_state_transports]
      by_cases ha : a = true
      · subst ha
        simp only [if_true]
        by_cases hc : (gst_rtsp_stream_transport_set_active t true w).1 = true
        · obtain ⟨es, h1, h2, h3, h4⟩ := ih
            ((gst_rtsp_stream_transport_set_active t true w).2.upd
              fun m => { m with n_active := m.n_active + 1 })
          refine ⟨.transport_set_active t true true :: es, ?_, ?_, ?_, ?_⟩
          · simp at hc
            simp [hc, h1]
          · simp [expected_calls, Event.transport_call] at h2 ⊢
            exact h2
          · intro e he
            simp at he
            rcases he with rfl | he
            · rfl
            · exact h3 e he
          · simp at hc
            simp [hc, h4, activations, deactivations, Event.is_activation,
              Event.is_deactivation]
            ring
        · obtain ⟨es, h1, h2, h3, h4⟩ := ih (gst_rtsp_stream_transport_set_active t true w).2
          refine ⟨.transport_set_active t true false :: es, ?_, ?_, ?_, ?_⟩
          · simp at hc
            simp [hc, h1]
          · simp [expected_calls, Event.transport_call] at h2 ⊢
            exact h2
          · intro e he
            simp at he
            rcases he with rfl | he
            · rfl
            · exact h3 e he
          · simp at hc
            simp [hc, h4, activations, deactivations, Event.is_activation,
              Event.is_deactivation]
      · simp only [Bool.not_eq_true] at ha
        subst ha
        simp only [Bool.false_eq_true, if_false]
        by_cases hd : d = true
        · subst hd
          simp only [if_true]
          by_cases hc : (gst_rtsp_stream_transport_set_active t false w).1 = true
          · obtain ⟨es, h1, h2, h3, h4⟩ := ih
              ((gst_rtsp_stream_transport_set_active t false w).2.upd
                fun m => { m with n_active := m.n_active - 1 })
            refine ⟨.transport_set_active t false true :: es, ?_, ?_, ?_, ?_⟩
            · simp at hc
              simp [hc, h1]
            · simp [expected_calls, Event.transport_call] at h2 ⊢
              exact h2
            · intro e he
              simp at he
              rcases he with rfl | he
              · rfl
              · exact h3 e he
            · simp at hc
              simp [hc, h4, activations, deactivations, Event.is_activation,
                Event.is_deactivation]
              ring
          · obtain ⟨es, h1, h2, h3, h4⟩ := ih (gst_rtsp_stream_transport_set_active t false w).2
            refine ⟨.transport_set_active t false false :: es, ?_, ?_, ?_, ?_⟩
            · simp at hc
              simp [hc, h1]
            · simp [expected_calls, Event.transport_call] at h2 ⊢
              exact h2
            · intro e he
              simp at he
              rcases he with rfl | he
              · rfl
              · exact h3 e he
            · simp at hc
              simp [hc, h4, activations, deactivations, Event.is_activation,
                Event.is_deactivation]
        · simp only [Bool.not_eq_true] at hd
          subst hd
          simp only [Bool.false_eq_true, if_false]
          obtain ⟨es, h1, h2, h3, h4⟩ := ih w
          exact ⟨es, h1, by simpa [expected_calls] using h2, h3, h4⟩

@[simp]
theorem collect_media_stats_log_eq (g : Engine) (w : World) :
    (collect_media_stats g w).log =
      w.log ++ (if w.media.is_live = true then []
        else [.element_query_position, .element_query_duration]) := by
  unfold collect_media_stats
  simp only []
  split_ifs <;> simp_all

/-- The function `finish_unprepare` in closed form. -/
theorem finish_unprepare_eq (w : World) :
    finish_unprepare w =
      { w with
        media := { w.media with streams := [], rtpbin := none, pipeline := none,
                                reused := true, status := .UNPREPARED, source := none }
        log := w.log ++ ([.element_set_state .NULL] ++
          (w.media.streams.map fun s => Event.stream_leave_bin s.idx) ++
          [.bin_remove w.media.rtpbin, .store_status .UNPREPARED] ++
          (if w.media.source.isSome = true then [.source_destroy] else []) ++
          [.signal_unprepared]) } := by
  obtain ⟨m, a, l, b⟩ := w
  cases hs : m.source <;>
    simp [finish_unprepare, emit, emits, World.upd, store_status, hs]

@[simp]
theorem finish_unprepare_media (w : World) :
    (finish_unprepare w).media =
      { w.media with streams := [], rtpbin := none, pipeline := none, reused := true,
                     status := .UNPREPARED, source := none } := by
  rw [finish_unprepare_eq]

@[simp]
theorem finish_unprepare_log (w : World) :
    (finish_unprepare w).log =
      w.log ++ ([.element_set_state .NULL] ++
        (w.media.streams.map fun s => Event.stream_leave_bin s.idx) ++
        [.bin_remove w.media.rtpbin, .store_status .UNPREPARED] ++
        (if w.media.source.isSome = true then [.source_destroy] else []) ++
        [.signal_unprepared]) := by
  rw [finish_unprepare_eq]

@[simp]
theorem finish_unprepare_active (w : World) :
    (finish_unprepare w).active = w.active := by
  rw [finish_unprepare_eq]

@[simp]
theorem finish_unprepare_bus_log (w : World) :
    (finish_unprepare w).bus_log = w.bus_log := by
  rw [finish_unprepare_eq]

/-- The function `gst_rtsp_media_unprepare` on an unprepared session. -/
theorem unprepare_of_unprepared (w : World) (h : w.media.status = .UNPREPARED) :
    gst_rtsp_media_unprepare w = (true, emits [.rec_mutex_lock, .rec_mutex_unlock] w) := by
  simp [gst_rtsp_media_unprepare, h, emit, emits]

/-- The function `gst_rtsp_media_unprepare` on a prepared session with
`eos_shutdown`. -/
theorem unprepare_of_prepared_eos (w : World) (h : w.media.status = .PREPARED)
    (he : w.media.eos_shutdown = true) :
    gst_rtsp_media_unprepare w =
      (true, { w with
        media := { w.media with target_state := .NULL, status := .UNPREPARING }
        log := w.log ++ [.rec_mutex_lock, .element_send_eos, .element_set_state .PLAYING,
          .store_status .UNPREPARING, .rec_mutex_unlock] }) := by
  simp [gst_rtsp_media_unprepare, default_unprepare, h, he, emit, World.upd, store_status]

/-- The function `gst_rtsp_media_unprepare` when it tears down at once. -/
theorem unprepare_of_teardown (w : World) (h : w.media.status ≠ .UNPREPARED)
    (he : w.media.status = .PREPARED → w.media.eos_shutdown = false) :
    gst_rtsp_media_unprepare w =
      (true, emit .rec_mutex_unlock (finish_unprepare
        ((emit .rec_mutex_lock w).upd fun m => { m with target_state := .NULL }))) := by
  simp only [gst_rtsp_media_unprepare, emit_media, if_neg h, upd_media]
  by_cases hp : w.media.status = .PREPARED
  · simp [hp, default_unprepare, he hp]
  · simp [hp]

@[simp]
theorem unprepare_n_active (w : World) :
    (gst_rtsp_media_unprepare w).2.media.n_active = w.media.n_active := by
  simp only [gst_rtsp_media_unprepare, default_unprepare]
  split_ifs <;> simp

@[simp]
theorem unprepare_active (w : World) :
    (gst_rtsp_media_unprepare w).2.active = w.active := by
  simp only [gst_rtsp_media_unprepare, default_unprepare]
  split_ifs <;> simp

@[simp]
theorem unprepare_bus_log (w : World) :
    (gst_rtsp_media_unprepare w).2.bus_log = w.bus_log := by
  simp only [gst_rtsp_media_unprepare, default_unprepare]
  split_ifs <;> simp

@[simp]
theorem unprepare_fst (w : World) : (gst_rtsp_media_unprepare w).1 = true := by
  simp only [gst_rtsp_media_unprepare, default_unprepare]
  split_ifs <;> simp

/-- The calls of `gst_rtsp_media_unprepare` on a prepared session: the state
lock around either the end-of-stream shutdown or the teardown. -/
theorem unprepare_log_of_prepared (w : World) (h : w.media.status = .PREPARED) :
    (gst_rtsp_media_unprepare w).2.log =
      w.log ++ ([.rec_mutex_lock] ++
        (if w.media.eos_shutdown = true then
          [.element_send_eos, .element_set_state .PLAYING, .store_status .UNPREPARING]
        else
          [.element_set_state .NULL] ++
          (w.media.streams.map fun s => Event.stream_leave_bin s.idx) ++
          [.bin_remove w.media.rtpbin, .store_status .UNPREPARED] ++
          (if w.media.source.isSome = true then [.source_destroy] else []) ++
          [.signal_unprepared]) ++ [.rec_mutex_unlock]) := by
  by_cases he : w.media.eos_shutdown = true
  · rw [unprepare_of_prepared_eos w h he]
    simp [he]
  · simp only [Bool.not_eq_true] at he
    rw [unprepare_of_teardown w (by simp [h]) (fun _ => he)]
    simp [he]

@[simp]
theorem set_state_change_n_active (state : GstState) (a : Bool) (n : Int) (w : World) :
    (set_state_change state a n w).media.n_active = w.media.n_active := by
  simp only [set_state_change]
  split_ifs <;> simp

@[simp]
theorem set_state_change_active (state : GstState) (a : Bool) (n : Int) (w : World) :
    (set_state_change state a n w).active = w.active := by
  simp only [set_state_change]
  split_ifs <;> simp

@[simp]
theorem set_state_change_bus_log (state : GstState) (a : Bool) (n : Int) (w : World) :
    (set_state_change state a n w).bus_log = w.bus_log := by
  simp only [set_state_change]
  split_ifs <;> simp

/-- The calls of the state-change block on a prepared session. -/
theorem set_state_change_log (state : GstState) (a : Bool) (n : Int) (w : World)
    (h : w.media.status = .PREPARED) :
    (set_state_change state a n w).log =
      w.log ++
        (if w.media.target_state ≠ state then
          (if (n = 0 ∧ a = true) ∨ w.media.n_active = 0 then
            (if state = .NULL then
              [.rec_mutex_lock] ++
              (if w.media.eos_shutdown = true then
                [.element_send_eos, .element_set_state .PLAYING, .store_status .UNPREPARING]
              else
                [.element_set_state .NULL] ++
                (w.media.streams.map fun s => Event.stream_leave_bin s.idx) ++
                [.bin_remove w.media.rtpbin, .store_status .UNPREPARED] ++
                (if w.media.source.isSome = true then [.source_destroy] else []) ++
                [.signal_unprepared]) ++ [.rec_mutex_unlock]
            else [.element_set_state state])
          else []) ++ [.signal_new_state state]
        else []) := by
  simp only [set_state_change]
  by_cases ht : w.media.target_state = state
  · simp [ht]
  · by_cases h1 : n = 0 ∧ a = true
    · by_cases hs : state = .NULL
      · subst hs
        simp [ht, h1, unprepare_log_of_prepared w h]
      · simp [ht, h1, hs]
    · by_cases h2 : w.media.n_active = 0
      · by_cases hs : state = .NULL
        · subst hs
          simp [ht, h1, h2, unprepare_log_of_prepared w h]
        · simp [ht, h1, h2, hs]
      · simp [ht, h1, h2]

@[simp]
theorem set_state_collect_n_active (g : Engine) (state : GstState) (n : Int)
    (w : World) : (set_state_collect g state n w).media.n_active = w.media.n_active := by
  simp only [set_state_collect]
  split_ifs <;> simp

@[simp]
theorem set_state_collect_target_state (g : Engine) (state : GstState) (n : Int)
    (w : World) :
    (set_state_collect g state n w).media.target_state = w.media.target_state := by
  simp only [set_state_collect]
  split_ifs <;> simp

@[simp]
theorem set_state_collect_status (g : Engine) (state : GstState) (n : Int)
    (w : World) : (set_state_collect g state n w).media.status = w.media.status := by
  simp only [set_state_collect]
  split_ifs <;> simp

@[simp]
theorem set_state_collect_streams (g : Engine) (state : GstState) (n : Int)
    (w : World) : (set_state_collect g state n w).media.streams = w.media.streams := by
  simp only [set_state_collect]
  split_ifs <;> simp

@[simp]
theorem set_state_collect_active (g : Engine) (state : GstState) (n : Int)
    (w : World) : (set_state_collect g state n w).active = w.active := by
  simp only [set_state_collect]
  split_ifs <;> simp

/-- The calls of the last block of `gst_rtsp_media_set_state`. -/
theorem set_state_collect_log (g : Engine) (state : GstState) (n : Int) (w : World) :
    (set_state_collect g state n w).log =
      w.log ++
        (if state ≠ .NULL ∧ (state = .PAUSED ∨ n ≠ w.media.n_active) then
          (if w.media.is_live = true then []
            else [.element_query_position, .element_query_duration])
        else []) := by
  simp only [set_state_collect]
  split_ifs <;> simp_all

/-- The function `gst_rtsp_media_set_state` on a prepared session, as the
sequence of its blocks. -/
theorem set_state_of_prepared (g : Engine) (state : GstState) (ts : List (Option Nat))
    (w : World) (h : w.media.status = .PREPARED) :
    gst_rtsp_media_set_state g state ts w =
      (true, emit .rec_mutex_unlock
        (set_state_collect g (requested_state state) w.media.n_active
          (set_state_change (requested_state state)
            (decide (requested_state state = .PLAYING)) w.media.n_active
            (set_state_transports (decide (requested_state state = .PLAYING))
              (decide ((requested_state state = .NULL ∨ requested_state state = .PAUSED) ∧
                w.media.target_state = .PLAYING)) ts (emit .rec_mutex_lock w))))) := by
  simp [gst_rtsp_media_set_state, h]

@[simp]
theorem unprepare_is_live (w : World) :
    (gst_rtsp_media_unprepare w).2.media.is_live = w.media.is_live := by
  simp only [gst_rtsp_media_unprepare, default_unprepare]
  split_ifs <;> simp

@[simp]
theorem set_state_change_is_live (state : GstState) (a : Bool) (n : Int) (w : World) :
    (set_state_change state a n w).media.is_live = w.media.is_live := by
  simp only [set_state_change]
  split_ifs <;> simp

/-- Calls of the transport loop are no other kind of call. -/
theorem transport_events_any (es : List Event) (p : Event → Bool)
    (h : ∀ e ∈ es, e.transport_call.isSome = true)
    (hp : ∀ t a c, p (.transport_set_active t a c) = false) : es.any p = false := by
  rw [List.any_eq_false]
  intro e he
  have := h e he
  cases e <;> simp [Event.transport_call] at this
  simp [hp]

/-- Everything `gst_rtsp_media_set_state` does on a prepared session: the calls
on the transports `es`, the counter after them, and the calls that follow. -/
theorem set_state_log (g : Engine) (state : GstState) (ts : List (Option Nat))
    (w : World) (h : w.media.status = .PREPARED) :
    ∃ es,
      es.filterMap Event.transport_call =
        expected_calls (decide (requested_state state = .PLAYING))
          (decide ((requested_state state = .NULL ∨ requested_state state = .PAUSED) ∧
            w.media.target_state = .PLAYING)) ts ∧
      (∀ e ∈ es, e.transport_call.isSome = true) ∧
      (gst_rtsp_media_set_state g state ts w).2.media.n_active =
        w.media.n_active + activations es - deactivations es ∧
      (gst_rtsp_media_set_state g state ts w).2.log =
        w.log ++ ([.rec_mutex_lock] ++ es ++
          (if w.media.target_state ≠ requested_state state then
            (if (w.media.n_active = 0 ∧ requested_state state = .PLAYING) ∨
                (gst_rtsp_media_set_state g state ts w).2.media.n_active = 0 then
              (if requested_state state = .NULL then
                [.rec_mutex_lock] ++
                (if w.media.eos_shutdown = true then
                  [.element_send_eos, .element_set_state .PLAYING,
                    .store_status .UNPREPARING]
                else
                  [.element_set_state .NULL] ++
                  (w.media.streams.map fun s => Event.stream_leave_bin s.idx) ++
                  [.bin_remove w.media.rtpbin, .store_status .UNPREPARED] ++
                  (if w.media.source.isSome = true then [.source_destroy] else []) ++
                  [.signal_unprepared]) ++ [.rec_mutex_unlock]
              else [.element_set_state (requested_state state)])
            else []) ++ [.signal_new_state (requested_state state)]
          else []) ++
          (if requested_state state ≠ .NULL ∧ (requested_state state = .PAUSED ∨
              w.media.n_active ≠ (gst_rtsp_media_set_state g state ts w).2.media.n_active) then
            (if w.media.is_live = true then []
              else [.element_query_position, .element_query_duration])
          else []) ++ [.rec_mutex_unlock]) := by
  obtain ⟨es, h1, h2, h3, h4⟩ := set_state_transports_log
    (decide (requested_state state = .PLAYING))
    (decide ((requested_state state = .NULL ∨ requested_state state = .PAUSED) ∧
      w.media.target_state = .PLAYING)) ts (emit .rec_mutex_lock w)
  have hm := set_state_transports_media
    (decide (requested_state state = .PLAYING))
    (decide ((requested_state state = .NULL ∨ requested_state state = .PAUSED) ∧
      w.media.target_state = .PLAYING)) ts (emit .rec_mutex_lock w)
  refine ⟨es, h2, h3, ?_, ?_⟩
  · rw [set_state_of_prepared g state ts w h]
    simpa using h4
  · rw [set_state_of_prepared g state ts w h]
    generalize set_state_transports _ _ ts (emit .rec_mutex_lock w) = w1 at h1 h4 hm ⊢
    have hs : w1.media.status = .PREPARED := by rw [hm]; simpa using h
    have ht : w1.media.target_state = w.media.target_state := by rw [hm]; rfl
    have he : w1.media.eos_shutdown = w.media.eos_shutdown := by rw [hm]; rfl
    have hst : w1.media.streams = w.media.streams := by rw [hm]; rfl
    have hr : w1.media.rtpbin = w.media.rtpbin := by rw [hm]; rfl
    have hsrc : w1.media.source = w.media.source := by rw [hm]; rfl
    have hl : w1.media.is_live = w.media.is_live := by rw [hm]; rfl
    simp only [emit_log, set_state_collect_log, set_state_change_log _ _ _ _ hs,
      set_state_change_n_active, set_state_change_is_live, emit_media, set_state_collect_n_active, h1, ht, he, hst, hr,
      hsrc, hl, decide_eq_true_eq, List.append_assoc]

@[simp]
theorem countP_leave_bin_activation (l : List GstRTSPStream) :
    l.countP (Event.is_activation ∘ fun s => Event.stream_leave_bin s.idx) = 0 := by
  simp [List.countP_eq_zero, Event.is_activation]

@[simp]
theorem countP_leave_bin_deactivation (l : List GstRTSPStream) :
    l.countP (Event.is_deactivation ∘ fun s => Event.stream_leave_bin s.idx) = 0 := by
  simp [List.countP_eq_zero, Event.is_deactivation]

/-- One `gst_rtsp_media_set_state` call moves the counter by the activations
minus the deactivations that reported a change during the call. -/
theorem set_state_counts (g : Engine) (state : GstState) (ts : List (Option Nat))
    (w : World) :
    ∃ es, (gst_rtsp_media_set_state g state ts w).2.log = w.log ++ es ∧
      (gst_rtsp_media_set_state g state ts w).2.media.n_active =
        w.media.n_active + activations es - deactivations es := by
  by_cases h : w.media.status = .PREPARED
  · obtain ⟨es, _, h2, h3, h4⟩ := set_state_log g state ts w h
    refine ⟨_, h4, ?_⟩
    rw [h3]
    simp only [activations, deactivations, List.countP_append]
    split_ifs <;>
      simp [List.countP_cons, Event.is_activation, Event.is_deactivation, List.countP_map]
  · exact ⟨[.rec_mutex_lock, .rec_mutex_unlock],
      by simp [gst_rtsp_media_set_state, h],
      by simp [gst_rtsp_media_set_state, h, activations, deactivations, List.countP_cons,
        Event.is_activation, Event.is_deactivation]⟩

theorem run_set_states_counts (calls : List (Engine × GstState × List (Option Nat)))
    (w : World) :
    ∃ es, (run_set_states calls w).log = w.log ++ es ∧
      (run_set_states calls w).media.n_active =
        w.media.n_active + activations es - deactivations es := by
  induction calls generalizing w with
  | nil => exact ⟨[], by simp [run_set_states, activations, deactivations]⟩
  | cons c calls ih =>
    obtain ⟨es1, h1, h2⟩ := set_state_counts c.1 c.2.1 c.2.2 w
    obtain ⟨es2, h3, h4⟩ := ih (gst_rtsp_media_set_state c.1 c.2.1 c.2.2 w).2
    refine ⟨es1 ++ es2, ?_, ?_⟩
    · simp only [run_set_states, List.foldl_cons] at h3 ⊢
      rw [h3, h1, List.append_assoc]
    · simp only [run_set_states, List.foldl_cons] at h4 ⊢
      rw [h4, h2]
      simp only [activations, deactivations, List.countP_append]
      push_cast
      ring

/-! ### Closed forms for the first part of `gst_rtsp_media_prepare` -/

/-- The loop over the dynamic elements changes only `fakesink`. -/
theorem prepare_dynamic_all_media (g : Engine) (l : List Nat) (w : World) :
    (l.foldl (prepare_dynamic g) w).media =
      { w.media with
        fakesink := l.foldl (fun _ elem => g.factory_make_fakesink elem) w.media.fakesink } := by
  induction l generalizing w with
  | nil => rfl
  | cons n l ih => simp [ih, prepare_dynamic]

@[simp]
theorem prepare_dynamic_all_active (g : Engine) (l : List Nat) (w : World) :
    (l.foldl (prepare_dynamic g) w).active = w.active := by
  induction l generalizing w with
  | nil => rfl
  | cons n l ih => simp [ih, prepare_dynamic]

@[simp]
theorem prepare_dynamic_all_bus_log (g : Engine) (l : List Nat) (w : World) :
    (l.foldl (prepare_dynamic g) w).bus_log = w.bus_log := by
  induction l generalizing w with
  | nil => rfl
  | cons n l ih => simp [ih, prepare_dynamic]

/-- The setup block in closed form, as far as the session fields go. -/
theorem prepare_setup_media (g : Engine) (w : World) :
    (prepare_setup g w).media =
      { w.media with
        is_live := false, seekable := false, buffering := false, status := .PREPARING,
        source := some g.create_watch, id := g.attach_id,
        fakesink := w.media.dynamic.foldl (fun _ elem => g.factory_make_fakesink elem)
          w.media.fakesink,
        target_state := .PAUSED } := by
  simp [prepare_setup, prepare_dynamic_all_media]

@[simp]
theorem prepare_setup_active (g : Engine) (w : World) :
    (prepare_setup g w).active = w.active := by
  simp [prepare_setup]

@[simp]
theorem prepare_setup_bus_log (g : Engine) (w : World) :
    (prepare_setup g w).bus_log = w.bus_log := by
  simp [prepare_setup]

/-- What the switch on the preroll answer leaves of the session fields: all but
the flags `seekable` and `is_live`. -/
theorem prepare_preroll_media (g : Engine) (w : World) :
    (prepare_preroll g w).world.media =
      { w.media with
        seekable := (prepare_preroll g w).world.media.seekable,
        is_live := (prepare_preroll g w).world.media.is_live } := by
  simp only [prepare_preroll]
  split <;> (try split_ifs) <;> rfl

/-- What the first part of prepare leaves of the session fields when it goes
on past the checks. -/
theorem prepare_begin_media (g : Engine) (w : World) :
    (prepare_begin g w).world.media = w.media ∨
    (prepare_begin g w).world.media = { w.media with rtpbin := none } ∨
    (w.media.status = .UNPREPARED ∧ (w.media.reusable = true ∨ w.media.reused = false) ∧
      (prepare_begin g w).world.media =
        { w.media with
          rtpbin := g.factory_make_rtpbin,
          seekable := (prepare_begin g w).world.media.seekable,
          is_live := (prepare_begin g w).world.media.is_live,
          buffering := false, status := .PREPARING,
          source := some g.create_watch, id := g.attach_id,
          fakesink := w.media.dynamic.foldl (fun _ elem => g.factory_make_fakesink elem)
            w.media.fakesink,
          target_state := .PAUSED }) := by
  simp only [prepare_begin, emit_media, upd_media]
  split_ifs with h1 h2 h3 h4 h5
  · exact Or.inl rfl
  · exact Or.inl rfl
  · exact Or.inl rfl
  · exact Or.inl rfl
  · right; left
    simp only [PrepareStep.world, emit_media, upd_media]
    rw [h5]
  · right; right
    refine ⟨by simpa using h3, ?_, ?_⟩
    · simp at h4
      cases hr : w.media.reusable <;> simp_all
    · rw [prepare_preroll_media, prepare_setup_media]
      rfl

/-! ### The counter `n_active` is touched by `gst_rtsp_media_set_state` only -/

theorem handle_message_n_active (g : Engine) (message : GstMessage) (w : World) :
    (default_handle_message g message w).2.media.n_active = w.media.n_active := by
  cases message <;> simp [default_handle_message, gst_rtsp_media_set_status]
  all_goals split_ifs <;> simp

theorem dispatch_n_active (g : Engine) (message : GstMessage) (w : World) :
    (dispatch g message w).media.n_active = w.media.n_active := by
  simp only [dispatch, on_bus_thread_media]
  split_ifs
  · simp [bus_message, handle_message_n_active]
  · rfl

theorem dispatch_all_n_active (l : List (Engine × GstMessage)) (w : World) :
    (l.foldl (fun w n => dispatch n.1 n.2 w) w).media.n_active = w.media.n_active := by
  induction l generalizing w with
  | nil => rfl
  | cons n l ih => simp [ih, dispatch_n_active]

theorem wait_status_loop_n_active (wakes : List Wake) (w : World) :
    (wait_status_loop wakes w).media.n_active = w.media.n_active := by
  induction wakes generalizing w with
  | nil =>
    simp only [wait_status_loop]
    split_ifs <;> simp
  | cons wake rest ih =>
    simp only [wait_status_loop]
    split_ifs <;> simp [ih, dispatch_all_n_active]

theorem get_status_n_active (wakes : List Wake) (w : World) :
    (gst_rtsp_media_get_status wakes w).2.media.n_active = w.media.n_active := by
  simp [gst_rtsp_media_get_status, wait_status_loop_n_active]

theorem prepare_begin_n_active (g : Engine) (w : World) :
    (prepare_begin g w).world.media.n_active = w.media.n_active := by
  rcases prepare_begin_media g w with h | h | ⟨_, _, h⟩ <;> rw [h]

theorem prepare_state_failed_n_active (w : World) :
    (prepare_state_failed w).2.media.n_active = w.media.n_active := by
  simp [prepare_state_failed]

theorem prepare_n_active (g : Engine) (wakes : List Wake) (w : World) :
    (gst_rtsp_media_prepare g wakes w).2.media.n_active = w.media.n_active := by
  have h := prepare_begin_n_active g w
  simp only [gst_rtsp_media_prepare]
  split <;> rename_i heq <;> rw [heq] at h <;> simp only [PrepareStep.world] at h
  · exact h
  · rw [prepare_state_failed_n_active, h]
  · simp only [prepare_wait_status]
    split_ifs
    · rw [prepare_state_failed_n_active, get_status_n_active]
      simpa using h
    · simp [get_status_n_active, h]

theorem seek_n_active (g : Engine) (range : GstRTSPTimeRange) (w : World) :
    (gst_rtsp_media_seek g range w).2.media.n_active = w.media.n_active := by
  simp only [gst_rtsp_media_seek]
  split_ifs
  any_goals simp
  split <;> (try split_ifs) <;> simp

theorem op_run_n_active (op : Op) (w : World) (h : op.is_set_state = false) :
    (op.run w).media.n_active = w.media.n_active := by
  cases op with
  | prepare g wakes => exact prepare_n_active g wakes w
  | unprepare => simp [Op.run]
  | seek g range => exact seek_n_active g range w
  | set_state g state transports => simp [Op.is_set_state] at h
  | get_status wakes => exact get_status_n_active wakes w
  | notify g message => exact dispatch_n_active g message w
  | set_shared b => simp [Op.run, gst_rtsp_media_set_shared]
  | set_reusable b => simp [Op.run, gst_rtsp_media_set_reusable]
  | set_protocols b => simp [Op.run, gst_rtsp_media_set_protocols]
  | set_eos_shutdown b => simp [Op.run, gst_rtsp_media_set_eos_shutdown]
  | set_buffer_size b => simp [Op.run, gst_rtsp_media_set_buffer_size]

/-- The target state after the state-change block on a prepared session. -/
theorem set_state_change_target_state (state : GstState) (a : Bool) (n : Int) (w : World)
    (h : w.media.status = .PREPARED) :
    (set_state_change state a n w).media.target_state =
      if ((n = 0 ∧ a = true) ∨ w.media.n_active = 0) ∧ w.media.target_state ≠ state
      then state else w.media.target_state := by
  simp only [set_state_change]
  by_cases ht : w.media.target_state = state
  · simp [ht]
  · by_cases h1 : n = 0 ∧ a = true
    · by_cases hs : state = .NULL
      · subst hs
        simp [ht, h1, gst_rtsp_media_unprepare, default_unprepare, h]
        split_ifs <;> simp
      · simp [ht, h1, hs]
    · by_cases h2 : w.media.n_active = 0
      · by_cases hs : state = .NULL
        · subst hs
          simp [ht, h1, h2, gst_rtsp_media_unprepare, default_unprepare, h]
          split_ifs <;> simp
        · simp [ht, h1, h2, hs]
      · simp [ht, h1, h2]

/-- The target state after `gst_rtsp_media_set_state` on a prepared session. -/
theorem set_state_target_state (g : Engine) (state : GstState) (ts : List (Option Nat))
    (w : World) (h : w.media.status = .PREPARED) :
    (gst_rtsp_media_set_state g state ts w).2.media.target_state =
      if ((w.media.n_active = 0 ∧ requested_state state = .PLAYING) ∨
          (gst_rtsp_media_set_state g state ts w).2.media.n_active = 0) ∧
        w.media.target_state ≠ requested_state state
      then requested_state state else w.media.target_state := by
  have hm := set_state_transports_media
    (decide (requested_state state = .PLAYING))
    (decide ((requested_state state = .NULL ∨ requested_state state = .PAUSED) ∧
      w.media.target_state = .PLAYING)) ts (emit .rec_mutex_lock w)
  rw [set_state_of_prepared g state ts w h]
  generalize set_state_transports _ _ ts (emit .rec_mutex_lock w) = w1 at hm ⊢
  have hs : w1.media.status = .PREPARED := by rw [hm]; simpa using h
  have ht : w1.media.target_state = w.media.target_state := by rw [hm]; rfl
  simp [set_state_change_target_state _ _ _ _ hs, ht]

/-- An activation that reported a change is a call with the flag set. -/
theorem call_of_activation (e : Event) (h : e.is_activation = true) :
    ∃ t, e.transport_call = some (t, true) := by
  cases e <;> simp [Event.is_activation, Event.transport_call] at h ⊢
  exact h.1

/-- A deactivation that reported a change is a call with the flag cleared. -/
theorem call_of_deactivation (e : Event) (h : e.is_deactivation = true) :
    ∃ t, e.transport_call = some (t, false) := by
  cases e <;> simp [Event.is_deactivation, Event.transport_call] at h ⊢
  exact h.1

/-- Without a call that clears the flag there is no deactivation. -/
theorem deactivations_eq_zero (l : List Event)
    (h : ∀ c ∈ l.filterMap Event.transport_call, c.2 = true) : deactivations l = 0 := by
  simp only [deactivations, Nat.cast_eq_zero, List.countP_eq_zero]
  intro e he hd
  obtain ⟨t, ht⟩ := call_of_deactivation e hd
  have := h (t, false) (List.mem_filterMap.mpr ⟨e, he, ht⟩)
  simp at this

/-- Without a call that sets the flag there is no activation. -/
theorem activations_eq_zero (l : List Event)
    (h : ∀ c ∈ l.filterMap Event.transport_call, c.2 = false) : activations l = 0 := by
  simp only [activations, Nat.cast_eq_zero, List.countP_eq_zero]
  intro e he hd
  obtain ⟨t, ht⟩ := call_of_activation e hd
  have := h (t, true) (List.mem_filterMap.mpr ⟨e, he, ht⟩)
  simp at this

@[simp]
theorem filterMap_leave_bin_calls (l : List GstRTSPStream) :
    (l.map fun s => Event.stream_leave_bin s.idx).filterMap Event.transport_call = [] := by
  induction l with
  | nil => rfl
  | cons s l ih => simp [Event.transport_call, ih]

/-- The calls `gst_rtsp_media_set_state` makes on the transports of a prepared
session. -/
theorem set_state_transport_calls (g : Engine) (state : GstState)
    (ts : List (Option Nat)) (w : World) (h : w.media.status = .PREPARED) :
    (new_events w (gst_rtsp_media_set_state g state ts w).2).filterMap
        Event.transport_call =
      expected_calls (decide (requested_state state = .PLAYING))
        (decide ((requested_state state = .NULL ∨ requested_state state = .PAUSED) ∧
          w.media.target_state = .PLAYING)) ts := by
  obtain ⟨es, h1, h2, h3, h4⟩ := set_state_log g state ts w h
  rw [new_events_append _ _ _ h4]
  clear h4 h3
  generalize (gst_rtsp_media_set_state g state ts w).2.media.n_active = n1
  simp only [List.filterMap_append, h1]
  split_ifs <;> simp [Event.transport_call]

/-- The deactivating transport loop on a duplicate-free set of active
transports: every transport left active was active and was not supplied, and
the counter falls by the number of transports deactivated. -/
theorem set_state_transports_deactivate (ts : List (Option Nat)) (w : World)
    (hn : w.active.Nodup) :
    (set_state_transports false true ts w).active.Nodup ∧
    (∀ t ∈ (set_state_transports false true ts w).active, t ∈ w.active ∧ some t ∉ ts) ∧
    (set_state_transports false true ts w).media.n_active -
        (set_state_transports false true ts w).active.length =
      w.media.n_active - w.active.length := by
  induction ts generalizing w with
  | nil => simp [set_state_transports, hn]
  | cons x ts ih =>
    cases x with
    | none =>
      obtain ⟨h1, h2, h3⟩ := ih w hn
      simp only [set_state_transports]
      exact ⟨h1, fun t ht => ⟨(h2 t ht).1, by simpa using (h2 t ht).2⟩, h3⟩
    | some x =>
      simp only [set_state_transports, Bool.false_eq_true, if_false, if_true,
        set_active_fst, Bool.bne_false]
      by_cases hx : x ∈ w.active
      · have hw : (gst_rtsp_stream_transport_set_active x false w).2.active =
            w.active.filter fun t => t != x := by
          simp [gst_rtsp_stream_transport_set_active, hx]
        have hlen : ((w.active.filter fun t => t != x).length : Int) = w.active.length - 1 := by
          rw [← hn.erase_eq_filter, List.length_erase_of_mem hx]
          have : 0 < w.active.length := List.length_pos_of_mem hx
          omega
        obtain ⟨h1, h2, h3⟩ := ih
          ((gst_rtsp_stream_transport_set_active x false w).2.upd
            fun m => { m with n_active := m.n_active - 1 })
          (by simpa [hw] using hn.filter _)
        simp only [hx, decide_True, if_true]
        refine ⟨h1, fun t ht => ?_, ?_⟩
        · have := h2 t ht
          simp only [upd_active, hw, List.mem_filter, bne_iff_ne, ne_eq] at this
          refine ⟨this.1.1, ?_⟩
          simp only [List.mem_cons, Option.some.injEq, not_or]
          exact ⟨this.1.2, this.2⟩
        · rw [h3]
          simp only [upd_media, upd_active, set_active_media, hw, hlen]
          ring
      · have hw : (gst_rtsp_stream_transport_set_active x false w).2.active = w.active := by
          simp [gst_rtsp_stream_transport_set_active, hx]
        obtain ⟨h1, h2, h3⟩ := ih (gst_rtsp_stream_transport_set_active x false w).2
          (by simpa [hw] using hn)
        simp only [hx, decide_False, Bool.false_eq_true, if_false]
        refine ⟨h1, fun t ht => ?_, ?_⟩
        · have := h2 t ht
          rw [hw] at this
          refine ⟨this.1, ?_⟩
          simp only [List.mem_cons, Option.some.injEq, not_or]
          exact ⟨fun e => hx (e ▸ this.1), this.2⟩
        · rw [h3, hw]
          simp

@[simp]
theorem filter_leave_bin_range_query (l : List GstRTSPStream) :
    (l.map fun s => Event.stream_leave_bin s.idx).filter Event.is_range_query = [] := by
  induction l with
  | nil => rfl
  | cons s l ih => simp [Event.is_range_query, ih]

/-! ### The status wait -/

theorem handle_message_in_flight (g : Engine) (message : GstMessage) (w : World)
    (h : in_flight w.media.status) :
    in_flight (default_handle_message g message w).2.media.status := by
  unfold in_flight at h ⊢
  cases message <;> simp only [default_handle_message, gst_rtsp_media_set_status]
  all_goals (try split_ifs) <;> simp_all

theorem dispatch_in_flight (g : Engine) (message : GstMessage) (w : World)
    (h : in_flight w.media.status) : in_flight (dispatch g message w).media.status := by
  simp only [dispatch, on_bus_thread_media]
  split_ifs
  · simpa [bus_message] using handle_message_in_flight g message _ (by simpa using h)
  · exact h

theorem dispatch_all_in_flight (l : List (Engine × GstMessage)) (w : World)
    (h : in_flight w.media.status) :
    in_flight (l.foldl (fun w n => dispatch n.1 n.2 w) w).media.status := by
  induction l generalizing w with
  | nil => exact h
  | cons n l ih => exact ih _ (dispatch_in_flight n.1 n.2 w h)

@[simp]
theorem dispatch_log (g : Engine) (message : GstMessage) (w : World) :
    (dispatch g message w).log = w.log := rfl

@[simp]
theorem dispatch_all_log (l : List (Engine × GstMessage)) (w : World) :
    (l.foldl (fun w n => dispatch n.1 n.2 w) w).log = w.log := by
  induction l generalizing w with
  | nil => rfl
  | cons n l ih => simp [ih]

/-- The status wait ends a preparation in flight with `PREPARED` or `ERROR`. -/
theorem wait_status_loop_status (wakes : List Wake) (w : World)
    (h : in_flight w.media.status) :
    (wait_status_loop wakes w).media.status = .PREPARED ∨
      (wait_status_loop wakes w).media.status = .ERROR := by
  induction wakes generalizing w with
  | nil =>
    simp only [wait_status_loop]
    split_ifs with hp
    · simp
    · rcases h with h | h | h
      · exact absurd h hp
      · exact Or.inl h
      · exact Or.inr h
  | cons wake rest ih =>
    simp only [wait_status_loop]
    split_ifs with hp hs
    · exact ih _ (by simpa using dispatch_all_in_flight wake.handled w h)
    · exact ih _ (by simp [in_flight])
    · rcases h with h | h | h
      · exact absurd h hp
      · exact Or.inl h
      · exact Or.inr h

/-- What the status wait logs: only returns of `g_cond_wait_until` and stores of
`ERROR`; and when one wait returned `FALSE` the final status is `ERROR`. -/
theorem wait_status_loop_log (wakes : List Wake) (w : World) :
    ∃ es, (wait_status_loop wakes w).log = w.log ++ es ∧
      (Event.cond_wait_until false ∈ es →
        (wait_status_loop wakes w).media.status = .ERROR) ∧
      (∀ e ∈ es, e = .cond_wait_until true ∨ e = .cond_wait_until false ∨
        e = .store_status .ERROR) := by
  induction wakes generalizing w with
  | nil =>
    simp only [wait_status_loop]
    split_ifs with hp
    · exact ⟨[.cond_wait_until false, .store_status .ERROR], by simp, by simp, by simp⟩
    · exact ⟨[], by simp, by simp, by simp⟩
  | cons wake rest ih =>
    simp only [wait_status_loop]
    split_ifs with hp hs
    · obtain ⟨es, h1, h2, h3⟩ := ih (emit (.cond_wait_until wake.signalled)
        (wake.handled.foldl (fun w n => dispatch n.1 n.2 w) w))
      refine ⟨.cond_wait_until true :: es, ?_, ?_, ?_⟩
      · rw [h1]
        simp [hs]
      · intro hm
        simp at hm
        exact h2 hm
      · intro e he
        simp at he
        rcases he with rfl | he
        · simp
        · exact h3 e he
    · have hw : wait_status_loop rest (store_status .ERROR
          (emit (.cond_wait_until wake.signalled)
            (wake.handled.foldl (fun w n => dispatch n.1 n.2 w) w))) =
          store_status .ERROR (emit (.cond_wait_until wake.signalled)
            (wake.handled.foldl (fun w n => dispatch n.1 n.2 w) w)) :=
        wait_status_loop_of_not_preparing _ _ (by simp)
      rw [hw]
      simp only [Bool.not_eq_true] at hs
      exact ⟨[.cond_wait_until false, .store_status .ERROR], by simp [hs], by simp, by simp⟩
    · exact ⟨[], by simp, by simp, by simp⟩

/-- At the label `wait_status` the status is `PREPARING`. -/
theorem prepare_begin_wait_status (g : Engine) (w w1 : World)
    (h : prepare_begin g w = .wait_status w1) : w1.media.status = .PREPARING := by
  simp only [prepare_begin, emit_media, upd_media] at h
  split_ifs at h with h1 h2 h3 h4 h5
  · injection h with h
    rw [← h]
    simpa using h2
  · have hs : (prepare_setup g ((emit .element_factory_make_rtpbin (emit .rec_mutex_lock w)).upd
        fun m => { m with rtpbin := g.factory_make_rtpbin })).media.status = .PREPARING := by
      rw [prepare_setup_media]
    generalize prepare_setup g _ = w2 at h hs
    simp only [prepare_preroll] at h
    split at h
    · injection h with h
      rw [← h]
      simpa using hs
    · injection h with h
      rw [← h]
      simpa using hs
    · split_ifs at h
      injection h with h
      rw [← h]
      simpa using hs
    · cases h

/-- A first part of prepare that returns `TRUE` found the session prepared and
changed nothing. -/
theorem prepare_begin_returned_true (g : Engine) (w w1 : World)
    (h : prepare_begin g w = .returned true w1) :
    w.media.status = .PREPARED ∧ w1 = emits [.rec_mutex_lock, .rec_mutex_unlock] w := by
  simp only [prepare_begin, emit_media, upd_media] at h
  split_ifs at h with h1 h2 h3 h4 h5
  · injection h with _ h
    exact ⟨h1, by rw [← h]; simp [emit, emits]⟩
  · injection h with h
    cases h
  · injection h with h
    cases h
  · injection h with h
    cases h
  · generalize prepare_setup g _ = w2 at h
    simp only [prepare_preroll] at h
    split at h <;> (try split_ifs at h) <;> cases h

/-- The block `state_failed` tears the session down when it is in `ERROR`, in
`PREPARING`, or prepared without `eos_shutdown`. -/
theorem prepare_state_failed_eq (w : World) (h : w.media.status ≠ .UNPREPARED)
    (he : w.media.status = .PREPARED → w.media.eos_shutdown = false) :
    prepare_state_failed w =
      (false, emit .rec_mutex_unlock (emit .rec_mutex_unlock (finish_unprepare
        ((emit .rec_mutex_lock w).upd fun m => { m with target_state := .NULL })))) := by
  simp only [prepare_state_failed]
  rw [unprepare_of_teardown w h he]

/-- The status the wait delivers to `gst_rtsp_media_prepare`: the first
component of `gst_rtsp_media_get_status` is the status it leaves. -/
theorem get_status_fst (wakes : List Wake) (w : World) :
    (gst_rtsp_media_get_status wakes w).1 =
      (gst_rtsp_media_get_status wakes w).2.media.status := by
  simp [gst_rtsp_media_get_status]

/-- The status wait delivers `PREPARED` or `ERROR` for a preparation in flight. -/
theorem get_status_in_flight (wakes : List Wake) (w : World)
    (h : in_flight w.media.status) :
    (gst_rtsp_media_get_status wakes w).1 = .PREPARED ∨
      (gst_rtsp_media_get_status wakes w).1 = .ERROR := by
  simpa [gst_rtsp_media_get_status] using wait_status_loop_status wakes
    (emit .mutex_lock w) (by simpa using h)

/-! ### Prepare while other threads use the session -/

@[simp]
theorem on_other_threads_log (ops : List Op) (w : World) :
    (on_other_threads ops w).log = w.log := rfl

theorem on_other_threads_media (ops : List Op) (w : World) :
    (on_other_threads ops w).media = (run_ops ops w).media := rfl

theorem on_other_threads_nil (w : World) : on_other_threads [] w = w := rfl

/-- Other threads that only deliver notifications do what the control-message
thread does in `wait_status_loop`. -/
theorem on_other_threads_notify (l : List (Engine × GstMessage)) (w : World) :
    on_other_threads (l.map fun n => Op.notify n.1 n.2) w =
      l.foldl (fun w n => dispatch n.1 n.2 w) w := by
  have h : run_ops (l.map fun n => Op.notify n.1 n.2) w =
      l.foldl (fun w n => dispatch n.1 n.2 w) w := by
    simp only [run_ops, List.foldl_map, Op.run]
  rw [World.ext_iff']
  simp [on_other_threads, h]

/-- With turns in which only notifications are handled the shared status wait
is the status wait. -/
theorem wait_status_loop_shared_of_wakes (wakes : List Wake) (w : World) :
    wait_status_loop_shared (wakes.map Wake.turn) w = wait_status_loop wakes w := by
  induction wakes generalizing w with
  | nil => rfl
  | cons wake rest ih =>
    simp only [List.map_cons, wait_status_loop_shared, wait_status_loop, Wake.turn,
      on_other_threads_notify]
    split_ifs <;> first | rfl | exact ih _

theorem get_status_shared_of_wakes (wakes : List Wake) (w : World) :
    gst_rtsp_media_get_status_shared (wakes.map Wake.turn) w =
      gst_rtsp_media_get_status wakes w := by
  simp only [gst_rtsp_media_get_status_shared, gst_rtsp_media_get_status,
    wait_status_loop_shared_of_wakes]

/-- With no other thread but the control-message thread the shared prepare is
`gst_rtsp_media_prepare`. -/
theorem prepare_shared_of_wakes (g : Engine) (wakes : List Wake) (w : World) :
    gst_rtsp_media_prepare_shared g [] (wakes.map Wake.turn) w =
      gst_rtsp_media_prepare g wakes w := by
  simp only [gst_rtsp_media_prepare_shared, gst_rtsp_media_prepare, prepare_wait_status,
    on_other_threads_nil, get_status_shared_of_wakes]

/-- The status wait never ends with `PREPARING`. -/
theorem wait_status_loop_shared_status (turns : List Turn) (w : World) :
    (wait_status_loop_shared turns w).media.status ≠ .PREPARING := by
  induction turns generalizing w with
  | nil =>
    simp only [wait_status_loop_shared]
    split_ifs with hp
    · simp
    · exact hp
  | cons turn rest ih =>
    simp only [wait_status_loop_shared]
    split_ifs with hp
    · exact ih _
    · exact ih _
    · exact hp

theorem wait_status_loop_shared_of_not_preparing (turns : List Turn) (w : World)
    (h : w.media.status ≠ .PREPARING) : wait_status_loop_shared turns w = w := by
  cases turns <;> simp [wait_status_loop_shared, h]

theorem get_status_shared_fst (turns : List Turn) (w : World) :
    (gst_rtsp_media_get_status_shared turns w).1 =
      (gst_rtsp_media_get_status_shared turns w).2.media.status := by
  simp [gst_rtsp_media_get_status_shared]

/-- What `gst_rtsp_media_prepare` returns after the wait is decided by the test
of the delivered status against `ERROR`. -/
theorem prepare_shared_of_wait (g : Engine) (before : List Op) (turns : List Turn)
    (w w1 : World) (hb : prepare_begin g w = .wait_status w1) :
    gst_rtsp_media_prepare_shared g before turns w =
      if (gst_rtsp_media_get_status_shared turns
          (on_other_threads before (emit .rec_mutex_unlock w1))).1 = .ERROR then
        prepare_state_failed (gst_rtsp_media_get_status_shared turns
          (on_other_threads before (emit .rec_mutex_unlock w1))).2
      else
        (true, emit .signal_prepared (gst_rtsp_media_get_status_shared turns
          (on_other_threads before (emit .rec_mutex_unlock w1))).2) := by
  simp only [gst_rtsp_media_prepare_shared, hb]

/-- A prepare that returns `TRUE` with only the control-message thread beside
it ends with the status `PREPARED`. -/
theorem prepare_true_status (g : Engine) (wakes : List Wake) (w : World)
    (hret : (gst_rtsp_media_prepare g wakes w).1 = true) :
    (gst_rtsp_media_prepare g wakes w).2.media.status = .PREPARED := by
  cases hb : prepare_begin g w with
  | returned ret w1 =>
    simp only [gst_rtsp_media_prepare, hb] at hret ⊢
    subst hret
    obtain ⟨h1, h2⟩ := prepare_begin_returned_true g w w1 hb
    rw [h2]
    simpa using h1
  | state_failed w1 =>
    simp [gst_rtsp_media_prepare, hb, prepare_state_failed] at hret
  | wait_status w1 =>
    have hs := prepare_begin_wait_status g w w1 hb
    have hd := get_status_in_flight wakes (emit .rec_mutex_unlock w1)
      (by simp [in_flight, hs])
    simp only [gst_rtsp_media_prepare, hb, prepare_wait_status] at hret ⊢
    rcases hd with hd | hd
    · simp only [hd, reduceCtorEq, if_false, emit_media]
      rw [← get_status_fst]
      exact hd
    · simp [hd, prepare_state_failed] at hret

/-! ### The flag `reused` is never cleared -/

theorem handle_message_reused (g : Engine) (message : GstMessage) (w : World)
    (h : w.media.reused = true) :
    (default_handle_message g message w).2.media.reused = true := by
  cases message <;> simp only [default_handle_message, gst_rtsp_media_set_status]
  all_goals (try split_ifs) <;> simp [h]

theorem dispatch_reused (g : Engine) (message : GstMessage) (w : World)
    (h : w.media.reused = true) : (dispatch g message w).media.reused = true := by
  simp only [dispatch, on_bus_thread_media]
  split_ifs
  · simpa [bus_message] using handle_message_reused g message _ (by simpa using h)
  · exact h

theorem dispatch_all_reused (l : List (Engine × GstMessage)) (w : World)
    (h : w.media.reused = true) :
    (l.foldl (fun w n => dispatch n.1 n.2 w) w).media.reused = true := by
  induction l generalizing w with
  | nil => exact h
  | cons n l ih => exact ih _ (dispatch_reused n.1 n.2 w h)

theorem wait_status_loop_reused (wakes : List Wake) (w : World)
    (h : w.media.reused = true) : (wait_status_loop wakes w).media.reused = true := by
  induction wakes generalizing w with
  | nil =>
    simp only [wait_status_loop]
    split_ifs <;> simp [h]
  | cons wake rest ih =>
    simp only [wait_status_loop]
    split_ifs
    · exact ih _ (by simpa using dispatch_all_reused wake.handled w h)
    · exact ih _ (by simpa using dispatch_all_reused wake.handled w h)
    · exact h

theorem get_status_reused (wakes : List Wake) (w : World) (h : w.media.reused = true) :
    (gst_rtsp_media_get_status wakes w).2.media.reused = true := by
  simpa [gst_rtsp_media_get_status] using wait_status_loop_reused wakes
    (emit .mutex_lock w) (by simpa using h)

theorem unprepare_reused (w : World) (h : w.media.reused = true) :
    (gst_rtsp_media_unprepare w).2.media.reused = true := by
  simp only [gst_rtsp_media_unprepare, default_unprepare]
  split_ifs <;> simp [h]

theorem prepare_reused (g : Engine) (wakes : List Wake) (w : World)
    (h : w.media.reused = true) :
    (gst_rtsp_media_prepare g wakes w).2.media.reused = true := by
  have hb : (prepare_begin g w).world.media.reused = true := by
    rcases prepare_begin_media g w with e | e | ⟨_, _, e⟩ <;> rw [e] <;> exact h
  simp only [gst_rtsp_media_prepare]
  split <;> rename_i heq <;> rw [heq] at hb <;> simp only [PrepareStep.world] at hb
  · exact hb
  · simpa [prepare_state_failed] using unprepare_reused _ hb
  · simp only [prepare_wait_status]
    split_ifs
    · simpa [prepare_state_failed] using unprepare_reused _
        (get_status_reused wakes _ (by simpa using hb))
    · simpa using get_status_reused wakes _ (by simpa using hb)

theorem seek_reused (g : Engine) (range : GstRTSPTimeRange) (w : World)
    (h : w.media.reused = true) :
    (gst_rtsp_media_seek g range w).2.media.reused = true := by
  simp only [gst_rtsp_media_seek]
  split_ifs
  any_goals simpa using h
  split <;> (try split_ifs) <;> simpa using h

theorem set_state_reused (g : Engine) (state : GstState) (ts : List (Option Nat))
    (w : World) (h : w.media.reused = true) :
    (gst_rtsp_media_set_state g state ts w).2.media.reused = true := by
  simp only [gst_rtsp_media_set_state, emit_media]
  split_ifs
  · simpa using h
  · have hm := set_state_transports_media
      (decide (requested_state state = .PLAYING))
      (decide ((requested_state state = .NULL ∨ requested_state state = .PAUSED) ∧
        w.media.target_state = .PLAYING)) ts (emit .rec_mutex_lock w)
    generalize set_state_transports _ _ ts (emit .rec_mutex_lock w) = w1 at hm ⊢
    have h1 : w1.media.reused = true := by rw [hm]; simpa using h
    simp only [emit_media, set_state_collect, set_state_change]
    split_ifs <;> simp [h1, unprepare_reused]

theorem op_run_reused (op : Op) (w : World) (h : w.media.reused = true) :
    (op.run w).media.reused = true := by
  cases op with
  | prepare g wakes => exact prepare_reused g wakes w h
  | unprepare => exact unprepare_reused w h
  | seek g range => exact seek_reused g range w h
  | set_state g state transports => exact set_state_reused g state transports w h
  | get_status wakes => exact get_status_reused wakes w h
  | notify g message => exact dispatch_reused g message w h
  | set_shared b => simpa [Op.run, gst_rtsp_media_set_shared] using h
  | set_reusable b => simpa [Op.run, gst_rtsp_media_set_reusable] using h
  | set_protocols b => simpa [Op.run, gst_rtsp_media_set_protocols] using h
  | set_eos_shutdown b => simpa [Op.run, gst_rtsp_media_set_eos_shutdown] using h
  | set_buffer_size b => simpa [Op.run, gst_rtsp_media_set_buffer_size] using h

theorem run_ops_reused (ops : List Op) (w : World) (h : w.media.reused = true) :
    (run_ops ops w).media.reused = true := by
  induction ops generalizing w with
  | nil => exact h
  | cons op ops ih => exact ih _ (op_run_reused op w h)

/-! ### A used-up session that cannot be reused -/

/-- Prepare refuses a used-up session and changes nothing. -/
theorem prepare_of_used_up (g : Engine) (wakes : List Wake) (w : World) (h : used_up w) :
    gst_rtsp_media_prepare g wakes w =
      (false, emits [.rec_mutex_lock, .rec_mutex_unlock] w) := by
  obtain ⟨h1, h2, h3, _⟩ := h
  simp [gst_rtsp_media_prepare, prepare_begin, h1, h2, h3, emit, emits]

theorem op_run_used_up (op : Op) (w : World) (h : used_up w)
    (hop : op.makes_reusable = false) : used_up (op.run w) := by
  have h' := h
  obtain ⟨h1, h2, h3, h4⟩ := h'
  cases op with
  | prepare g wakes =>
    simp only [Op.run, prepare_of_used_up g wakes w h]
    exact h
  | unprepare =>
    simp only [Op.run, unprepare_of_unprepared w h1]
    exact h
  | seek g range => simpa [Op.run, gst_rtsp_media_seek, h1, used_up] using h
  | set_state g state transports =>
    simpa [Op.run, gst_rtsp_media_set_state, h1, used_up] using h
  | get_status wakes =>
    simpa [Op.run, get_status_of_not_preparing, h1, used_up] using h
  | notify g message =>
    simpa [Op.run, dispatch, h4, used_up] using h
  | set_shared b => simpa [Op.run, gst_rtsp_media_set_shared, used_up] using h
  | set_reusable b =>
    cases b
    · simp [Op.run, gst_rtsp_media_set_reusable, used_up, h1, h2, h4]
    · simp [Op.makes_reusable] at hop
  | set_protocols b => simpa [Op.run, gst_rtsp_media_set_protocols, used_up] using h
  | set_eos_shutdown b => simpa [Op.run, gst_rtsp_media_set_eos_shutdown, used_up] using h
  | set_buffer_size b => simpa [Op.run, gst_rtsp_media_set_buffer_size, used_up] using h

theorem run_ops_used_up (ops : List Op) (w : World) (h : used_up w)
    (hops : ∀ op ∈ ops, op.makes_reusable = false) : used_up (run_ops ops w) := by
  induction ops generalizing w with
  | nil => exact h
  | cons op ops ih =>
    exact ih _ (op_run_used_up op w h (hops op (by simp)))
      (fun o ho => hops o (by simp [ho]))

/-! ## Notifications other than end-of-stream -/

/-- A notification other than end-of-stream leaves the registry, the used-once
flag and the graph attachments alone. -/
theorem bus_message_same_attachments (g : Engine) (message : GstMessage) (w : World)
    (h : message ≠ .EOS) : same_attachments w (bus_message g message w).2 := by
  unfold same_attachments bus_message default_handle_message
  cases message <;>
    first
    | exact absurd rfl h
    | (simp only [gst_rtsp_media_set_status]; split_ifs <;> simp)
    | simp

/-- A notification other than end-of-stream does not make a session
`UNPREPARED`. -/
theorem bus_message_not_unprepared (g : Engine) (message : GstMessage) (w : World)
    (h : message ≠ .EOS) (hs : w.media.status ≠ .UNPREPARED) :
    (bus_message g message w).2.media.status ≠ .UNPREPARED := by
  unfold bus_message default_handle_message
  cases message <;>
    first
    | exact absurd rfl h
    | (simp only [gst_rtsp_media_set_status]; split_ifs <;> simp [hs])
    | simp [hs]

/-- The end-of-stream notification handled in `UNPREPARING` tears down. -/
theorem bus_message_eos_of_unpreparing (g : Engine) (w : World)
    (h : w.media.status = .UNPREPARING) : torn_down (bus_message g .EOS w).2 := by
  simp [torn_down, bus_message, default_handle_message, h]

/-- The end-of-stream notification handled in any other status changes no
field. -/
theorem bus_message_eos_of_not_unpreparing (g : Engine) (w : World)
    (h : w.media.status ≠ .UNPREPARING) : (bus_message g .EOS w).2.media = w.media := by
  simp [bus_message, default_handle_message, h]

/-- Notifications without an end-of-stream among them neither tear down nor
touch the registry, the used-once flag or the graph attachments. -/
theorem bus_messages_without_eos (l : List (Engine × GstMessage)) (w : World)
    (h : ∀ n ∈ l, n.2 ≠ .EOS) (hs : w.media.status ≠ .UNPREPARED) :
    (bus_messages l w).media.status ≠ .UNPREPARED ∧ same_attachments w (bus_messages l w) := by
  induction l generalizing w with
  | nil => exact ⟨hs, rfl, rfl, rfl, rfl, rfl⟩
  | cons n l ih =>
    have hn : n.2 ≠ .EOS := h n (List.mem_cons_self _ _)
    have hl : ∀ m ∈ l, m.2 ≠ .EOS := fun m hm => h m (List.mem_cons_of_mem _ hm)
    have h1 := bus_message_same_attachments n.1 n.2 w hn
    have h2 := bus_message_not_unprepared n.1 n.2 w hn hs
    obtain ⟨h3, h4⟩ := ih (bus_message n.1 n.2 w).2 hl h2
    refine ⟨h3, ?_⟩
    unfold same_attachments at h1 h4 ⊢
    simp only [bus_messages, List.foldl_cons] at h4 ⊢
    refine ⟨h4.1.trans h1.1, h4.2.1.trans h1.2.1, h4.2.2.1.trans h1.2.2.1,
      h4.2.2.2.1.trans h1.2.2.2.1, h4.2.2.2.2.trans h1.2.2.2.2⟩

/-- From `UNPREPARING`, the only operations that make the session `UNPREPARED`
are `gst_rtsp_media_unprepare` and the delivery of the end-of-stream
notification. -/
theorem op_run_of_unpreparing (op : Op) (w : World) (h : w.media.status = .UNPREPARING)
    (ht : (op.run w).media.status = .UNPREPARED) :
    op.is_unprepare = true ∨ ∃ g, op = .notify g .EOS := by
  cases op with
  | prepare g wakes => simp [Op.run, gst_rtsp_media_prepare, prepare_begin, h] at ht
  | unprepare => exact Or.inl rfl
  | seek g range => simp [Op.run, gst_rtsp_media_seek, h] at ht
  | set_state g state transports => simp [Op.run, gst_rtsp_media_set_state, h] at ht
  | get_status wakes => simp [Op.run, get_status_of_not_preparing, h] at ht
  | notify g message =>
    right
    refine ⟨g, ?_⟩
    by_contra hne
    have hm : message ≠ .EOS := fun hm => hne (by rw [hm])
    simp only [Op.run, dispatch, on_bus_thread_media] at ht
    split_ifs at ht
    · exact bus_message_not_unprepared g message _ hm (by simp [h]) ht
    · rw [h] at ht
      cases ht
  | set_shared b => simp [Op.run, gst_rtsp_media_set_shared, h] at ht
  | set_reusable b => simp [Op.run, gst_rtsp_media_set_reusable, h] at ht
  | set_protocols b => simp [Op.run, gst_rtsp_media_set_protocols, h] at ht
  | set_eos_shutdown b => simp [Op.run, gst_rtsp_media_set_eos_shutdown, h] at ht
  | set_buffer_size b => simp [Op.run, gst_rtsp_media_set_buffer_size, h] at ht

/-- A call of `gst_rtsp_media_unprepare` in `UNPREPARING` tears down. -/
theorem unprepare_of_unpreparing (w : World) (h : w.media.status = .UNPREPARING) :
    torn_down (gst_rtsp_media_unprepare w).2 := by
  rw [unprepare_of_teardown w (by simp [h]) (by simp [h])]
  simp [torn_down, finish_unprepare_media]

/-! ## The calls of prepare -/

theorem prepare_dynamic_all_log (g : Engine) (l : List Nat) (w : World) :
    (l.foldl (prepare_dynamic g) w).log = w.log ++ prepare_dynamic_events g l := by
  induction l generalizing w with
  | nil => simp [prepare_dynamic_events]
  | cons elem rest ih =>
    rw [List.foldl_cons, ih]
    simp [prepare_dynamic, prepare_dynamic_events]

/-- The calls of the setup block of prepare. -/
theorem prepare_setup_log (g : Engine) (w : World) :
    (prepare_setup g w).log = w.log ++ prepare_setup_events g w := by
  simp [prepare_setup, prepare_setup_events, prepare_dynamic_all_log, store_status]

theorem prepare_dynamic_events_sync (g : Engine) (l : List Nat) :
    ∀ e ∈ prepare_dynamic_events g l, e.is_sync = false := by
  induction l with
  | nil => simp [prepare_dynamic_events]
  | cons elem rest ih =>
    intro e he
    simp only [prepare_dynamic_events, List.mem_append, List.mem_cons, List.mem_singleton,
      List.not_mem_nil, or_false] at he
    rcases he with (rfl | rfl | rfl | rfl) | he
    · rfl
    · rfl
    · rfl
    · rfl
    · exact ih e he

theorem prepare_dynamic_events_run_state (g : Engine) (l : List Nat) :
    (prepare_dynamic_events g l).filter Event.is_run_state_request = [] := by
  induction l with
  | nil => rfl
  | cons elem rest ih =>
    simp [prepare_dynamic_events, Event.is_run_state_request, ih]

theorem join_events_run_state (l : List GstRTSPStream) (state : GstState) :
    (l.map fun s => Event.stream_join_bin s.idx state).filter Event.is_run_state_request =
      [] := by
  induction l with
  | nil => rfl
  | cons s rest ih => simp [Event.is_run_state_request, ih]

/-- The setup block of prepare makes one run-state request, for `PAUSED`. -/
theorem prepare_setup_events_run_state (g : Engine) (w : World) :
    (prepare_setup_events g w).filter Event.is_run_state_request =
      [.element_set_state .PAUSED] := by
  simp [prepare_setup_events, List.filter_append, prepare_dynamic_events_run_state,
    join_events_run_state, Event.is_run_state_request]

/-- The first part of prepare on an unprepared session that may be prepared and
gets its `rtpbin`. -/
theorem prepare_begin_of_unprepared (g : Engine) (w : World)
    (hs : w.media.status = .UNPREPARED)
    (hr : w.media.reusable = true ∨ w.media.reused = false)
    (hb : g.factory_make_rtpbin ≠ none) :
    prepare_begin g w =
      prepare_preroll g (prepare_setup g
        ((emit .element_factory_make_rtpbin (emit .rec_mutex_lock w)).upd
          fun m => { m with rtpbin := g.factory_make_rtpbin })) := by
  have h4 : ¬ ((!w.media.reusable && w.media.reused) = true) := by
    rcases hr with h | h <;> simp [h]
  simp only [prepare_begin, emit_media, upd_media, hs]
  rw [if_neg (by decide), if_neg (by decide), if_neg (by simp), if_neg h4, if_neg hb]

/-! ## Lock depth and the calls between a lock and its release -/

theorem lock_balance_append (l u : Event) (es es' : List Event) :
    lock_balance l u (es ++ es') = lock_balance l u es + lock_balance l u es' := by
  simp only [lock_balance, List.count_append, Nat.cast_add]
  ring

/-- Calls that do not synchronise leave the depth of a lock alone. -/
theorem lock_balance_of_no_sync (l u : Event) (es : List Event)
    (hl : l.is_sync = true) (hu : u.is_sync = true) (h : ∀ e ∈ es, e.is_sync = false) :
    lock_balance l u es = 0 := by
  have h1 : es.count l = 0 := by
    rw [List.count_eq_zero]
    intro hm
    rw [h l hm] at hl
    cases hl
  have h2 : es.count u = 0 := by
    rw [List.count_eq_zero]
    intro hm
    rw [h u hm] at hu
    cases hu
  simp [lock_balance, h1, h2]

/-- The depth of the state lock after a log that grew by `es`. -/
theorem state_lock_depth_of_log (w w' : World) (es : List Event)
    (h : w'.log = w.log ++ es) :
    state_lock_depth w' =
      state_lock_depth w + lock_balance .rec_mutex_lock .rec_mutex_unlock es := by
  simp only [state_lock_depth, h, lock_balance_append]

/-- The depth of the attribute mutex after a log that grew by `es`. -/
theorem mutex_depth_of_log (w w' : World) (es : List Event)
    (h : w'.log = w.log ++ es) :
    mutex_depth w' = mutex_depth w + lock_balance .mutex_lock .mutex_unlock es := by
  simp only [mutex_depth, h, lock_balance_append]

/-- Stores made by calls that do not synchronise are made at the depth the
calls start at. -/
theorem stores_held_of_no_sync (l u : Event) (hl : l.is_sync = true) (hu : u.is_sync = true)
    (d : Int) (es rest : List Event) (h : ∀ e ∈ es, e.is_sync = false) :
    stores_held l u d (es ++ rest) =
      ((decide (0 < d) || !es.any Event.is_store) && stores_held l u d rest) := by
  induction es with
  | nil => simp
  | cons e es ih =>
    have he : e.is_sync = false := h e (List.mem_cons_self _ _)
    have hel : e ≠ l := by
      rintro rfl
      rw [he] at hl
      cases hl
    have heu : e ≠ u := by
      rintro rfl
      rw [he] at hu
      cases hu
    have ih := ih fun e' he' => h e' (List.mem_cons_of_mem _ he')
    simp only [List.cons_append, stores_held, if_neg heu, if_neg hel]
    cases e
    case store_status s =>
      simp only [Event.is_store, List.any_cons, Bool.true_or, Bool.not_true, Bool.or_false]
      cases hd : decide (0 < d)
      · simp
      · rw [hd] at ih
        simpa using ih
    all_goals simp [ih, Event.is_store]

/-- The calls of `finish_unprepare` do not synchronise. -/
theorem finish_unprepare_events_sync (w : World) :
    ∀ e ∈ new_events w (finish_unprepare w), e.is_sync = false := by
  rw [new_events_append w _ _ (finish_unprepare_log w)]
  intro e he
  simp only [List.mem_append, List.mem_cons, List.mem_singleton, List.not_mem_nil, or_false,
    List.mem_map] at he
  rcases he with (((rfl | ⟨s, _, rfl⟩) | rfl | rfl) | he) | rfl
  · rfl
  · rfl
  · rfl
  · rfl
  · split_ifs at he
    · simp at he
      rw [he]
      rfl
    · simp at he
  · rfl

/-- The calls of `gst_rtsp_media_unprepare`: the state lock, calls that do not
synchronise, the release of the state lock. -/
theorem unprepare_log (w : World) :
    ∃ es, (gst_rtsp_media_unprepare w).2.log =
        w.log ++ ([.rec_mutex_lock] ++ es ++ [.rec_mutex_unlock]) ∧
      (∀ e ∈ es, e.is_sync = false) ∧
      (w.media.status ≠ .UNPREPARED → es.any Event.is_store = true) := by
  by_cases h : w.media.status = .UNPREPARED
  · rw [unprepare_of_unprepared w h]
    exact ⟨[], rfl, by simp, fun h' => absurd h h'⟩
  · by_cases hp : w.media.status = .PREPARED ∧ w.media.eos_shutdown = true
    · rw [unprepare_of_prepared_eos w hp.1 hp.2]
      refine ⟨[.element_send_eos, .element_set_state .PLAYING, .store_status .UNPREPARING],
        by simp, ?_, fun _ => rfl⟩
      intro e he
      simp only [List.mem_cons, List.mem_singleton, List.not_mem_nil, or_false] at he
      rcases he with rfl | rfl | rfl <;> rfl
    · have he : w.media.status = .PREPARED → w.media.eos_shutdown = false := by
        intro h1
        cases h2 : w.media.eos_shutdown
        · rfl
        · exact absurd ⟨h1, h2⟩ hp
      rw [unprepare_of_teardown w h he]
      have hs := finish_unprepare_events_sync
        ((emit .rec_mutex_lock w).upd fun m => { m with target_state := .NULL })
      have hl := finish_unprepare_log
        ((emit .rec_mutex_lock w).upd fun m => { m with target_state := .NULL })
      rw [new_events_append _ _ _ hl] at hs
      refine ⟨_, ?_, hs, fun _ => ?_⟩
      · simp only [emit_log, hl, upd_log, List.append_assoc]
      · simp [Event.is_store]

theorem unprepare_state_lock_depth (w : World) :
    state_lock_depth (gst_rtsp_media_unprepare w).2 = state_lock_depth w := by
  obtain ⟨es, h1, h2, _⟩ := unprepare_log w
  rw [state_lock_depth_of_log w _ _ h1, lock_balance_append, lock_balance_append,
    lock_balance_of_no_sync .rec_mutex_lock .rec_mutex_unlock es rfl rfl h2]
  simp [lock_balance]

/-- The calls of `gst_rtsp_media_get_status`: the attribute mutex, returns of
the wait and stores of `ERROR`, the release of the mutex. -/
theorem get_status_log (wakes : List Wake) (w : World) :
    ∃ es, (gst_rtsp_media_get_status wakes w).2.log =
        w.log ++ ([.mutex_lock] ++ es ++ [.mutex_unlock]) ∧
      (∀ e ∈ es, e.is_sync = false) ∧
      (∀ e ∈ es, e = .cond_wait_until true ∨ e = .cond_wait_until false ∨
        e = .store_status .ERROR) := by
  obtain ⟨es, h1, _, h3⟩ := wait_status_loop_log wakes (emit .mutex_lock w)
  refine ⟨es, by simp [gst_rtsp_media_get_status, h1], ?_, h3⟩
  intro e he
  rcases h3 e he with rfl | rfl | rfl <;> rfl

theorem get_status_state_lock_depth (wakes : List Wake) (w : World) :
    state_lock_depth (gst_rtsp_media_get_status wakes w).2 = state_lock_depth w := by
  obtain ⟨es, h1, h2, _⟩ := get_status_log wakes w
  rw [state_lock_depth_of_log w _ _ h1, lock_balance_append, lock_balance_append,
    lock_balance_of_no_sync .rec_mutex_lock .rec_mutex_unlock es rfl rfl h2]
  simp [lock_balance]

/-- The calls of the setup block of prepare do not synchronise. -/
theorem prepare_setup_events_sync (g : Engine) (w : World) :
    ∀ e ∈ prepare_setup_events g w, e.is_sync = false := by
  intro e he
  simp only [prepare_setup_events, List.mem_append, List.mem_cons, List.mem_singleton,
    List.not_mem_nil, or_false, List.mem_map] at he
  rcases he with (((rfl | rfl | rfl | rfl) | ⟨s, _, rfl⟩) | he) | rfl
  · rfl
  · rfl
  · rfl
  · rfl
  · rfl
  · exact prepare_dynamic_events_sync g _ e he
  · rfl

/-- The calls of the first part of prepare: the state lock, calls that do not
synchronise, and the release of the state lock when the part returns. -/
theorem prepare_begin_log (g : Engine) (w : World) :
    ∃ es, (∀ e ∈ es, e.is_sync = false) ∧
      (prepare_begin g w).world.log =
        w.log ++ ([.rec_mutex_lock] ++ es ++
          (match prepare_begin g w with
            | .returned _ _ => [.rec_mutex_unlock]
            | _ => [])) := by
  simp only [prepare_begin, emit_media, upd_media]
  split_ifs with h1 h2 h3 h4 h5
  · exact ⟨[], by simp, by simp [PrepareStep.world]⟩
  · exact ⟨[], by simp, by simp [PrepareStep.world]⟩
  · exact ⟨[], by simp, by simp [PrepareStep.world]⟩
  · exact ⟨[], by simp, by simp [PrepareStep.world]⟩
  · refine ⟨[.element_factory_make_rtpbin], ?_, by simp [PrepareStep.world]⟩
    intro e he
    simp only [List.mem_singleton] at he
    rw [he]
    rfl
  · have hlog := prepare_setup_log g
      ((emit .element_factory_make_rtpbin (emit .rec_mutex_lock w)).upd
        fun m => { m with rtpbin := g.factory_make_rtpbin })
    have hsync := prepare_setup_events_sync g
      ((emit .element_factory_make_rtpbin (emit .rec_mutex_lock w)).upd
        fun m => { m with rtpbin := g.factory_make_rtpbin })
    generalize prepare_setup_events g _ = evs at hlog hsync
    generalize prepare_setup g _ = ws at hlog
    simp only [emit_log, upd_log, List.append_assoc] at hlog
    simp only [prepare_preroll]
    split
    · refine ⟨.element_factory_make_rtpbin :: evs, ?_, by simp [PrepareStep.world, hlog]⟩
      intro e he
      rcases List.mem_cons.mp he with rfl | he
      · rfl
      · exact hsync e he
    · refine ⟨.element_factory_make_rtpbin :: evs, ?_, by simp [PrepareStep.world, hlog]⟩
      intro e he
      rcases List.mem_cons.mp he with rfl | he
      · rfl
      · exact hsync e he
    · refine ⟨.element_factory_make_rtpbin :: (evs ++ [.element_set_state .PLAYING]), ?_, ?_⟩
      · intro e he
        simp only [List.mem_cons, List.mem_append, List.mem_singleton, List.not_mem_nil,
          or_false] at he
        rcases he with rfl | he | rfl
        · rfl
        · exact hsync e he
        · rfl
      · split_ifs <;> simp [PrepareStep.world, hlog]
    · refine ⟨.element_factory_make_rtpbin :: evs, ?_, by simp [PrepareStep.world, hlog]⟩
      intro e he
      rcases List.mem_cons.mp he with rfl | he
      · rfl
      · exact hsync e he

theorem stores_held_cons_lock (l u : Event) (hne : l ≠ u) (d : Int) (es : List Event) :
    stores_held l u d (l :: es) = stores_held l u (d + 1) es := by
  simp [stores_held, hne]

theorem stores_held_cons_other (l u e : Event) (h1 : e ≠ l) (h2 : e ≠ u)
    (h3 : e.is_store = false) (d : Int) (es : List Event) :
    stores_held l u d (e :: es) = stores_held l u d es := by
  cases e <;> simp_all [stores_held, Event.is_store]

/-- Stores between a lock and its release are made under the lock, when the
calls in between do not synchronise. -/
theorem stores_held_section (l u : Event) (hl : l.is_sync = true) (hu : u.is_sync = true)
    (hne : l ≠ u) (es : List Event) (h : ∀ e ∈ es, e.is_sync = false) :
    stores_held l u 0 ([l] ++ es ++ [u]) = true ∧ stores_held l u 0 ([l] ++ es) = true := by
  have e1 : [l] ++ es ++ [u] = l :: (es ++ [u]) := by simp
  have e2 : [l] ++ es = l :: (es ++ []) := by simp
  rw [e1, e2, stores_held_cons_lock l u hne, stores_held_cons_lock l u hne,
    stores_held_of_no_sync l u hl hu _ es _ h, stores_held_of_no_sync l u hl hu _ es _ h]
  simp [stores_held]

/-- Stores between the acquisition and the release of another lock are made
outside a lock that is not taken in between. -/
theorem stores_held_outside (l u a : Event) (hl : l.is_sync = true) (hu : u.is_sync = true)
    (ha : a ≠ l ∧ a ≠ u ∧ a.is_store = false) (es rest : List Event)
    (h : ∀ e ∈ es, e.is_sync = false) (hs : es.any Event.is_store = true) :
    stores_held l u 0 ([a] ++ es ++ rest) = false := by
  have e1 : [a] ++ es ++ rest = a :: (es ++ rest) := by simp
  rw [e1, stores_held_cons_other l u a ha.1 ha.2.1 ha.2.2,
    stores_held_of_no_sync l u hl hu _ es _ h, hs]
  rfl

/-! ### Stores while the state lock is held by the caller -/

/-- Stores made by calls that neither take nor release a lock are made at the
depth the calls start at. -/
theorem stores_held_of_no_lock (l u : Event) (d : Int) (es rest : List Event)
    (h : ∀ e ∈ es, e ≠ l ∧ e ≠ u) :
    stores_held l u d (es ++ rest) =
      ((decide (0 < d) || !es.any Event.is_store) && stores_held l u d rest) := by
  induction es with
  | nil => simp
  | cons e es ih =>
    obtain ⟨hel, heu⟩ := h e (List.mem_cons_self _ _)
    have ih := ih fun e' he' => h e' (List.mem_cons_of_mem _ he')
    simp only [List.cons_append, stores_held, if_neg heu, if_neg hel]
    cases e
    case store_status s =>
      simp only [Event.is_store, List.any_cons, Bool.true_or, Bool.not_true, Bool.or_false]
      cases hd : decide (0 < d)
      · simp
      · rw [hd] at ih
        simpa using ih
    all_goals simp [ih, Event.is_store]

/-- Stores between a lock and its release are made under the lock, when the
calls in between leave the lock alone. -/
theorem stores_held_locked (l u : Event) (hne : l ≠ u) (es : List Event)
    (h : ∀ e ∈ es, e ≠ l ∧ e ≠ u) :
    stores_held l u 0 ([l] ++ es ++ [u]) = true := by
  have e1 : [l] ++ es ++ [u] = l :: (es ++ [u]) := by simp
  rw [e1, stores_held_cons_lock l u hne, stores_held_of_no_lock l u _ es _ h]
  simp [stores_held]

/-- The calls of `gst_rtsp_media_set_status` leave the state lock alone. -/
theorem set_status_log (status : GstRTSPMediaStatus) (w : World) :
    ∃ es, (gst_rtsp_media_set_status status w).log = w.log ++ es ∧
      ∀ e ∈ es, e ≠ .rec_mutex_lock ∧ e ≠ .rec_mutex_unlock := by
  by_cases hs : w.media.status = .ERROR
  · refine ⟨[.mutex_lock, .cond_broadcast, .mutex_unlock], ?_, ?_⟩
    · simp [gst_rtsp_media_set_status, hs]
    · intro e he
      simp only [List.mem_cons, List.mem_singleton, List.not_mem_nil, or_false] at he
      rcases he with rfl | rfl | rfl <;> exact ⟨by decide, by decide⟩
  · refine ⟨[.mutex_lock, .store_status status, .cond_broadcast, .mutex_unlock], ?_, ?_⟩
    · simp [gst_rtsp_media_set_status, hs, store_status]
    · intro e he
      simp only [List.mem_cons, List.mem_singleton, List.not_mem_nil, or_false] at he
      rcases he with rfl | rfl | rfl | rfl <;> exact ⟨by simp, by simp⟩

/-- The calls of `default_handle_message` leave the state lock alone: the
handler runs with the lock its caller took. -/
theorem handle_message_log (g : Engine) (message : GstMessage) (w : World) :
    ∃ es, (default_handle_message g message w).2.log = w.log ++ es ∧
      ∀ e ∈ es, e ≠ .rec_mutex_lock ∧ e ≠ .rec_mutex_unlock := by
  cases message with
  | STATE_CHANGED => exact ⟨[], by simp [default_handle_message], by simp⟩
  | WARNING => exact ⟨[], by simp [default_handle_message], by simp⟩
  | ELEMENT => exact ⟨[], by simp [default_handle_message], by simp⟩
  | STREAM_STATUS => exact ⟨[], by simp [default_handle_message], by simp⟩
  | OTHER n => exact ⟨[], by simp [default_handle_message], by simp⟩
  | LATENCY =>
    exact ⟨[.bin_recalculate_latency], by simp [default_handle_message], by simp⟩
  | ERROR =>
    simpa [default_handle_message] using set_status_log .ERROR w
  | BUFFERING percent =>
    simp only [default_handle_message]
    split_ifs
    · exact ⟨[], by simp, by simp⟩
    · exact ⟨[.element_set_state .PLAYING], by simp, by simp⟩
    · exact ⟨[], by simp, by simp⟩
    · exact ⟨[.element_set_state .PAUSED], by simp, by simp⟩
    · exact ⟨[], by simp, by simp⟩
    · exact ⟨[], by simp, by simp⟩
  | ASYNC_DONE =>
    simp only [default_handle_message]
    split_ifs
    · obtain ⟨es1, h1, h2⟩ := collect_media_stats_log g w
      obtain ⟨es2, h3, h4⟩ := set_status_log .PREPARED (collect_media_stats g w)
      refine ⟨es1 ++ es2, by rw [h3, h1, List.append_assoc], ?_⟩
      intro e he
      rcases List.mem_append.mp he with he | he
      · rcases h2 e he with rfl | rfl <;> exact ⟨by decide, by decide⟩
      · exact h4 e he
    · exact ⟨[], by simp, by simp⟩
  | EOS =>
    simp only [default_handle_message]
    split_ifs
    · have hs := finish_unprepare_events_sync w
      rw [new_events_append _ _ _ (finish_unprepare_log w)] at hs
      refine ⟨_, finish_unprepare_log w, ?_⟩
      intro e he
      have := hs e he
      constructor <;> rintro rfl <;> cases this
    · exact ⟨[], by simp, by simp⟩

/-- The calls of `bus_message`: the state lock, the calls of the handler, which
leave the state lock alone, and the release of the state lock. -/
theorem bus_message_log (g : Engine) (message : GstMessage) (w : World) :
    ∃ es, (bus_message g message w).2.log =
        w.log ++ ([.rec_mutex_lock] ++ es ++ [.rec_mutex_unlock]) ∧
      ∀ e ∈ es, e ≠ .rec_mutex_lock ∧ e ≠ .rec_mutex_unlock := by
  obtain ⟨es, h1, h2⟩ := handle_message_log g message (emit .rec_mutex_lock w)
  exact ⟨es, by simp [bus_message, h1], h2⟩

/-- Every status store made while a notification is handled is made under the
state lock. -/
theorem bus_message_stores_held (g : Engine) (message : GstMessage) (w : World) :
    stores_held .rec_mutex_lock .rec_mutex_unlock 0
      (new_events w (bus_message g message w).2) = true := by
  obtain ⟨es, h1, h2⟩ := bus_message_log g message w
  rw [new_events_append _ _ _ h1]
  exact stores_held_locked _ _ (by decide) es h2

/-- The calls the control-message thread makes for one notification. -/
theorem dispatch_bus_log (g : Engine) (message : GstMessage) (w : World) :
    (dispatch g message w).bus_log.drop w.bus_log.length =
      if w.media.source.isSome = true then
        new_events { w with log := w.bus_log, bus_log := [] }
          (bus_message g message { w with log := w.bus_log, bus_log := [] }).2
      else [] := by
  simp only [dispatch, on_bus_thread]
  split_ifs <;> simp [new_events]

/-- The calls of the state-change block, made with the state lock held once:
every status store among them is under the lock, and the block leaves the lock
held once. -/
theorem set_state_change_stores_held (state : GstState) (a : Bool) (n : Int) (w : World)
    (rest : List Event) :
    ∃ es, (set_state_change state a n w).log = w.log ++ es ∧
      stores_held .rec_mutex_lock .rec_mutex_unlock 1 (es ++ rest) =
        stores_held .rec_mutex_lock .rec_mutex_unlock 1 rest := by
  have hu : ∃ es, (gst_rtsp_media_unprepare w).2.log = w.log ++ es ∧
      stores_held .rec_mutex_lock .rec_mutex_unlock 1
          (es ++ (Event.signal_new_state state :: rest)) =
        stores_held .rec_mutex_lock .rec_mutex_unlock 1 rest := by
    obtain ⟨es, h1, h2, _⟩ := unprepare_log w
    refine ⟨_, h1, ?_⟩
    have h3 : ∀ e ∈ es, e ≠ Event.rec_mutex_lock ∧ e ≠ Event.rec_mutex_unlock := by
      intro e he
      have := h2 e he
      constructor <;> rintro rfl <;> cases this
    have e1 : [Event.rec_mutex_lock] ++ es ++ [Event.rec_mutex_unlock] ++
        (Event.signal_new_state state :: rest) =
        Event.rec_mutex_lock ::
          (es ++ (Event.rec_mutex_unlock :: Event.signal_new_state state :: rest)) := by simp
    rw [e1, stores_held_cons_lock _ _ (by decide), stores_held_of_no_lock _ _ _ es _ h3]
    simp [stores_held]
  obtain ⟨esu, hu1, hu2⟩ := hu
  by_cases ht : w.media.target_state = state
  · exact ⟨[], by simp [set_state_change, ht], by simp⟩
  · by_cases h1 : n = 0 ∧ a = true
    · by_cases hs : state = .NULL
      · refine ⟨esu ++ [.signal_new_state state], ?_, by simpa using hu2⟩
        subst hs
        simp [set_state_change, ht, h1, hu1]
      · exact ⟨[.element_set_state state, .signal_new_state state],
          by simp [set_state_change, ht, h1, hs], by simp [stores_held]⟩
    · by_cases h2 : w.media.n_active = 0
      · by_cases hs : state = .NULL
        · refine ⟨esu ++ [.signal_new_state state], ?_, by simpa using hu2⟩
          subst hs
          simp [set_state_change, ht, h1, h2, hu1]
        · exact ⟨[.element_set_state state, .signal_new_state state],
            by simp [set_state_change, ht, h1, h2, hs], by simp [stores_held]⟩
      · exact ⟨[.signal_new_state state], by simp [set_state_change, ht, h1, h2],
          by simp [stores_held]⟩

/-- Every status store `gst_rtsp_media_set_state` makes (through
`gst_rtsp_media_unprepare`, on a request for `NULL`) is made under the state
lock. -/
theorem set_state_stores_held (g : Engine) (state : GstState) (ts : List (Option Nat))
    (w : World) :
    stores_held .rec_mutex_lock .rec_mutex_unlock 0
      (new_events w (gst_rtsp_media_set_state g state ts w).2) = true := by
  by_cases h : w.media.status = .PREPARED
  · rw [set_state_of_prepared g state ts w h]
    obtain ⟨es1, h1, _, h2, _⟩ := set_state_transports_log
      (decide (requested_state state = .PLAYING))
      (decide ((requested_state state = .NULL ∨ requested_state state = .PAUSED) ∧
        w.media.target_state = .PLAYING)) ts (emit .rec_mutex_lock w)
    generalize set_state_transports _ _ ts (emit .rec_mutex_lock w) = w1 at h1 ⊢
    obtain ⟨es3, h3, h4⟩ := collect_media_stats_log g
      (set_state_change (requested_state state)
        (decide (requested_state state = .PLAYING)) w.media.n_active w1)
    have h5 : ∃ es, (set_state_collect g (requested_state state) w.media.n_active
        (set_state_change (requested_state state)
          (decide (requested_state state = .PLAYING)) w.media.n_active w1)).log =
        (set_state_change (requested_state state)
          (decide (requested_state state = .PLAYING)) w.media.n_active w1).log ++ es ∧
        ∀ e ∈ es, e = .element_query_position ∨ e = .element_query_duration := by
      simp only [set_state_collect]
      split_ifs
      · exact ⟨es3, h3, h4⟩
      · exact ⟨[], by simp, by simp⟩
    obtain ⟨es4, h6, h7⟩ := h5
    obtain ⟨es2, h8, h9⟩ := set_state_change_stores_held (requested_state state)
      (decide (requested_state state = .PLAYING)) w.media.n_active w1
      (es4 ++ [.rec_mutex_unlock])
    have hl : (emit Event.rec_mutex_unlock
        (set_state_collect g (requested_state state) w.media.n_active
          (set_state_change (requested_state state)
            (decide (requested_state state = .PLAYING)) w.media.n_active w1))).log =
        w.log ++ (Event.rec_mutex_lock :: (es1 ++ (es2 ++ (es4 ++ [.rec_mutex_unlock])))) := by
      simp [h6, h8, h1]
    have hes1 : ∀ e ∈ es1, e ≠ Event.rec_mutex_lock ∧ e ≠ Event.rec_mutex_unlock := by
      intro e he
      have := h2 e he
      constructor <;> rintro rfl <;> cases this
    have hes4 : ∀ e ∈ es4, e ≠ Event.rec_mutex_lock ∧ e ≠ Event.rec_mutex_unlock := by
      intro e he
      rcases h7 e he with rfl | rfl <;> exact ⟨by decide, by decide⟩
    rw [new_events_append _ _ _ hl, stores_held_cons_lock _ _ (by decide), zero_add,
      stores_held_of_no_lock _ _ _ es1 _ hes1, h9, stores_held_of_no_lock _ _ _ es4 _ hes4]
    simp [stores_held]
  · have hl : (gst_rtsp_media_set_state g state ts w).2.log =
        w.log ++ [.rec_mutex_lock, .rec_mutex_unlock] := by
      simp [gst_rtsp_media_set_state, h]
    rw [new_events_append _ _ _ hl]
    rfl

/-- Every status store the block `state_failed` of prepare makes (through
`gst_rtsp_media_unprepare`) is made under the state lock. -/
theorem prepare_state_failed_stores_held (w : World) :
    stores_held .rec_mutex_lock .rec_mutex_unlock 0
      (new_events w (prepare_state_failed w).2) = true := by
  obtain ⟨es, h1, h2, _⟩ := unprepare_log w
  have h3 : ∀ e ∈ es, e ≠ Event.rec_mutex_lock ∧ e ≠ Event.rec_mutex_unlock := by
    intro e he
    have := h2 e he
    constructor <;> rintro rfl <;> cases this
  have hl : (prepare_state_failed w).2.log =
      w.log ++ (Event.rec_mutex_lock :: (es ++ [.rec_mutex_unlock, .rec_mutex_unlock])) := by
    simp [prepare_state_failed, h1]
  rw [new_events_append _ _ _ hl, stores_held_cons_lock _ _ (by decide), zero_add,
    stores_held_of_no_lock _ _ _ es _ h3]
  simp [stores_held]

/-! ## The registry is only ever emptied as a whole -/

theorem handle_message_streams (g : Engine) (message : GstMessage) (w : World)
    (l : List GstRTSPStream) (h : kept_or_emptied l w) :
    kept_or_emptied l (default_handle_message g message w).2 := by
  unfold kept_or_emptied at h ⊢
  cases message <;> simp only [default_handle_message, gst_rtsp_media_set_status]
  all_goals (try split_ifs) <;> simp [h]

theorem dispatch_streams (g : Engine) (message : GstMessage) (w : World)
    (l : List GstRTSPStream) (h : kept_or_emptied l w) :
    kept_or_emptied l (dispatch g message w) := by
  have h1 := handle_message_streams g message
    (emit .rec_mutex_lock { w with log := w.bus_log, bus_log := [] }) l h
  unfold kept_or_emptied at h h1 ⊢
  simp only [dispatch, on_bus_thread_media]
  split_ifs
  · simpa [bus_message] using h1
  · exact h

theorem dispatch_all_streams (n : List (Engine × GstMessage)) (w : World)
    (l : List GstRTSPStream) (h : kept_or_emptied l w) :
    kept_or_emptied l (n.foldl (fun w n => dispatch n.1 n.2 w) w) := by
  induction n generalizing w with
  | nil => exact h
  | cons n rest ih => exact ih _ (dispatch_streams n.1 n.2 w l h)

theorem wait_status_loop_streams (wakes : List Wake) (w : World)
    (l : List GstRTSPStream) (h : kept_or_emptied l w) :
    kept_or_emptied l (wait_status_loop wakes w) := by
  induction wakes generalizing w with
  | nil =>
    simp only [wait_status_loop]
    split_ifs
    · exact h
    · exact h
  | cons wake rest ih =>
    simp only [wait_status_loop]
    split_ifs
    · exact ih _ (dispatch_all_streams wake.handled w l h)
    · exact ih _ (dispatch_all_streams wake.handled w l h)
    · exact h

theorem get_status_streams (wakes : List Wake) (w : World)
    (l : List GstRTSPStream) (h : kept_or_emptied l w) :
    kept_or_emptied l (gst_rtsp_media_get_status wakes w).2 :=
  wait_status_loop_streams wakes (emit .mutex_lock w) l h

theorem unprepare_streams (w : World) (l : List GstRTSPStream) (h : kept_or_emptied l w) :
    kept_or_emptied l (gst_rtsp_media_unprepare w).2 := by
  unfold kept_or_emptied at h ⊢
  simp only [gst_rtsp_media_unprepare, default_unprepare]
  split_ifs <;> simp [h]

theorem prepare_streams (g : Engine) (wakes : List Wake) (w : World)
    (l : List GstRTSPStream) (h : kept_or_emptied l w) :
    kept_or_emptied l (gst_rtsp_media_prepare g wakes w).2 := by
  have hb : kept_or_emptied l (prepare_begin g w).world := by
    unfold kept_or_emptied at h ⊢
    rcases prepare_begin_media g w with e | e | ⟨_, _, e⟩ <;> rw [e] <;> exact h
  simp only [gst_rtsp_media_prepare]
  split <;> rename_i heq <;> rw [heq] at hb <;> simp only [PrepareStep.world] at hb
  · exact hb
  · exact unprepare_streams _ l hb
  · simp only [prepare_wait_status]
    split_ifs
    · exact unprepare_streams _ l (get_status_streams wakes _ l hb)
    · exact get_status_streams wakes _ l hb

theorem seek_streams (g : Engine) (range : GstRTSPTimeRange) (w : World)
    (l : List GstRTSPStream) (h : kept_or_emptied l w) :
    kept_or_emptied l (gst_rtsp_media_seek g range w).2 := by
  unfold kept_or_emptied at h ⊢
  simp only [gst_rtsp_media_seek]
  split_ifs
  any_goals simpa using h
  split <;> (try split_ifs) <;> simpa using h

theorem set_state_streams (g : Engine) (state : GstState) (ts : List (Option Nat))
    (w : World) (l : List GstRTSPStream) (h : kept_or_emptied l w) :
    kept_or_emptied l (gst_rtsp_media_set_state g state ts w).2 := by
  simp only [gst_rtsp_media_set_state, emit_media]
  split_ifs
  · exact h
  · have hm := set_state_transports_media
      (decide (requested_state state = .PLAYING))
      (decide ((requested_state state = .NULL ∨ requested_state state = .PAUSED) ∧
        w.media.target_state = .PLAYING)) ts (emit .rec_mutex_lock w)
    generalize set_state_transports _ _ ts (emit .rec_mutex_lock w) = w1 at hm ⊢
    have h1 : kept_or_emptied l w1 := by
      unfold kept_or_emptied at h ⊢
      rw [hm]
      simpa using h
    have h2 := unprepare_streams w1 l h1
    unfold kept_or_emptied at h1 h2 ⊢
    simp only [emit_media, set_state_collect, set_state_change]
    split_ifs <;> simp [h1, h2]

/-- No operation of the interface takes single streams out of the registry: it
keeps the registry or leaves it empty. -/
theorem op_run_streams (op : Op) (w : World) :
    kept_or_emptied w.media.streams (op.run w) := by
  have h : kept_or_emptied w.media.streams w := Or.inl rfl
  cases op with
  | prepare g wakes => exact prepare_streams g wakes w _ h
  | unprepare => exact unprepare_streams w _ h
  | seek g range => exact seek_streams g range w _ h
  | set_state g state transports => exact set_state_streams g state transports w _ h
  | get_status wakes => exact get_status_streams wakes w _ h
  | notify g message => exact dispatch_streams g message w _ h
  | set_shared b => exact h
  | set_reusable b => exact h
  | set_protocols b => exact h
  | set_eos_shutdown b => exact h
  | set_buffer_size b => exact h

/-! ## The registry -/

/-- The function `gst_rtsp_media_create_stream` in closed form. -/
theorem create_stream_eq (payloader pad ghost : Nat) (w : World) :
    gst_rtsp_media_create_stream payloader pad ghost w =
      (⟨w.media.streams.length, payloader, ghost, w.media.pool⟩,
        { w with
          media := { w.media with
            streams := w.media.streams ++
              [⟨w.media.streams.length, payloader, ghost, w.media.pool⟩] }
          log := w.log ++ ([.mutex_lock, .ghost_pad_new w.media.streams.length pad,
            .pad_set_active ghost, .element_add_pad ghost,
            .stream_new w.media.streams.length] ++
            (if w.media.pool.isSome = true then
              [.stream_set_address_pool w.media.streams.length w.media.pool]
            else []) ++
            [.mutex_unlock, .signal_new_stream w.media.streams.length]) }) := by
  obtain ⟨m, a, l, b⟩ := w
  cases hp : m.pool <;>
    simp [gst_rtsp_media_create_stream, gst_rtsp_stream_new,
      gst_rtsp_stream_set_address_pool, emit, World.upd, hp]

/-- The function `gst_rtsp_media_set_address_pool` in closed form. -/
theorem set_address_pool_eq (pool : Option Nat) (w : World) :
    gst_rtsp_media_set_address_pool pool w =
      { w with
        media := { w.media with
          pool := pool
          streams := w.media.streams.map (gst_rtsp_stream_set_address_pool pool) }
        log := w.log ++ ([.mutex_lock] ++
          (w.media.streams.map fun s => Event.stream_set_address_pool s.idx pool) ++
          [.mutex_unlock]) } := by
  obtain ⟨m, a, l, b⟩ := w
  by_cases hp : m.pool = pool
  · subst hp
    simp [gst_rtsp_media_set_address_pool, emit, emits, World.upd]
  · simp [gst_rtsp_media_set_address_pool, emit, emits, World.upd, hp]

theorem create_stream_dense (payloader pad ghost : Nat) (w : World) (h : dense w) :
    dense (gst_rtsp_media_create_stream payloader pad ghost w).2 := by
  unfold dense at h ⊢
  rw [create_stream_eq]
  simp [List.range_succ, h]

theorem set_address_pool_dense (pool : Option Nat) (w : World) (h : dense w) :
    dense (gst_rtsp_media_set_address_pool pool w) := by
  unfold dense at h ⊢
  rw [set_address_pool_eq]
  simpa [gst_rtsp_stream_set_address_pool, Function.comp_def] using h

theorem finish_unprepare_dense (w : World) : dense (finish_unprepare w) := by
  unfold dense
  simp

theorem registry_op_dense (op : RegistryOp) (w : World) (h : dense w) : dense (op.run w) := by
  cases op with
  | create_stream payloader pad ghost => exact create_stream_dense payloader pad ghost w h
  | set_address_pool pool => exact set_address_pool_dense pool w h
  | teardown => exact finish_unprepare_dense w

theorem run_registry_ops_dense (ops : List RegistryOp) (w : World) (h : dense w) :
    dense (run_registry_ops ops w) := by
  induction ops generalizing w with
  | nil => exact h
  | cons op ops ih => exact ih _ (registry_op_dense op w h)

theorem create_stream_pools_bound (payloader pad ghost : Nat) (w : World)
    (h : pools_bound w) :
    pools_bound (gst_rtsp_media_create_stream payloader pad ghost w).2 := by
  unfold pools_bound at h ⊢
  rw [create_stream_eq]
  intro s hs
  simp only [List.mem_append, List.mem_singleton] at hs
  rcases hs with hs | rfl
  · exact h s hs
  · rfl

theorem set_address_pool_pools_bound (pool : Option Nat) (w : World) :
    pools_bound (gst_rtsp_media_set_address_pool pool w) := by
  unfold pools_bound
  rw [set_address_pool_eq]
  intro s hs
  simp only [List.mem_map] at hs
  obtain ⟨s', _, rfl⟩ := hs
  rfl

theorem registry_op_pools_bound (op : RegistryOp) (w : World) (h : pools_bound w) :
    pools_bound (op.run w) := by
  cases op with
  | create_stream payloader pad ghost => exact create_stream_pools_bound payloader pad ghost w h
  | set_address_pool pool => exact set_address_pool_pools_bound pool w
  | teardown =>
    unfold pools_bound
    simp [RegistryOp.run]

theorem run_registry_ops_pools_bound (ops : List RegistryOp) (w : World)
    (h : pools_bound w) : pools_bound (run_registry_ops ops w) := by
  induction ops generalizing w with
  | nil => exact h
  | cons op ops ih => exact ih _ (registry_op_pools_bound op w h)

/-- In a dense registry the stream at a position has the position as index. -/
theorem dense_get (w : World) (h : dense w) (j : Nat) (s : GstRTSPStream)
    (hs : w.media.streams[j]? = some s) : s.idx = j := by
  unfold dense at h
  have hj : j < w.media.streams.length := by
    by_contra hc
    rw [List.getElem?_eq_none (not_lt.mp hc)] at hs
    cases hs
  have h1 := congrArg (fun l => l[j]?) h
  simp only [List.getElem?_map, hs, Option.map_some', List.getElem?_range hj] at h1
  exact Option.some.inj h1

/-! ## Static discovery -/

/-- A number that names a producer is the number of a name in the graph. -/
theorem has_producer_number (graph : List Producer) (i : Nat)
    (h : has_producer graph i = true) :
    i ∈ graph.filterMap fun e => e.name.number := by
  simp only [has_producer, bin_get_by_name, Bool.or_eq_true, List.find?_isSome,
    decide_eq_true_eq] at h
  rw [List.mem_filterMap]
  rcases h with ⟨e, he, hn⟩ | ⟨e, he, hn⟩
  · exact ⟨e, he, by rw [hn]; rfl⟩
  · exact ⟨e, he, by rw [hn]; rfl⟩

/-- A finite graph has a number, at most its size, that names no producer. -/
theorem exists_gap (graph : List Producer) :
    ∃ k, k ≤ graph.length ∧ has_producer graph k = false := by
  by_contra hc
  have hall : ∀ k, k ≤ graph.length → has_producer graph k = true := by
    intro k hk
    cases h : has_producer graph k
    · exact absurd ⟨k, hk, h⟩ hc
    · rfl
  have hsub : List.range (graph.length + 1) ⊆ graph.filterMap fun e => e.name.number := by
    intro i hi
    exact has_producer_number graph i (hall i (by simpa [Nat.lt_succ_iff] using hi))
  have h1 := ((List.nodup_range (graph.length + 1)).subperm hsub).length_le
  have h2 := List.length_filterMap_le (fun e : Producer => e.name.number) graph
  simp only [List.length_range] at h1
  omega

/-- The least number that names no producer. -/
theorem exists_least_gap (graph : List Producer) :
    ∃ k, k ≤ graph.length ∧ (∀ i, i < k → has_producer graph i = true) ∧
      has_producer graph k = false := by
  obtain ⟨k0, hk0, hg0⟩ := exists_gap graph
  have hex : ∃ k, has_producer graph k = false := ⟨k0, hg0⟩
  refine ⟨Nat.find hex, le_trans (Nat.find_min' hex hg0) hk0, ?_, Nat.find_spec hex⟩
  intro i hi
  have := Nat.find_min hex hi
  cases h : has_producer graph i
  · exact absurd h this
  · rfl

/-- One pass of the loop body, on the session fields. -/
theorem collect_streams_body_eq (graph : List Producer) (ghost : Nat → Nat) (i : Nat)
    (w : World) :
    (collect_streams_body graph ghost i w).1 = has_producer graph i ∧
    (collect_streams_body graph ghost i w).2.media =
      { w.media with
        streams := w.media.streams ++
          (match bin_get_by_name graph (.pay i) with
            | some e => [⟨w.media.streams.length, e.elem, ghost w.media.streams.length,
                w.media.pool⟩]
            | none => [])
        dynamic :=
          (match bin_get_by_name graph (.dynpay i) with
            | some e => e.elem :: w.media.dynamic
            | none => w.media.dynamic) } ∧
    (collect_streams_body graph ghost i w).2.active = w.active ∧
    (collect_streams_body graph ghost i w).2.bus_log = w.bus_log := by
  simp only [collect_streams_body, has_producer, create_stream_eq]
  cases bin_get_by_name graph (.pay i) <;> cases bin_get_by_name graph (.dynpay i) <;> simp

/-- One pass of the loop body takes the fields from the numbers below `i` to
the numbers below `i + 1`. -/
theorem collect_streams_body_media (graph : List Producer) (ghost : Nat → Nat) (i : Nat)
    (m : GstRTSPMediaPrivate) (w : World) (h : w.media = collected_media graph ghost i m) :
    (collect_streams_body graph ghost i w).2.media = collected_media graph ghost (i + 1) m := by
  rw [(collect_streams_body_eq graph ghost i w).2.1, h]
  simp only [collected_media, collected_streams, collected_dynamic, List.length_append]
  cases bin_get_by_name graph (.pay i) <;> cases bin_get_by_name graph (.dynpay i) <;> simp

/-- The loop from the number `i` on ends at the first number `k` that names no
producer, when the passes allowed for are more than `k - i`. -/
theorem collect_streams_loop_eq (graph : List Producer) (ghost : Nat → Nat) (k : Nat)
    (m : GstRTSPMediaPrivate) (a : List Nat) (b : List Event)
    (hlt : ∀ i, i < k → has_producer graph i = true) (hk : has_producer graph k = false) :
    ∀ (fuel i : Nat) (w : World), i ≤ k → k - i < fuel →
      w.media = collected_media graph ghost i m → w.active = a → w.bus_log = b →
      ∃ w', collect_streams_loop graph ghost fuel i w = some w' ∧
        w'.media = collected_media graph ghost k m ∧ w'.active = a ∧ w'.bus_log = b := by
  intro fuel
  induction fuel with
  | zero =>
    intro i w _ hf
    omega
  | succ fuel ih =>
    intro i w hi hf hm ha hb
    obtain ⟨h1, h2, h3, h4⟩ := collect_streams_body_eq graph ghost i w
    simp only [collect_streams_loop]
    by_cases hik : i = k
    · subst hik
      rw [h1, hk]
      refine ⟨_, by simp, ?_, h3.trans ha, h4.trans hb⟩
      have hk' := hk
      simp only [has_producer, Bool.or_eq_false_iff] at hk'
      have hp : bin_get_by_name graph (.pay i) = none := by
        cases h : bin_get_by_name graph (.pay i) with
        | none => rfl
        | some e => rw [h] at hk'; simp at hk'
      have hd : bin_get_by_name graph (.dynpay i) = none := by
        cases h : bin_get_by_name graph (.dynpay i) with
        | none => rfl
        | some e => rw [h] at hk'; simp at hk'
      rw [h2, hp, hd]
      simp [hm]
    · have hlt' : i < k := lt_of_le_of_ne hi hik
      rw [h1, hlt i hlt']
      simp only [if_true]
      exact ih (i + 1) _ hlt' (by omega) (collect_streams_body_media graph ghost i m w hm)
        (h3.trans ha) (h4.trans hb)

/-- The payloaders of the streams created for the numbers below `k`, and their
indices. -/
theorem collected_streams_spec (graph : List Producer) (ghost : Nat → Nat)
    (pool : Option Nat) (k n : Nat) :
    (collected_streams graph ghost pool k n).map (fun s => s.payloader) =
        (List.range k).filterMap (fun i => (bin_get_by_name graph (.pay i)).map fun e => e.elem) ∧
      (collected_streams graph ghost pool k n).map (fun s => s.idx) =
        List.range' n (collected_streams graph ghost pool k n).length ∧
      (∀ s ∈ collected_streams graph ghost pool k n,
        s.pool = pool ∧ s.srcpad = ghost s.idx) := by
  induction k with
  | zero => simp [collected_streams]
  | succ k ih =>
    obtain ⟨h1, h2, h3⟩ := ih
    simp only [collected_streams, List.range_succ, List.filterMap_append]
    cases hp : bin_get_by_name graph (.pay k) with
    | none => simpa [hp] using ⟨h1, h2, h3⟩
    | some e =>
      refine ⟨by simp [hp, h1], ?_, ?_⟩
      · simp [h2, List.range'_concat]
      · intro s hs
        simp only [List.mem_append, List.mem_singleton] at hs
        rcases hs with hs | rfl
        · exact h3 s hs
        · exact ⟨rfl, rfl⟩

/-- The dynamic elements found for the numbers below `k`: the last found
first. -/
theorem collected_dynamic_spec (graph : List Producer) (k : Nat) :
    collected_dynamic graph k =
      ((List.range k).filterMap
        (fun i => (bin_get_by_name graph (.dynpay i)).map fun e => e.elem)).reverse := by
  induction k with
  | zero => rfl
  | succ k ih =>
    simp only [collected_dynamic, List.range_succ, List.filterMap_append, List.reverse_append]
    cases hp : bin_get_by_name graph (.dynpay k) <;> simp [hp, ih]

/-- The lookups in a media element that holds exactly `pay0` to `pay(n-1)`. -/
theorem bin_get_by_name_payloaders_only (n : Nat) (elem pad : Nat → Nat) (i : Nat) :
    bin_get_by_name (payloaders_only n elem pad) (.pay i) =
        (if i < n then some ⟨.pay i, elem i, pad i⟩ else none) ∧
      bin_get_by_name (payloaders_only n elem pad) (.dynpay i) = none := by
  constructor
  · induction n with
    | zero => simp [bin_get_by_name, payloaders_only]
    | succ n ih =>
      simp only [bin_get_by_name, payloaders_only, List.range_succ, List.map_append,
        List.find?_append] at ih ⊢
      rw [ih]
      by_cases h1 : i < n
      · simp [h1, Nat.lt_succ_of_lt h1]
      · by_cases h2 : i = n
        · subst h2
          simp
        · have h3 : ¬ i < n + 1 := by omega
          have h4 : n ≠ i := fun h => h2 h.symm
          simp [h1, h3, h4]
  · simp [bin_get_by_name, payloaders_only]

/-- The streams created in an empty registry for a media element that holds
exactly `pay0` to `pay(n-1)`: stream `i` is on `pay<i>`. -/
theorem collected_streams_payloaders_only (n : Nat) (elem pad ghost : Nat → Nat)
    (pool : Option Nat) (j : Nat) (hj : j ≤ n) :
    collected_streams (payloaders_only n elem pad) ghost pool j 0 =
        (List.range j).map (fun i => ⟨i, elem i, ghost i, pool⟩) ∧
      collected_dynamic (payloaders_only n elem pad) j = [] := by
  induction j with
  | zero => exact ⟨rfl, rfl⟩
  | succ j ih =>
    obtain ⟨h1, h2⟩ := ih (by omega)
    have hlt : j < n := by omega
    simp only [collected_streams, collected_dynamic, h1, h2,
      (bin_get_by_name_payloaders_only n elem pad j).1,
      (bin_get_by_name_payloaders_only n elem pad j).2, if_pos hlt, List.range_succ,
      List.map_append]
    simp

/-! ## The claims -/

/-- C1: once the status of a session is `ERROR`, prepare, seek, set_state, the
status wait, `gst_rtsp_media_set_status` with any value, every notification
handled by `default_handle_message` (also through `bus_message`), and every
sequence of operations without an unprepare leave it `ERROR`; the teardown
(`finish_unprepare`, reached through `gst_rtsp_media_unprepare`) resets it to
`UNPREPARED`. -/
theorem error_status_is_sticky (w : World) (h : w.media.status = .ERROR) :
    (∀ g wakes, (gst_rtsp_media_prepare g wakes w).2.media.status = .ERROR) ∧
    (∀ g range, (gst_rtsp_media_seek g range w).2.media.status = .ERROR) ∧
    (∀ g state transports,
      (gst_rtsp_media_set_state g state transports w).2.media.status = .ERROR) ∧
    (∀ wakes, (gst_rtsp_media_get_status wakes w).1 = .ERROR ∧
      (gst_rtsp_media_get_status wakes w).2.media.status = .ERROR) ∧
    (∀ s, (gst_rtsp_media_set_status s w).media.status = .ERROR) ∧
    (∀ g message, (default_handle_message g message w).2.media.status = .ERROR) ∧
    (∀ g message, (bus_message g message w).2.media.status = .ERROR) ∧
    (∀ ops : List Op, (∀ op ∈ ops, op.is_unprepare = false) →
      (run_ops ops w).media.status = .ERROR) ∧
    (finish_unprepare w).media.status = .UNPREPARED ∧
    (gst_rtsp_media_unprepare w).2.media.status = .UNPREPARED := by
  refine ⟨?_, ?_, ?_, ?_, ?_, ?_, ?_, ?_, ?_, ?_⟩
  · intro g wakes
    simp [gst_rtsp_media_prepare, prepare_begin, h]
  · intro g range
    simp [gst_rtsp_media_seek, h]
  · intro g state transports
    simp [gst_rtsp_media_set_state, h]
  · intro wakes
    simp [get_status_of_not_preparing, h]
  · intro s
    exact set_status_of_error s w h
  · intro g message
    exact handle_message_of_error g message w h
  · intro g message
    exact bus_message_of_error g message w h
  · intro ops hops
    exact run_ops_of_error ops w h hops
  · simp [finish_unprepare]
    split_ifs <;> simp
  · simp [gst_rtsp_media_unprepare, h, finish_unprepare]
    split_ifs <;> simp

/-- Witness for C1 on the prepared example session after an error notification. -/
theorem error_status_is_sticky_witness :
    world_error.media.status = .ERROR ∧
    (gst_rtsp_media_seek engine0 ⟨.NPT, ⟨.SECONDS, .of_time 0⟩, ⟨.END, .minus_one⟩⟩
      world_error).2.media.status = .ERROR ∧
    (gst_rtsp_media_unprepare world_error).2.media.status = .UNPREPARED :=
  ⟨by decide, (error_status_is_sticky world_error (by decide)).2.1 _ _,
    (error_status_is_sticky world_error (by decide)).2.2.2.2.2.2.2.2.2⟩

/-- C2: after any sequence of `gst_rtsp_media_set_state` calls the counter
`n_active` is its value before the sequence plus the number of activations that
reported a change minus the number of deactivations that reported a change
during the sequence; and no operation other than set_state (prepare, seek,
unprepare, the status wait, a notification, a configuration setter), nor the
teardown `finish_unprepare`, nor `default_handle_message`, changes it. -/
theorem n_active_counts_reported_changes
    (calls : List (Engine × GstState × List (Option Nat))) (w : World) :
    (run_set_states calls w).media.n_active =
        w.media.n_active + activations (new_events w (run_set_states calls w)) -
          deactivations (new_events w (run_set_states calls w)) ∧
      (∀ op : Op, op.is_set_state = false →
        (op.run w).media.n_active = w.media.n_active) ∧
      (finish_unprepare w).media.n_active = w.media.n_active ∧
      (∀ g message,
        (default_handle_message g message w).2.media.n_active = w.media.n_active) := by
  refine ⟨?_, fun op h => op_run_n_active op w h, by simp,
    fun g message => handle_message_n_active g message w⟩
  obtain ⟨es, h1, h2⟩ := run_set_states_counts calls w
  rw [new_events_append _ _ _ h1, h2]

/-- Witness for C2: two clients start playing and one pauses. -/
theorem n_active_counts_reported_changes_witness :
    (run_set_states
        [(engine0, .PLAYING, [some 7, some 8]), (engine0, .PAUSED, [some 7])]
        world_prepared).media.n_active =
      world_prepared.media.n_active +
        activations (new_events world_prepared (run_set_states
          [(engine0, .PLAYING, [some 7, some 8]), (engine0, .PAUSED, [some 7])]
          world_prepared)) -
        deactivations (new_events world_prepared (run_set_states
          [(engine0, .PLAYING, [some 7, some 8]), (engine0, .PAUSED, [some 7])]
          world_prepared)) ∧
    (run_set_states
        [(engine0, .PLAYING, [some 7, some 8]), (engine0, .PAUSED, [some 7])]
        world_prepared).media.n_active = 1 :=
  ⟨(n_active_counts_reported_changes
      [(engine0, .PLAYING, [some 7, some 8]), (engine0, .PAUSED, [some 7])]
      world_prepared).1, by decide⟩

/-- C3 (amended): on a prepared session `gst_rtsp_media_set_state` requests a
run-state change of the pipeline (directly, or through the unprepare it runs
for the stopped state) exactly when the requested state differs from the target
state and either the counter was `0` before the call while playing is
requested, or the counter is `0` after the call; in every other call no
run-state request is made and the target state is unchanged. -/
theorem set_state_run_state_only_at_zero (g : Engine) (state : GstState)
    (ts : List (Option Nat)) (w : World) (h : w.media.status = .PREPARED) :
    ((new_events w (gst_rtsp_media_set_state g state ts w).2).any
        Event.is_run_state_request = true ↔
      ((w.media.n_active = 0 ∧ requested_state state = .PLAYING) ∨
          (gst_rtsp_media_set_state g state ts w).2.media.n_active = 0) ∧
        w.media.target_state ≠ requested_state state) ∧
    (¬ (((w.media.n_active = 0 ∧ requested_state state = .PLAYING) ∨
          (gst_rtsp_media_set_state g state ts w).2.media.n_active = 0) ∧
        w.media.target_state ≠ requested_state state) →
      (gst_rtsp_media_set_state g state ts w).2.media.target_state =
        w.media.target_state) := by
  obtain ⟨es, h1, h2, h3, h4⟩ := set_state_log g state ts w h
  have hes := transport_events_any es Event.is_run_state_request h2 (fun _ _ _ => rfl)
  have htgt := set_state_target_state g state ts w h
  constructor
  · rw [new_events_append _ _ _ h4]
    clear h4 h3 h1 h2 htgt
    generalize (gst_rtsp_media_set_state g state ts w).2.media.n_active = n1
    simp only [List.any_append, hes]
    split_ifs <;> simp [Event.is_run_state_request] <;> tauto
  · intro hc
    rw [htgt, if_neg hc]

/-- C3 as stated fails: on the prepared example session, where no client is
active (a session that was set up and never played), a request for `NULL`
tears the session down, setting the pipeline to `NULL`, although the counter
was `0` before the call and is `0` after it: the call neither moved it from `0`
to a nonzero value nor from a nonzero value back to `0`. -/
theorem set_state_run_state_without_edge :
    world_prepared.media.status = .PREPARED ∧
    (new_events world_prepared
      (gst_rtsp_media_set_state engine0 .NULL [some 7, none] world_prepared).2).any
        Event.is_run_state_request = true ∧
    (gst_rtsp_media_set_state engine0 .NULL [some 7, none]
      world_prepared).2.media.status = .UNPREPARED ∧
    ¬ ((world_prepared.media.n_active = 0 ∧
          (gst_rtsp_media_set_state engine0 .NULL [some 7, none]
            world_prepared).2.media.n_active ≠ 0 ∧
          requested_state .NULL = .PLAYING) ∨
        (world_prepared.media.n_active ≠ 0 ∧
          (gst_rtsp_media_set_state engine0 .NULL [some 7, none]
            world_prepared).2.media.n_active = 0)) := by
  decide

/-- Witness for C3: a second client starts playing while one is active, and
nothing is requested of the pipeline. -/
theorem set_state_run_state_only_at_zero_witness :
    world_playing.media.status = .PREPARED ∧
    ((new_events world_playing
        (gst_rtsp_media_set_state engine0 .PLAYING [some 8] world_playing).2).any
          Event.is_run_state_request = true ↔
      ((world_playing.media.n_active = 0 ∧ requested_state .PLAYING = .PLAYING) ∨
          (gst_rtsp_media_set_state engine0 .PLAYING [some 8]
            world_playing).2.media.n_active = 0) ∧
        world_playing.media.target_state ≠ requested_state .PLAYING) ∧
    (new_events world_playing
        (gst_rtsp_media_set_state engine0 .PLAYING [some 8] world_playing).2).any
          Event.is_run_state_request = false :=
  ⟨by decide,
    (set_state_run_state_only_at_zero engine0 .PLAYING [some 8] world_playing
      (by decide)).1,
    by decide⟩

/-- C4 (amended): on a prepared session a playing request calls activation on
every non-`NULL` supplied transport, in order, and adds to `n_active` the
number of those calls that reported a change; a stopped or paused request calls
deactivation on every non-`NULL` supplied transport and subtracts from
`n_active` the number of those calls that reported a change when the target
state is playing, and when the target state is not playing it calls neither and
leaves `n_active` unchanged. -/
theorem set_state_transport_activation (g : Engine) (state : GstState)
    (ts : List (Option Nat)) (w : World) (h : w.media.status = .PREPARED) :
    (requested_state state = .PLAYING →
      (new_events w (gst_rtsp_media_set_state g state ts w).2).filterMap
          Event.transport_call = (ts.filterMap id).map (fun t => (t, true)) ∧
        (gst_rtsp_media_set_state g state ts w).2.media.n_active =
          w.media.n_active +
            activations (new_events w (gst_rtsp_media_set_state g state ts w).2)) ∧
    (requested_state state = .NULL ∨ requested_state state = .PAUSED →
      (w.media.target_state = .PLAYING →
        (new_events w (gst_rtsp_media_set_state g state ts w).2).filterMap
            Event.transport_call = (ts.filterMap id).map (fun t => (t, false)) ∧
          (gst_rtsp_media_set_state g state ts w).2.media.n_active =
            w.media.n_active -
              deactivations (new_events w (gst_rtsp_media_set_state g state ts w).2)) ∧
      (w.media.target_state ≠ .PLAYING →
        (new_events w (gst_rtsp_media_set_state g state ts w).2).filterMap
            Event.transport_call = [] ∧
          (gst_rtsp_media_set_state g state ts w).2.media.n_active = w.media.n_active)) := by
  have hc := set_state_transport_calls g state ts w h
  obtain ⟨es, h1, h2⟩ := set_state_counts g state ts w
  rw [new_events_append _ _ _ h1] at hc ⊢
  refine ⟨fun hp => ?_, fun hs => ⟨fun ht => ?_, fun ht => ?_⟩⟩
  · simp only [hp, expected_calls, decide_True, if_true] at hc
    refine ⟨hc, ?_⟩
    have hd : deactivations es = 0 := deactivations_eq_zero es (by
      rw [hc]
      simp)
    rw [h2, hd]
    ring
  · have hnp : requested_state state ≠ .PLAYING := by
      rcases hs with hs | hs <;> simp [hs]
    simp only [hnp, hs, ht, expected_calls, decide_False, decide_True, and_self,
      Bool.false_eq_true, if_false, if_true] at hc
    refine ⟨hc, ?_⟩
    have ha : activations es = 0 := activations_eq_zero es (by
      rw [hc]
      simp)
    rw [h2, ha]
    ring
  · have hnp : requested_state state ≠ .PLAYING := by
      rcases hs with hs | hs <;> simp [hs]
    simp only [hnp, ht, expected_calls, decide_False, and_false,
      Bool.false_eq_true, if_false] at hc
    refine ⟨hc, ?_⟩
    have ha : activations es = 0 := activations_eq_zero es (by
      rw [hc]
      simp)
    have hd : deactivations es = 0 := deactivations_eq_zero es (by
      rw [hc]
      simp)
    rw [h2, ha, hd]
    ring

/-- C4 as stated fails: with a target state other than playing a paused request
makes no call on the supplied transport. First on the prepared example session
(target state paused); then on a session whose client `7` is active while the
target state is `NULL`: the transport stays active and the counter stays `1`. -/
theorem set_state_paused_without_deactivation :
    world_prepared.media.status = .PREPARED ∧
    (new_events world_prepared
      (gst_rtsp_media_set_state engine0 .PAUSED [some 7] world_prepared).2).filterMap
        Event.transport_call = [] ∧
    world_playing_after_unprepare.media.status = .PREPARED ∧
    world_playing_after_unprepare.media.n_active = 1 ∧
    world_playing_after_unprepare.active = [7] ∧
    (new_events world_playing_after_unprepare
      (gst_rtsp_media_set_state engine0 .PAUSED [some 7]
        world_playing_after_unprepare).2).filterMap Event.transport_call = [] ∧
    (gst_rtsp_media_set_state engine0 .PAUSED [some 7]
      world_playing_after_unprepare).2.media.n_active = 1 ∧
    (gst_rtsp_media_set_state engine0 .PAUSED [some 7]
      world_playing_after_unprepare).2.active = [7] := by
  decide

/-- Witness for C4: a playing request on the prepared example session. -/
theorem set_state_transport_activation_witness :
    world_prepared.media.status = .PREPARED ∧ requested_state .PLAYING = .PLAYING ∧
    (new_events world_prepared
      (gst_rtsp_media_set_state engine0 .PLAYING [some 7, none, some 8]
        world_prepared).2).filterMap Event.transport_call = [(7, true), (8, true)] ∧
    (gst_rtsp_media_set_state engine0 .PLAYING [some 7, none, some 8]
      world_prepared).2.media.n_active =
      world_prepared.media.n_active +
        activations (new_events world_prepared
          (gst_rtsp_media_set_state engine0 .PLAYING [some 7, none, some 8]
            world_prepared).2) :=
  ⟨by decide, by decide,
    ((set_state_transport_activation engine0 .PLAYING [some 7, none, some 8]
      world_prepared (by decide)).1 (by decide)).1,
    ((set_state_transport_activation engine0 .PLAYING [some 7, none, some 8]
      world_prepared (by decide)).1 (by decide)).2⟩

/-- C5: on a prepared session whose target state is playing and whose active
transports are all among the supplied ones (the counter being their number), a
request for `NULL` or `READY` returns `TRUE`, brings `n_active` to `0`,
deactivates every transport and runs unprepare: the target state is `NULL`, the
pipeline is not set to paused and the playable range is not queried again.
Without `eos_shutdown` the status is then `UNPREPARED`, the stream registry is
empty, the session is marked used and `unprepared` is emitted; with
`eos_shutdown` the status is `UNPREPARING` and end-of-stream was sent. -/
theorem set_state_stopped_unprepares (g : Engine) (state : GstState)
    (ts : List (Option Nat)) (w : World)
    (hstatus : w.media.status = .PREPARED) (htarget : w.media.target_state = .PLAYING)
    (hstate : state = .NULL ∨ state = .READY)
    (hnodup : w.active.Nodup) (hcount : w.media.n_active = w.active.length)
    (hsupplied : ∀ t ∈ w.active, some t ∈ ts) :
    (gst_rtsp_media_set_state g state ts w).1 = true ∧
    (gst_rtsp_media_set_state g state ts w).2.media.n_active = 0 ∧
    (gst_rtsp_media_set_state g state ts w).2.active = [] ∧
    (gst_rtsp_media_set_state g state ts w).2.media.target_state = .NULL ∧
    Event.element_set_state .PAUSED ∉
      new_events w (gst_rtsp_media_set_state g state ts w).2 ∧
    (new_events w (gst_rtsp_media_set_state g state ts w).2).filter
      Event.is_range_query = [] ∧
    (w.media.eos_shutdown = false →
      (gst_rtsp_media_set_state g state ts w).2.media.status = .UNPREPARED ∧
      (gst_rtsp_media_set_state g state ts w).2.media.streams = [] ∧
      (gst_rtsp_media_set_state g state ts w).2.media.reused = true ∧
      Event.signal_unprepared ∈
        new_events w (gst_rtsp_media_set_state g state ts w).2) ∧
    (w.media.eos_shutdown = true →
      (gst_rtsp_media_set_state g state ts w).2.media.status = .UNPREPARING ∧
      Event.element_send_eos ∈
        new_events w (gst_rtsp_media_set_state g state ts w).2) := by
  have hrs : requested_state state = .NULL := by
    rcases hstate with h | h <;> simp [h, requested_state]
  obtain ⟨_, d2, d3⟩ := set_state_transports_deactivate ts (emit .rec_mutex_lock w)
    (by simpa using hnodup)
  have hm := set_state_transports_media false true ts (emit .rec_mutex_lock w)
  have hact : (set_state_transports false true ts (emit .rec_mutex_lock w)).active = [] := by
    rw [List.eq_nil_iff_forall_not_mem]
    intro t ht
    have := d2 t ht
    exact this.2 (hsupplied t (by simpa using this.1))
  have hn1 : (set_state_transports false true ts (emit .rec_mutex_lock w)).media.n_active = 0 := by
    rw [hact] at d3
    simp only [List.length_nil, Nat.cast_zero, sub_zero, emit_media, emit_active] at d3
    rw [d3, hcount]
    ring
  have hof := set_state_of_prepared g state ts w hstatus
  simp only [hrs, htarget, decide_False, decide_True, or_false, and_self,
    reduceCtorEq] at hof
  obtain ⟨es, _, h2, _, h4⟩ := set_state_log g state ts w hstatus
  clear d2 d3
  generalize set_state_transports false true ts (emit .rec_mutex_lock w) = w1 at hm hact hn1 hof
  have hs1 : w1.media.status = .PREPARED := by rw [hm]; simpa using hstatus
  have ht1 : w1.media.target_state = .PLAYING := by rw [hm]; simpa using htarget
  have he1 : w1.media.eos_shutdown = w.media.eos_shutdown := by rw [hm]; rfl
  have hr : gst_rtsp_media_set_state g state ts w =
      (true, emit .rec_mutex_unlock (emit (.signal_new_state .NULL)
        (gst_rtsp_media_unprepare w1).2)) := by
    rw [hof]
    simp [set_state_collect, set_state_change, hn1, ht1]
  have hn : (gst_rtsp_media_set_state g state ts w).2.media.n_active = 0 := by
    rw [hr]
    simpa using hn1
  have hnew : new_events w (gst_rtsp_media_set_state g state ts w).2 =
      [.rec_mutex_lock] ++ es ++ ([.rec_mutex_lock] ++
        (if w.media.eos_shutdown = true then
          [.element_send_eos, .element_set_state .PLAYING, .store_status .UNPREPARING]
        else
          [.element_set_state .NULL] ++
          (w.media.streams.map fun s => Event.stream_leave_bin s.idx) ++
          [.bin_remove w.media.rtpbin, .store_status .UNPREPARED] ++
          (if w.media.source.isSome = true then [.source_destroy] else []) ++
          [.signal_unprepared]) ++ [.rec_mutex_unlock]) ++
        [.signal_new_state .NULL] ++ [.rec_mutex_unlock] := by
    rw [new_events_append _ _ _ h4]
    simp [hn, hrs, htarget]
  have hesq : es.filter Event.is_range_query = [] := by
    rw [List.filter_eq_nil_iff]
    intro e he
    have := List.any_eq_false.mp
      (transport_events_any es Event.is_range_query h2 (fun _ _ _ => rfl)) e he
    simpa using this
  have hp : Event.element_set_state .PAUSED ∉ es := by
    intro hmem
    have := h2 _ hmem
    simp [Event.transport_call] at this
  clear h4
  refine ⟨by rw [hr], hn, by rw [hr]; simpa using hact, ?_, ?_, ?_,
    fun he => ?_, fun he => ?_⟩
  · rw [hr]
    by_cases he : w.media.eos_shutdown = true
    · rw [unprepare_of_prepared_eos w1 hs1 (by rw [he1]; exact he)]
      simp
    · simp only [Bool.not_eq_true] at he
      rw [unprepare_of_teardown w1 (by simp [hs1]) (fun _ => by rw [he1]; exact he)]
      simp
  · rw [hnew]
    simp only [List.mem_append, not_or]
    split_ifs <;> simp [hp]
  · rw [hnew]
    simp only [List.filter_append, hesq]
    split_ifs <;> simp [Event.is_range_query]
  · rw [hnew, hr, unprepare_of_teardown w1 (by simp [hs1]) (fun _ => by rw [he1]; exact he)]
    simp [he]
  · rw [hnew, hr, unprepare_of_prepared_eos w1 hs1 (by rw [he1]; exact he)]
    simp [he]

/-- Witness for C5: the only playing client of the example session stops. -/
theorem set_state_stopped_unprepares_witness :
    world_playing.media.status = .PREPARED ∧
    world_playing.media.target_state = .PLAYING ∧
    world_playing.active = [7] ∧ world_playing.media.n_active = 1 ∧
    world_playing.media.eos_shutdown = false ∧
    (gst_rtsp_media_set_state engine0 .NULL [some 7, none] world_playing).1 = true ∧
    (gst_rtsp_media_set_state engine0 .NULL [some 7, none] world_playing).2.media.n_active
      = 0 ∧
    (gst_rtsp_media_set_state engine0 .NULL [some 7, none] world_playing).2.media.status
      = .UNPREPARED ∧
    (gst_rtsp_media_set_state engine0 .NULL [some 7, none] world_playing).2.media.streams
      = [] :=
  have h := set_state_stopped_unprepares engine0 .NULL [some 7, none] world_playing
    (by decide) (by decide) (Or.inl rfl) (by decide) (by decide) (by decide)
  ⟨by decide, by decide, by decide, by decide, by decide, h.1, h.2.1,
    (h.2.2.2.2.2.2.1 (by decide)).1, (h.2.2.2.2.2.2.1 (by decide)).2.1⟩

/-- C6: prepare on a session whose status is `PREPARED` returns `TRUE`, changes no
session field and makes no request to the graph (it only takes and releases the
state lock); prepare on a session whose status is `ERROR` or `UNPREPARING`
returns `FALSE` and changes no session field. -/
theorem prepare_when_prepared_or_failed (g : Engine) (wakes : List Wake) (w : World) :
    (w.media.status = .PREPARED →
      gst_rtsp_media_prepare g wakes w =
          (true, emits [.rec_mutex_lock, .rec_mutex_unlock] w) ∧
        (gst_rtsp_media_prepare g wakes w).2.media = w.media ∧
        (new_events w (gst_rtsp_media_prepare g wakes w).2).filter
          Event.is_graph_request = []) ∧
    (w.media.status = .ERROR ∨ w.media.status = .UNPREPARING →
      gst_rtsp_media_prepare g wakes w =
          (false, emits [.rec_mutex_lock, .rec_mutex_unlock] w) ∧
        (gst_rtsp_media_prepare g wakes w).2.media = w.media) := by
  constructor
  · intro h
    have e : gst_rtsp_media_prepare g wakes w =
        (true, emits [.rec_mutex_lock, .rec_mutex_unlock] w) := by
      simp [gst_rtsp_media_prepare, prepare_begin, h, emit, emits]
    simp [e, new_events, Event.is_graph_request]
  · intro h
    have e : gst_rtsp_media_prepare g wakes w =
        (false, emits [.rec_mutex_lock, .rec_mutex_unlock] w) := by
      rcases h with h | h <;> simp [gst_rtsp_media_prepare, prepare_begin, h, emit, emits]
    simp [e]

/-- Witness for C6 on the prepared example session and on the one in `ERROR`. -/
theorem prepare_when_prepared_or_failed_witness :
    world_prepared.media.status = .PREPARED ∧
    gst_rtsp_media_prepare engine0 [] world_prepared =
      (true, emits [.rec_mutex_lock, .rec_mutex_unlock] world_prepared) ∧
    world_error.media.status = .ERROR ∧
    gst_rtsp_media_prepare engine0 [] world_error =
      (false, emits [.rec_mutex_lock, .rec_mutex_unlock] world_error) :=
  ⟨by decide,
    ((prepare_when_prepared_or_failed engine0 [] world_prepared).1 (by decide)).1,
    by decide,
    ((prepare_when_prepared_or_failed engine0 [] world_error).2 (Or.inl (by decide))).1⟩

/-- C7: what `gst_rtsp_media_prepare` returns after the status wait is decided
by the test `status == ERROR` alone.  The wait never delivers `PREPARING`;
prepare returns `TRUE` exactly when the delivered status is not `ERROR`, and
the session then has the delivered status; when `ERROR` is delivered prepare
returns `FALSE` with the session torn down (status `UNPREPARED`, registry
empty, used-once flag set).  When another thread calls
`gst_rtsp_media_unprepare` between the release of the state lock at the label
`wait_status` and the read of the status, the wait delivers `UNPREPARED`, and
prepare emits `prepared` and returns `TRUE` on a session that is torn down.
With no thread but the control-message thread beside it, a prepare that
returns `TRUE` leaves the status `PREPARED`, the wait delivering `PREPARED` or
`ERROR`. -/
theorem prepare_succeeds_on_torn_down_session (g : Engine) (before : List Op)
    (turns : List Turn) (wakes : List Wake) (w : World) :
    (∀ w1, prepare_begin g w = .wait_status w1 →
      (gst_rtsp_media_get_status_shared turns
          (on_other_threads before (emit .rec_mutex_unlock w1))).1 ≠ .PREPARING ∧
      ((gst_rtsp_media_prepare_shared g before turns w).1 = true ↔
        (gst_rtsp_media_get_status_shared turns
          (on_other_threads before (emit .rec_mutex_unlock w1))).1 ≠ .ERROR) ∧
      ((gst_rtsp_media_prepare_shared g before turns w).1 = true →
        (gst_rtsp_media_prepare_shared g before turns w).2.media.status =
          (gst_rtsp_media_get_status_shared turns
            (on_other_threads before (emit .rec_mutex_unlock w1))).1) ∧
      ((gst_rtsp_media_get_status_shared turns
          (on_other_threads before (emit .rec_mutex_unlock w1))).1 = .ERROR →
        (gst_rtsp_media_prepare_shared g before turns w).1 = false ∧
        (gst_rtsp_media_prepare_shared g before turns w).2.media.status = .UNPREPARED ∧
        (gst_rtsp_media_prepare_shared g before turns w).2.media.streams = [] ∧
        (gst_rtsp_media_prepare_shared g before turns w).2.media.reused = true)) ∧
    (∀ w1, prepare_begin g w = .wait_status w1 →
      (gst_rtsp_media_get_status_shared turns
          (on_other_threads [.unprepare] (emit .rec_mutex_unlock w1))).1 = .UNPREPARED ∧
      (gst_rtsp_media_prepare_shared g [.unprepare] turns w).1 = true ∧
      Event.signal_prepared ∈
        new_events w (gst_rtsp_media_prepare_shared g [.unprepare] turns w).2 ∧
      torn_down (gst_rtsp_media_prepare_shared g [.unprepare] turns w).2) ∧
    gst_rtsp_media_prepare_shared g [] (wakes.map Wake.turn) w =
      gst_rtsp_media_prepare g wakes w ∧
    ((gst_rtsp_media_prepare g wakes w).1 = true →
      (gst_rtsp_media_prepare g wakes w).2.media.status = .PREPARED) ∧
    (∀ w1, prepare_begin g w = .wait_status w1 →
      (gst_rtsp_media_get_status wakes (emit .rec_mutex_unlock w1)).1 = .PREPARED ∨
        (gst_rtsp_media_get_status wakes (emit .rec_mutex_unlock w1)).1 = .ERROR) := by
  refine ⟨fun w1 hb => ?_, fun w1 hb => ?_, prepare_shared_of_wakes g wakes w,
    prepare_true_status g wakes w, fun w1 hb => ?_⟩
  · rw [prepare_shared_of_wait g before turns w w1 hb]
    generalize hr : gst_rtsp_media_get_status_shared turns
      (on_other_threads before (emit .rec_mutex_unlock w1)) = r
    have hfst : r.1 = r.2.media.status := by rw [← hr]; exact get_status_shared_fst _ _
    have hnp : r.1 ≠ .PREPARING := by
      rw [← hr]
      simpa [gst_rtsp_media_get_status_shared] using wait_status_loop_shared_status turns _
    refine ⟨hnp, ?_, ?_, ?_⟩
    · by_cases he : r.1 = .ERROR
      · simp [he, prepare_state_failed]
      · simp [he]
    · by_cases he : r.1 = .ERROR
      · simp [he, prepare_state_failed]
      · simp only [if_neg he, emit_media]
        exact fun _ => hfst.symm
    · intro he
      have he2 : r.2.media.status = .ERROR := by rw [← hfst]; exact he
      simp only [he, if_true]
      rw [prepare_state_failed_eq _ (by simp [he2]) (by simp [he2])]
      simp
  · have hs := prepare_begin_wait_status g w w1 hb
    have hu : (on_other_threads [.unprepare] (emit .rec_mutex_unlock w1)).media =
        { w1.media with streams := [], rtpbin := none, pipeline := none, reused := true,
                        status := .UNPREPARED, source := none, target_state := .NULL } := by
      simp only [on_other_threads_media, run_ops, List.foldl_cons, List.foldl_nil, Op.run]
      rw [unprepare_of_teardown _ (by simp [hs]) (by simp [hs])]
      simp [finish_unprepare_media]
    have hst : (on_other_threads [.unprepare] (emit .rec_mutex_unlock w1)).media.status =
        .UNPREPARED := by rw [hu]
    have hg : gst_rtsp_media_get_status_shared turns
        (on_other_threads [.unprepare] (emit .rec_mutex_unlock w1)) =
        (.UNPREPARED, emit .mutex_unlock (emit .mutex_lock
          (on_other_threads [.unprepare] (emit .rec_mutex_unlock w1)))) := by
      simp only [gst_rtsp_media_get_status_shared]
      rw [wait_status_loop_shared_of_not_preparing _ _ (by rw [emit_media, hst]; decide)]
      simp only [emit_media, hst]
    obtain ⟨es, _, hlog⟩ := prepare_begin_log g w
    rw [hb] at hlog
    simp only [PrepareStep.world, List.append_nil] at hlog
    rw [prepare_shared_of_wait g [.unprepare] turns w w1 hb, hg]
    refine ⟨rfl, by simp, ?_, ?_⟩
    · have hl : (emit Event.signal_prepared (emit .mutex_unlock (emit .mutex_lock
          (on_other_threads [.unprepare] (emit .rec_mutex_unlock w1))))).log =
          w.log ++ ([.rec_mutex_lock] ++ es ++
            [.rec_mutex_unlock, .mutex_lock, .mutex_unlock, .signal_prepared]) := by
        simp [hlog]
      simp only [reduceCtorEq, if_false]
      rw [new_events_append _ _ _ hl]
      simp
    · simp [torn_down, hu]
  · exact get_status_in_flight wakes (emit .rec_mutex_unlock w1)
      (by simp [in_flight, prepare_begin_wait_status g w w1 hb])

/-- The new session `world0`: its preparation reaches the wait; another thread
unprepares it before the status is read, and prepare returns `TRUE` with the
status `UNPREPARED` and an empty registry.  The same with two threads in
prepare: while the first waits, the second finds `PREPARING` and goes to wait;
the wait of the first times out and its block `state_failed` unprepares; the
second then reads `UNPREPARED` and returns `TRUE`.  Alone, the preparation of
`world0` ends `PREPARED`. -/
theorem prepare_succeeds_on_torn_down_session_witness :
    (gst_rtsp_media_prepare_shared engine0 [.unprepare] [] world0).1 = true ∧
      torn_down (gst_rtsp_media_prepare_shared engine0 [.unprepare] [] world0).2 ∧
      (gst_rtsp_media_prepare_shared engine0 [.unprepare] [] world0).2.media.status =
        .UNPREPARED ∧
      (gst_rtsp_media_prepare engine0 wakes_async_done world0).1 = true ∧
      (gst_rtsp_media_prepare engine0 wakes_async_done world0).2.media.status = .PREPARED ∧
      world_preparing.media.status = .PREPARING ∧
      (gst_rtsp_media_prepare_shared engine0 [.get_status [], .unprepare] []
        world_preparing).1 = true ∧
      (gst_rtsp_media_prepare_shared engine0 [.get_status [], .unprepare] []
        world_preparing).2.media.status = .UNPREPARED :=
  ⟨((prepare_succeeds_on_torn_down_session engine0 [] [] wakes_async_done world0).2.1
      (prepare_begin engine0 world0).world rfl).2.1,
    ((prepare_succeeds_on_torn_down_session engine0 [] [] wakes_async_done world0).2.1
      (prepare_begin engine0 world0).world rfl).2.2.2,
    by decide, by decide,
    (prepare_succeeds_on_torn_down_session engine0 [] [] wakes_async_done world0).2.2.2.1
      (by decide),
    by decide, by decide, by decide⟩

/-- C8: after the teardown of a non-reusable session, and after any further
operations that do not set the reusable flag, every prepare call returns
`FALSE` and changes nothing, the status being `UNPREPARED`; and the used-once
flag, once set, stays set through every sequence of operations. -/
theorem non_reusable_session_refuses_prepare (w0 : World) (ops : List Op)
    (hreusable : w0.media.reusable = false)
    (hops : ∀ op ∈ ops, op.makes_reusable = false) :
    (∀ g wakes,
      gst_rtsp_media_prepare g wakes (run_ops ops (finish_unprepare w0)) =
        (false, emits [.rec_mutex_lock, .rec_mutex_unlock]
          (run_ops ops (finish_unprepare w0)))) ∧
    (run_ops ops (finish_unprepare w0)).media.status = .UNPREPARED ∧
    (run_ops ops (finish_unprepare w0)).media.reused = true ∧
    (∀ (w : World) (ops : List Op), w.media.reused = true →
      (run_ops ops w).media.reused = true) := by
  have h0 : used_up (finish_unprepare w0) := by
    simp [used_up, hreusable]
  have h := run_ops_used_up ops _ h0 hops
  exact ⟨fun g wakes => prepare_of_used_up g wakes _ h, h.1, h.2.1,
    fun w ops hw => run_ops_reused ops w hw⟩

/-- Witness for C8: the prepared example session is torn down, then a prepare, a
late notification and a setter follow, and a further prepare fails. -/
theorem non_reusable_session_refuses_prepare_witness :
    world_prepared.media.reusable = false ∧
    gst_rtsp_media_prepare engine0 wakes_async_done
        (run_ops [.prepare engine0 wakes_async_done, .notify engine0 .ASYNC_DONE,
          .set_reusable false] (finish_unprepare world_prepared)) =
      (false, emits [.rec_mutex_lock, .rec_mutex_unlock]
        (run_ops [.prepare engine0 wakes_async_done, .notify engine0 .ASYNC_DONE,
          .set_reusable false] (finish_unprepare world_prepared))) :=
  ⟨by decide,
    (non_reusable_session_refuses_prepare world_prepared
      [.prepare engine0 wakes_async_done, .notify engine0 .ASYNC_DONE, .set_reusable false]
      (by decide) (by decide)).1 engine0 wakes_async_done⟩

/-- C9 (amended): when a wait of the status wait inside prepare returns `FALSE`
(the deadline passed), the status is forced to `ERROR`, the wait returns
`ERROR`, and prepare returns `FALSE` after tearing the session down itself: on
return the status is `UNPREPARED`, the registry is empty, the used-once flag is
set, and `rtpbin`, the bus watch and the pipeline are detached. -/
theorem prepare_timeout_tears_down (g : Engine) (wakes : List Wake) (w w1 : World)
    (hb : prepare_begin g w = .wait_status w1)
    (ht : Event.cond_wait_until false ∈
      new_events (emit .rec_mutex_unlock w1)
        (gst_rtsp_media_get_status wakes (emit .rec_mutex_unlock w1)).2) :
    (gst_rtsp_media_get_status wakes (emit .rec_mutex_unlock w1)).1 = .ERROR ∧
    (gst_rtsp_media_get_status wakes (emit .rec_mutex_unlock w1)).2.media.status = .ERROR ∧
    (gst_rtsp_media_prepare g wakes w).1 = false ∧
    (gst_rtsp_media_prepare g wakes w).2.media.status = .UNPREPARED ∧
    (gst_rtsp_media_prepare g wakes w).2.media.streams = [] ∧
    (gst_rtsp_media_prepare g wakes w).2.media.reused = true ∧
    (gst_rtsp_media_prepare g wakes w).2.media.rtpbin = none ∧
    (gst_rtsp_media_prepare g wakes w).2.media.source = none ∧
    (gst_rtsp_media_prepare g wakes w).2.media.pipeline = none := by
  obtain ⟨es, h1, h2, _⟩ := wait_status_loop_log wakes
    (emit .mutex_lock (emit .rec_mutex_unlock w1))
  have hlog : (gst_rtsp_media_get_status wakes (emit .rec_mutex_unlock w1)).2.log =
      (emit .rec_mutex_unlock w1).log ++ ([.mutex_lock] ++ es ++ [.mutex_unlock]) := by
    simp [gst_rtsp_media_get_status, h1]
  rw [new_events_append _ _ _ hlog] at ht
  have hmem : Event.cond_wait_until false ∈ es := by
    simpa using ht
  have he2 : (gst_rtsp_media_get_status wakes (emit .rec_mutex_unlock w1)).2.media.status =
      .ERROR := by
    simpa [gst_rtsp_media_get_status] using h2 hmem
  have he : (gst_rtsp_media_get_status wakes (emit .rec_mutex_unlock w1)).1 = .ERROR := by
    rw [get_status_fst]
    exact he2
  refine ⟨he, he2, ?_⟩
  simp only [gst_rtsp_media_prepare, hb, prepare_wait_status, he, if_true]
  rw [prepare_state_failed_eq _ (by simp [he2]) (by simp [he2])]
  simp

/-- C9 as stated fails: a preparation of the example session that times out
returns `FALSE` with the status `UNPREPARED`, not `ERROR`, and with the stream
registry and the pipeline gone. -/
theorem prepare_timeout_not_left_in_error :
    Event.cond_wait_until false ∈ (gst_rtsp_media_prepare engine0 [] world0).2.log ∧
    (gst_rtsp_media_prepare engine0 [] world0).1 = false ∧
    (gst_rtsp_media_prepare engine0 [] world0).2.media.status = .UNPREPARED ∧
    (gst_rtsp_media_prepare engine0 [] world0).2.media.streams = [] ∧
    world0.media.streams ≠ [] ∧
    (gst_rtsp_media_prepare engine0 [] world0).2.media.pipeline = none ∧
    world0.media.pipeline ≠ none ∧
    ¬ ((gst_rtsp_media_prepare engine0 [] world0).2.media.status = .ERROR ∧
      (gst_rtsp_media_prepare engine0 [] world0).2.media.streams = world0.media.streams ∧
      (gst_rtsp_media_prepare engine0 [] world0).2.media.pipeline = world0.media.pipeline) := by
  decide

/-- Witness for C9: the example preparation with no notification before the
deadline. -/
theorem prepare_timeout_tears_down_witness :
    prepare_begin engine0 world0 = .wait_status (prepare_begin engine0 world0).world ∧
    (gst_rtsp_media_prepare engine0 [] world0).1 = false ∧
    (gst_rtsp_media_prepare engine0 [] world0).2.media.status = .UNPREPARED ∧
    (gst_rtsp_media_prepare engine0 [] world0).2.media.streams = [] :=
  have h := prepare_timeout_tears_down engine0 [] world0
    (prepare_begin engine0 world0).world rfl (by decide)
  ⟨rfl, h.2.2.1, h.2.2.2.1, h.2.2.2.2.1⟩

/-- C10: on a prepared, seekable session a seek whose range converts to the
current `range_start` and `range_stop` returns `TRUE`, changes no session
field, issues no seek on the pipeline and does not query the playable range
again (it only takes and releases the state lock). -/
theorem seek_to_current_range_is_elided (g : Engine) (range : GstRTSPTimeRange)
    (w : World) (hstatus : w.media.status = .PREPARED) (hseekable : w.media.seekable = true)
    (htimes : g.range_get_times range = some (w.media.range_start, w.media.range_stop)) :
    gst_rtsp_media_seek g range w =
        (true, emits [.rec_mutex_lock, .rec_mutex_unlock] w) ∧
      (gst_rtsp_media_seek g range w).2.media = w.media ∧
      (new_events w (gst_rtsp_media_seek g range w).2).filter Event.is_seek = [] ∧
      (new_events w (gst_rtsp_media_seek g range w).2).filter Event.is_range_query = [] := by
  have e : gst_rtsp_media_seek g range w =
      (true, emits [.rec_mutex_lock, .rec_mutex_unlock] w) := by
    simp [gst_rtsp_media_seek, hstatus, hseekable, htimes, emit, emits]
  simp [e, new_events, Event.is_seek, Event.is_range_query]

/-- Witness for C10 on the prepared example session. -/
theorem seek_to_current_range_is_elided_witness :
    world_prepared.media.status = .PREPARED ∧ world_prepared.media.seekable = true ∧
    gst_rtsp_media_seek engine0 ⟨.NPT, ⟨.SECONDS, .of_time 0⟩, ⟨.END, .minus_one⟩⟩
        world_prepared =
      (true, emits [.rec_mutex_lock, .rec_mutex_unlock] world_prepared) :=
  ⟨by decide, by decide,
    (seek_to_current_range_is_elided engine0 _ world_prepared (by decide) (by decide)
      (by decide)).1⟩

/-- C11: for every `PREPARED` session that is not seekable and every range,
`gst_rtsp_media_seek` returns `TRUE` and does nothing but take and release the
state lock: no request reaches the graph (in particular no seek) and no field
of the session, no transport and nothing on the control-message thread
changes. -/
theorem seek_not_seekable_is_noop (g : Engine) (range : GstRTSPTimeRange) (w : World)
    (hp : w.media.status = .PREPARED) (hs : w.media.seekable = false) :
    gst_rtsp_media_seek g range w = (true, emits [.rec_mutex_lock, .rec_mutex_unlock] w) ∧
      new_events w (gst_rtsp_media_seek g range w).2 = [.rec_mutex_lock, .rec_mutex_unlock] ∧
      (∀ e ∈ new_events w (gst_rtsp_media_seek g range w).2,
        e.is_seek = false ∧ e.is_graph_request = false) ∧
      (gst_rtsp_media_seek g range w).2.media = w.media ∧
      (gst_rtsp_media_seek g range w).2.active = w.active ∧
      (gst_rtsp_media_seek g range w).2.bus_log = w.bus_log := by
  have h : gst_rtsp_media_seek g range w =
      (true, emits [.rec_mutex_lock, .rec_mutex_unlock] w) := by
    simp [gst_rtsp_media_seek, hp, hs, emit, emits]
  rw [h]
  refine ⟨rfl, ?_, ?_, rfl, rfl, rfl⟩
  · exact new_events_append _ _ _ rfl
  · rw [new_events_append _ _ _ rfl]
    decide

/-- The live example session is prepared and not seekable; a seek to any range
returns `TRUE` and leaves it as it is. -/
theorem seek_not_seekable_is_noop_witness :
    world_live.media.status = .PREPARED ∧ world_live.media.seekable = false ∧
      (gst_rtsp_media_seek engine0 range_npt world_live).1 = true ∧
      (gst_rtsp_media_seek engine0 range_npt world_live).2.media = world_live.media :=
  ⟨by decide, by decide,
    congrArg Prod.fst
      (seek_not_seekable_is_noop engine0 range_npt world_live (by decide) (by decide)).1,
    (seek_not_seekable_is_noop engine0 range_npt world_live (by decide) (by decide)).2.2.2.1⟩

/-- C12 (amended): for every `PREPARED` session that is seekable and every range
whose unit is not supported (`gst_rtsp_range_get_times` fails),
`gst_rtsp_media_seek` returns `FALSE` and does nothing but take and release the
state lock: no seek is issued and no field changes.  On a session that is not
seekable the same call returns `TRUE`, the test of `seekable` coming first. -/
theorem seek_unsupported_unit_fails (g : Engine) (range : GstRTSPTimeRange) (w : World)
    (hp : w.media.status = .PREPARED) (hu : g.range_get_times range = none) :
    (w.media.seekable = true →
      gst_rtsp_media_seek g range w = (false, emits [.rec_mutex_lock, .rec_mutex_unlock] w)) ∧
    (w.media.seekable = false →
      gst_rtsp_media_seek g range w = (true, emits [.rec_mutex_lock, .rec_mutex_unlock] w)) ∧
    new_events w (gst_rtsp_media_seek g range w).2 = [.rec_mutex_lock, .rec_mutex_unlock] ∧
    (∀ e ∈ new_events w (gst_rtsp_media_seek g range w).2,
      e.is_seek = false ∧ e.is_graph_request = false) ∧
    (gst_rtsp_media_seek g range w).2.media = w.media ∧
    (gst_rtsp_media_seek g range w).2.active = w.active ∧
    (gst_rtsp_media_seek g range w).2.bus_log = w.bus_log := by
  have h1 : w.media.seekable = true →
      gst_rtsp_media_seek g range w =
        (false, emits [.rec_mutex_lock, .rec_mutex_unlock] w) := by
    intro hs
    simp [gst_rtsp_media_seek, hp, hs, hu, emit, emits]
  have h2 : w.media.seekable = false →
      gst_rtsp_media_seek g range w =
        (true, emits [.rec_mutex_lock, .rec_mutex_unlock] w) := by
    intro hs
    simp [gst_rtsp_media_seek, hp, hs, emit, emits]
  have h3 : (gst_rtsp_media_seek g range w).2 =
      emits [.rec_mutex_lock, .rec_mutex_unlock] w := by
    cases hs : w.media.seekable
    · rw [h2 hs]
    · rw [h1 hs]
  refine ⟨h1, h2, ?_, ?_, ?_, ?_, ?_⟩
  · rw [h3]; exact new_events_append _ _ _ rfl
  · rw [h3, new_events_append _ _ _ rfl]; decide
  · rw [h3]; rfl
  · rw [h3]; rfl
  · rw [h3]; rfl

/-- C12 as stated fails: the live example session is `PREPARED`, the unit of
the range is not supported, and yet `gst_rtsp_media_seek` returns `TRUE`. -/
theorem seek_unsupported_unit_on_live_succeeds :
    world_live.media.status = .PREPARED ∧
      engine_live.range_get_times range_npt = none ∧
      (gst_rtsp_media_seek engine_live range_npt world_live).1 = true := by
  decide

/-- The prepared example session is seekable; with a conversion that supports
no unit a seek returns `FALSE` and changes nothing. -/
theorem seek_unsupported_unit_fails_witness :
    world_prepared.media.status = .PREPARED ∧ world_prepared.media.seekable = true ∧
      engine_no_unit.range_get_times range_npt = none ∧
      (gst_rtsp_media_seek engine_no_unit range_npt world_prepared).1 = false ∧
      (gst_rtsp_media_seek engine_no_unit range_npt world_prepared).2.media =
        world_prepared.media :=
  ⟨by decide, by decide, rfl,
    congrArg Prod.fst
      ((seek_unsupported_unit_fails engine_no_unit range_npt world_prepared
        (by decide) rfl).1 (by decide)),
    (seek_unsupported_unit_fails engine_no_unit range_npt world_prepared
      (by decide) rfl).2.2.2.2.1⟩

/-- C13: on a session whose status is not `PREPARED`, `gst_rtsp_media_seek` and
`gst_rtsp_media_set_state` return `FALSE` and `gst_rtsp_media_get_range_string`
returns `NULL`; each only takes and releases the state lock, so every field of
the session and the active state of every transport are as before. -/
theorem not_prepared_calls_fail (g : Engine) (range : GstRTSPTimeRange)
    (state : GstState) (transports : List (Option Nat)) {S : Type}
    (range_to_string : GstRTSPTimeRange → Option S) (play : Bool) (w : World)
    (h : w.media.status ≠ .PREPARED) :
    gst_rtsp_media_seek g range w =
        (false, emits [.rec_mutex_lock, .rec_mutex_unlock] w) ∧
      gst_rtsp_media_set_state g state transports w =
        (false, emits [.rec_mutex_lock, .rec_mutex_unlock] w) ∧
      gst_rtsp_media_get_range_string range_to_string play w =
        (none, emits [.rec_mutex_lock, .rec_mutex_unlock] w) ∧
      (emits [.rec_mutex_lock, .rec_mutex_unlock] w).media = w.media ∧
      (emits [.rec_mutex_lock, .rec_mutex_unlock] w).active = w.active ∧
      (emits [.rec_mutex_lock, .rec_mutex_unlock] w).bus_log = w.bus_log := by
  refine ⟨?_, ?_, ?_, rfl, rfl, rfl⟩
  · simp [gst_rtsp_media_seek, h, emit, emits]
  · simp [gst_rtsp_media_set_state, h, emit, emits]
  · simp [gst_rtsp_media_get_range_string, h, emit, emits]

/-- The new session `world0` is `UNPREPARED`: seek and set-state fail, there is
no range string, and the session is unchanged. -/
theorem not_prepared_calls_fail_witness :
    world0.media.status ≠ .PREPARED ∧
      (gst_rtsp_media_seek engine0 range_npt world0).1 = false ∧
      (gst_rtsp_media_set_state engine0 .PLAYING [some 7] world0).1 = false ∧
      (gst_rtsp_media_get_range_string (fun r => some r) true world0).1 = none ∧
      (gst_rtsp_media_set_state engine0 .PLAYING [some 7] world0).2.active = world0.active :=
  ⟨by decide,
    congrArg Prod.fst
      (not_prepared_calls_fail engine0 range_npt .PLAYING [some 7] (fun r => some r) true
        world0 (by decide)).1,
    congrArg Prod.fst
      (not_prepared_calls_fail engine0 range_npt .PLAYING [some 7] (fun r => some r) true
        world0 (by decide)).2.1,
    congrArg Prod.fst
      (not_prepared_calls_fail engine0 range_npt .PLAYING [some 7] (fun r => some r) true
        world0 (by decide)).2.2.1,
    by
      rw [(not_prepared_calls_fail engine0 range_npt .PLAYING [some 7] (fun r => some r)
        true world0 (by decide)).2.1]
      rfl⟩

/-- C14: `gst_rtsp_media_unprepare` is idempotent.  On an `UNPREPARED` session
it returns `TRUE` and only takes and releases the state lock, so no field
(the target state included) changes.  With the immediate teardown (no
end-of-stream shutdown of a prepared session) a call returns `TRUE` and leaves
the session `UNPREPARED`, and a second call right after it returns `TRUE` and
leaves the fields, the transports and the control-message thread exactly as the
first call left them. -/
theorem unprepare_is_idempotent (w : World) :
    (w.media.status = .UNPREPARED →
      gst_rtsp_media_unprepare w = (true, emits [.rec_mutex_lock, .rec_mutex_unlock] w) ∧
      (gst_rtsp_media_unprepare w).2.media = w.media) ∧
    ((w.media.status = .PREPARED → w.media.eos_shutdown = false) →
      (gst_rtsp_media_unprepare w).1 = true ∧
      (gst_rtsp_media_unprepare w).2.media.status = .UNPREPARED ∧
      (gst_rtsp_media_unprepare (gst_rtsp_media_unprepare w).2).1 = true ∧
      (gst_rtsp_media_unprepare (gst_rtsp_media_unprepare w).2).2.media =
        (gst_rtsp_media_unprepare w).2.media ∧
      (gst_rtsp_media_unprepare (gst_rtsp_media_unprepare w).2).2.active =
        (gst_rtsp_media_unprepare w).2.active ∧
      (gst_rtsp_media_unprepare (gst_rtsp_media_unprepare w).2).2.bus_log =
        (gst_rtsp_media_unprepare w).2.bus_log ∧
      new_events (gst_rtsp_media_unprepare w).2
        (gst_rtsp_media_unprepare (gst_rtsp_media_unprepare w).2).2 =
        [.rec_mutex_lock, .rec_mutex_unlock]) := by
  constructor
  · intro h
    rw [unprepare_of_unprepared w h]
    exact ⟨rfl, rfl⟩
  · intro he
    have hs : (gst_rtsp_media_unprepare w).2.media.status = .UNPREPARED := by
      by_cases h : w.media.status = .UNPREPARED
      · rw [unprepare_of_unprepared w h]
        exact h
      · rw [unprepare_of_teardown w h he]
        simp
    refine ⟨unprepare_fst w, hs, ?_, ?_, ?_, ?_, ?_⟩
    · rw [unprepare_of_unprepared _ hs]
    · rw [unprepare_of_unprepared _ hs]; rfl
    · rw [unprepare_of_unprepared _ hs]; rfl
    · rw [unprepare_of_unprepared _ hs]; rfl
    · rw [unprepare_of_unprepared _ hs]
      exact new_events_append _ _ _ rfl

/-- The prepared example session tears down at once; a second unprepare leaves
what the first one left. -/
theorem unprepare_is_idempotent_witness :
    world_prepared.media.eos_shutdown = false ∧
      (gst_rtsp_media_unprepare world_prepared).2.media.status = .UNPREPARED ∧
      (gst_rtsp_media_unprepare (gst_rtsp_media_unprepare world_prepared).2).2.media =
        (gst_rtsp_media_unprepare world_prepared).2.media ∧
      (gst_rtsp_media_unprepare world0).2.media = world0.media :=
  ⟨by decide,
    ((unprepare_is_idempotent world_prepared).2 (fun _ => by decide)).2.1,
    ((unprepare_is_idempotent world_prepared).2 (fun _ => by decide)).2.2.2.1,
    ((unprepare_is_idempotent world0).1 (by decide)).2⟩

/-- C16: from every state `finish_unprepare` requests the `NULL` run state,
has every stream leave the pipeline, empties the registry, removes `rtpbin`
from the pipeline and forgets it, destroys the bus watch if there is one and
forgets it, sets the used-once flag, stores `UNPREPARED` whatever the status
was, and emits `unprepared`; the configuration flags, the counter `n_active`
and the transports are as before. -/
theorem finish_unprepare_tears_down (w : World) :
    new_events w (finish_unprepare w) =
        [.element_set_state .NULL] ++
          (w.media.streams.map fun s => Event.stream_leave_bin s.idx) ++
          [.bin_remove w.media.rtpbin, .store_status .UNPREPARED] ++
          (if w.media.source.isSome = true then [.source_destroy] else []) ++
          [.signal_unprepared] ∧
      (finish_unprepare w).media =
        { w.media with streams := [], rtpbin := none, pipeline := none, reused := true,
                       status := .UNPREPARED, source := none } ∧
      Event.element_set_state .NULL ∈ new_events w (finish_unprepare w) ∧
      (∀ s ∈ w.media.streams, Event.stream_leave_bin s.idx ∈ new_events w (finish_unprepare w)) ∧
      (finish_unprepare w).media.streams.length = 0 ∧
      Event.bin_remove w.media.rtpbin ∈ new_events w (finish_unprepare w) ∧
      (finish_unprepare w).media.rtpbin = none ∧
      (w.media.source.isSome = true →
        Event.source_destroy ∈ new_events w (finish_unprepare w)) ∧
      (finish_unprepare w).media.source = none ∧
      (finish_unprepare w).media.reused = true ∧
      (finish_unprepare w).media.status = .UNPREPARED ∧
      Event.signal_unprepared ∈ new_events w (finish_unprepare w) ∧
      (finish_unprepare w).media.shared = w.media.shared ∧
      (finish_unprepare w).media.reusable = w.media.reusable ∧
      (finish_unprepare w).media.protocols = w.media.protocols ∧
      (finish_unprepare w).media.eos_shutdown = w.media.eos_shutdown ∧
      (finish_unprepare w).media.buffer_size = w.media.buffer_size ∧
      (finish_unprepare w).media.n_active = w.media.n_active ∧
      (finish_unprepare w).active = w.active := by
  have hl := new_events_append w (finish_unprepare w) _ (finish_unprepare_log w)
  rw [hl]
  refine ⟨by simp, finish_unprepare_media w, by simp, ?_, by simp, by simp, by simp, ?_,
    by simp, by simp, by simp, by simp, by simp, by simp, by simp, by simp, by simp, by simp,
    by simp⟩
  · intro s hs
    simp only [List.mem_append, List.mem_map]
    exact Or.inl (Or.inl (Or.inl (Or.inr ⟨s, hs, rfl⟩)))
  · intro h
    simp [h]

/-- C22 (amended): where the status is written.  A store made by
`gst_rtsp_media_set_status` is made under the attribute mutex and followed by
a broadcast.  The stores of the status wait (`ERROR` at the timeout) are made
under the attribute mutex.  The stores on entry to prepare, in the default
unprepare policy and in the teardown are made under the state lock: this holds
for `gst_rtsp_media_unprepare` (which runs the policy or the teardown), for the
first part of prepare, for `bus_message` with every notification (the teardown
at end-of-stream among them) whether logged by the caller or by the
control-message thread, for `gst_rtsp_media_set_state` and for the block
`state_failed` of prepare.  `gst_rtsp_media_unprepare`, the first part of
prepare and the teardown at end-of-stream neither take the attribute mutex nor
broadcast, and whenever `gst_rtsp_media_unprepare` stores a status the store
is outside the attribute mutex. -/
theorem status_stores_and_their_locks (g : Engine) (wakes : List Wake)
    (status : GstRTSPMediaStatus) (message : GstMessage) (state : GstState)
    (transports : List (Option Nat)) (w : World) :
    (stores_held .mutex_lock .mutex_unlock 0
        (new_events w (gst_rtsp_media_set_status status w)) = true ∧
      stores_broadcast (new_events w (gst_rtsp_media_set_status status w)) = true) ∧
    stores_held .mutex_lock .mutex_unlock 0
        (new_events w (gst_rtsp_media_get_status wakes w).2) = true ∧
    (stores_held .rec_mutex_lock .rec_mutex_unlock 0
        (new_events w (gst_rtsp_media_unprepare w).2) = true ∧
      (∀ e ∈ new_events w (gst_rtsp_media_unprepare w).2,
        e ≠ .mutex_lock ∧ e ≠ .cond_broadcast) ∧
      (w.media.status ≠ .UNPREPARED →
        stores_held .mutex_lock .mutex_unlock 0
          (new_events w (gst_rtsp_media_unprepare w).2) = false)) ∧
    (stores_held .rec_mutex_lock .rec_mutex_unlock 0
        (new_events w (prepare_begin g w).world) = true ∧
      (∀ e ∈ new_events w (prepare_begin g w).world,
        e ≠ .mutex_lock ∧ e ≠ .cond_broadcast)) ∧
    (stores_held .rec_mutex_lock .rec_mutex_unlock 0
        (new_events w (bus_message g message w).2) = true ∧
      stores_held .rec_mutex_lock .rec_mutex_unlock 0
        ((dispatch g message w).bus_log.drop w.bus_log.length) = true ∧
      (w.media.status = .UNPREPARING →
        Event.store_status .UNPREPARED ∈ new_events w (bus_message g .EOS w).2 ∧
        (∀ e ∈ new_events w (bus_message g .EOS w).2,
          e ≠ .mutex_lock ∧ e ≠ .cond_broadcast) ∧
        stores_held .mutex_lock .mutex_unlock 0
          (new_events w (bus_message g .EOS w).2) = false)) ∧
    stores_held .rec_mutex_lock .rec_mutex_unlock 0
        (new_events w (gst_rtsp_media_set_state g state transports w).2) = true ∧
    stores_held .rec_mutex_lock .rec_mutex_unlock 0
        (new_events w (prepare_state_failed w).2) = true := by
  refine ⟨?_, ?_, ?_, ?_, ⟨bus_message_stores_held g message w, ?_, ?_⟩,
    set_state_stores_held g state transports w, prepare_state_failed_stores_held w⟩
  · by_cases hs : w.media.status = .ERROR
    · have h : (gst_rtsp_media_set_status status w).log =
          w.log ++ [.mutex_lock, .cond_broadcast, .mutex_unlock] := by
        simp [gst_rtsp_media_set_status, hs]
      rw [new_events_append _ _ _ h]
      exact ⟨rfl, rfl⟩
    · have h : (gst_rtsp_media_set_status status w).log =
          w.log ++ [.mutex_lock, .store_status status, .cond_broadcast, .mutex_unlock] := by
        simp [gst_rtsp_media_set_status, hs, store_status]
      rw [new_events_append _ _ _ h]
      exact ⟨by simp [stores_held], by simp [stores_broadcast]⟩
  · obtain ⟨es, h1, h2, _⟩ := get_status_log wakes w
    rw [new_events_append _ _ _ h1]
    exact (stores_held_section .mutex_lock .mutex_unlock rfl rfl (by decide) es h2).1
  · obtain ⟨es, h1, h2, h3⟩ := unprepare_log w
    rw [new_events_append _ _ _ h1]
    refine ⟨?_, ?_, ?_⟩
    · exact (stores_held_section .rec_mutex_lock .rec_mutex_unlock rfl rfl (by decide) es h2).1
    · intro e he
      simp only [List.mem_append, List.mem_singleton] at he
      rcases he with (rfl | he) | rfl
      · exact ⟨by decide, by decide⟩
      · have := h2 e he
        constructor <;> rintro rfl <;> cases this
      · exact ⟨by decide, by decide⟩
    · intro hs
      exact stores_held_outside .mutex_lock .mutex_unlock .rec_mutex_lock
        rfl rfl ⟨by decide, by decide, rfl⟩ es _ h2 (h3 hs)
  · obtain ⟨es, h2, h1⟩ := prepare_begin_log g w
    have hm : ∃ tail, (tail = [] ∨ tail = [Event.rec_mutex_unlock]) ∧
        (prepare_begin g w).world.log = w.log ++ ([.rec_mutex_lock] ++ es ++ tail) := by
      cases hst : prepare_begin g w <;> rw [hst] at h1 <;> exact ⟨_, by simp, h1⟩
    obtain ⟨tail, ht, h1⟩ := hm
    rw [new_events_append _ _ _ h1]
    have h := stores_held_section .rec_mutex_lock .rec_mutex_unlock rfl rfl (by decide) es h2
    refine ⟨?_, ?_⟩
    · rcases ht with rfl | rfl
      · simpa using h.2
      · exact h.1
    · intro e he
      have hm : e = .rec_mutex_lock ∨ e ∈ es ∨ e = .rec_mutex_unlock := by
        rcases ht with rfl | rfl <;> simp at he <;> tauto
      rcases hm with rfl | he | rfl
      · exact ⟨by decide, by decide⟩
      · have := h2 e he
        constructor <;> rintro rfl <;> cases this
      · exact ⟨by decide, by decide⟩
  · rw [dispatch_bus_log]
    split_ifs
    · exact bus_message_stores_held g message _
    · rfl
  · intro hs
    have hsync := finish_unprepare_events_sync (emit .rec_mutex_lock w)
    have hfl := finish_unprepare_log (emit .rec_mutex_lock w)
    rw [new_events_append _ _ _ hfl] at hsync
    have hmem : Event.store_status .UNPREPARED ∈
        [Event.element_set_state .NULL] ++
          ((emit Event.rec_mutex_lock w).media.streams.map
            fun s => Event.stream_leave_bin s.idx) ++
          [.bin_remove (emit Event.rec_mutex_lock w).media.rtpbin,
            .store_status .UNPREPARED] ++
          (if (emit Event.rec_mutex_lock w).media.source.isSome = true then
            [.source_destroy] else []) ++
          [.signal_unprepared] := by simp
    generalize [Event.element_set_state .NULL] ++
        ((emit Event.rec_mutex_lock w).media.streams.map
          fun s => Event.stream_leave_bin s.idx) ++
        [.bin_remove (emit Event.rec_mutex_lock w).media.rtpbin,
          .store_status .UNPREPARED] ++
        (if (emit Event.rec_mutex_lock w).media.source.isSome = true then
          [.source_destroy] else []) ++
        [.signal_unprepared] = es at hsync hfl hmem
    have hl : (bus_message g .EOS w).2.log =
        w.log ++ ([.rec_mutex_lock] ++ es ++ [.rec_mutex_unlock]) := by
      simp only [bus_message, default_handle_message, emit_media, hs, if_true, emit_log]
      rw [hfl]
      simp
    rw [new_events_append _ _ _ hl]
    refine ⟨by simp [hmem], ?_, ?_⟩
    · intro e he
      simp only [List.mem_append, List.mem_singleton] at he
      rcases he with (rfl | he) | rfl
      · exact ⟨by decide, by decide⟩
      · have := hsync e he
        constructor <;> rintro rfl <;> cases this
      · exact ⟨by decide, by decide⟩
    · refine stores_held_outside .mutex_lock .mutex_unlock .rec_mutex_lock
        rfl rfl ⟨by decide, by decide, rfl⟩ es _ hsync ?_
      rw [List.any_eq_true]
      exact ⟨_, hmem, rfl⟩

/-- C22 as stated fails: the teardown of the prepared example session, its
end-of-stream shutdown and the entry to prepare of the new session each store
a status without the attribute mutex and without a broadcast; the status wait
that times out stores `ERROR` without a broadcast. -/
theorem direct_status_stores_outside_mutex :
    new_events world_prepared (gst_rtsp_media_unprepare world_prepared).2 =
        [.rec_mutex_lock, .element_set_state .NULL, .stream_leave_bin 0, .stream_leave_bin 1,
          .bin_remove (some 20), .store_status .UNPREPARED, .source_destroy,
          .signal_unprepared, .rec_mutex_unlock] ∧
      stores_held .mutex_lock .mutex_unlock 0
        (new_events world_prepared (gst_rtsp_media_unprepare world_prepared).2) = false ∧
      stores_broadcast
        (new_events world_prepared (gst_rtsp_media_unprepare world_prepared).2) = false ∧
      stores_held .mutex_lock .mutex_unlock 0
        (new_events world_prepared_eos (gst_rtsp_media_unprepare world_prepared_eos).2) =
        false ∧
      stores_held .mutex_lock .mutex_unlock 0
        (new_events world0 (prepare_begin engine0 world0).world) = false ∧
      stores_broadcast (new_events world0 (prepare_begin engine0 world0).world) = false ∧
      stores_broadcast
        (new_events (prepare_begin engine0 world0).world
          (gst_rtsp_media_get_status [] (prepare_begin engine0 world0).world).2) = false := by
  decide

/-- An error notification on the prepared example session stores `ERROR` under
the attribute mutex and broadcasts; its teardown stores `UNPREPARED` under the
state lock, and so does the teardown at the end-of-stream notification of the
example session that waits in `UNPREPARING`. -/
theorem status_stores_and_their_locks_witness :
    new_events world_prepared (gst_rtsp_media_set_status .ERROR world_prepared) =
        [.mutex_lock, .store_status .ERROR, .cond_broadcast, .mutex_unlock] ∧
      stores_broadcast
        (new_events world_prepared (gst_rtsp_media_set_status .ERROR world_prepared)) =
        true ∧
      stores_held .rec_mutex_lock .rec_mutex_unlock 0
        (new_events world_prepared (gst_rtsp_media_unprepare world_prepared).2) = true ∧
      world_unpreparing.media.status = .UNPREPARING ∧
      new_events world_unpreparing (bus_message engine0 .EOS world_unpreparing).2 =
        [.rec_mutex_lock, .element_set_state .NULL, .stream_leave_bin 0, .stream_leave_bin 1,
          .bin_remove (some 20), .store_status .UNPREPARED, .source_destroy,
          .signal_unprepared, .rec_mutex_unlock] ∧
      stores_held .rec_mutex_lock .rec_mutex_unlock 0
        (new_events world_unpreparing (bus_message engine0 .EOS world_unpreparing).2) =
        true ∧
      stores_held .mutex_lock .mutex_unlock 0
        (new_events world_unpreparing (bus_message engine0 .EOS world_unpreparing).2) =
        false :=
  ⟨by decide,
    (status_stores_and_their_locks engine0 [] .ERROR .EOS .NULL [] world_prepared).1.2,
    (status_stores_and_their_locks engine0 [] .ERROR .EOS .NULL [] world_prepared).2.2.1.1,
    by decide, by decide,
    (status_stores_and_their_locks engine0 [] .ERROR .EOS .NULL [] world_unpreparing).2.2.2.2.1.1,
    ((status_stores_and_their_locks engine0 [] .ERROR .EOS .NULL [] world_unpreparing).2.2.2.2.1.2.2
      (by decide)).2.2⟩

/-- C23: in every state reached from a session with an empty registry (a new
session) by creating streams, assigning address pools and tearing down, the
stream at position `i` of the registry has index `i`.  `gst_rtsp_media_create_stream` returns a stream whose
index is the number of streams before the call and appends it, so the number
goes up by one; `gst_rtsp_media_get_stream` returns the stream at the
position when the position is below the number of streams and `NULL`
otherwise, and changes nothing.  No operation of the interface takes single
streams out: each keeps the registry or leaves it empty, and the teardown
leaves it empty. -/
theorem registry_is_dense (ops : List RegistryOp) (w0 w : World)
    (h0 : w0.media.streams = []) (hw : w = run_registry_ops ops w0)
    (payloader pad ghost i : Nat) :
    dense w ∧
    (∀ (j : Nat) (s : GstRTSPStream), w.media.streams[j]? = some s → s.idx = j) ∧
    (gst_rtsp_media_create_stream payloader pad ghost w).1.idx = (gst_rtsp_media_n_streams w).1 ∧
    (gst_rtsp_media_create_stream payloader pad ghost w).2.media.streams =
      w.media.streams ++ [(gst_rtsp_media_create_stream payloader pad ghost w).1] ∧
    (gst_rtsp_media_n_streams (gst_rtsp_media_create_stream payloader pad ghost w).2).1 =
      (gst_rtsp_media_n_streams w).1 + 1 ∧
    (pad_added_cb payloader pad ghost w).media.streams =
      w.media.streams ++ [(gst_rtsp_media_create_stream payloader pad ghost w).1] ∧
    (i < (gst_rtsp_media_n_streams w).1 →
      ∃ s, (gst_rtsp_media_get_stream i w).1 = some s ∧ w.media.streams[i]? = some s ∧
        s.idx = i) ∧
    ((gst_rtsp_media_n_streams w).1 ≤ i → (gst_rtsp_media_get_stream i w).1 = none) ∧
    (gst_rtsp_media_get_stream i w).2.media = w.media ∧
    (∀ op : Op, kept_or_emptied w.media.streams (op.run w)) ∧
    (∀ pool : Option Nat,
      (gst_rtsp_media_set_address_pool pool w).media.streams.map
          (fun s => (s.idx, s.payloader, s.srcpad)) =
        w.media.streams.map fun s => (s.idx, s.payloader, s.srcpad)) ∧
    (finish_unprepare w).media.streams = [] := by
  have hd : dense w := by
    rw [hw]
    refine run_registry_ops_dense ops w0 ?_
    unfold dense
    rw [h0]
    rfl
  have hn : (gst_rtsp_media_n_streams w).1 = w.media.streams.length := rfl
  refine ⟨hd, dense_get w hd, ?_, ?_, ?_, ?_, ?_, ?_, rfl, fun op => op_run_streams op w, ?_,
    by simp⟩
  · rw [create_stream_eq]
    rfl
  · rw [create_stream_eq]
  · rw [create_stream_eq]
    simp [gst_rtsp_media_n_streams]
  · simp only [pad_added_cb, emit_media, upd_media]
    rw [create_stream_eq]
  · intro hi
    rw [hn] at hi
    obtain ⟨s, hs⟩ : ∃ s, w.media.streams[i]? = some s :=
      ⟨w.media.streams[i], List.getElem?_eq_getElem hi⟩
    refine ⟨s, ?_, hs, dense_get w hd i s hs⟩
    simp [gst_rtsp_media_get_stream, hi, hs]
  · intro hi
    rw [hn] at hi
    simp [gst_rtsp_media_get_stream, Nat.not_lt.mpr hi]
  · intro pool
    rw [set_address_pool_eq]
    simp [gst_rtsp_stream_set_address_pool, Function.comp_def]

/-- A new session after two streams, a teardown and a third stream: the
registry holds one stream, at position and index `0`. -/
theorem registry_is_dense_witness :
    (run_registry_ops [.create_stream 100 200 300, .create_stream 101 201 301, .teardown,
        .create_stream 102 202 302] world_new).media.streams = [⟨0, 102, 302, none⟩] ∧
      dense (run_registry_ops [.create_stream 100 200 300, .create_stream 101 201 301,
        .teardown, .create_stream 102 202 302] world_new) :=
  ⟨by decide,
    (registry_is_dense [.create_stream 100 200 300, .create_stream 101 201 301, .teardown,
      .create_stream 102 202 302] world_new _ rfl rfl 0 0 0 0).1⟩

/-- C24: after `gst_rtsp_media_set_address_pool` with any pool, `NULL`
included, `gst_rtsp_media_get_address_pool` returns that pool and every stream
of the registry is bound to it; and in every state reached from a session with
an empty registry (a new session) by creating streams, assigning pools and
tearing down, every stream of the registry is bound to the pool of the
session. -/
theorem address_pool_reaches_every_stream (ops : List RegistryOp) (pool : Option Nat)
    (w0 w : World) (h0 : w0.media.streams = []) :
    (gst_rtsp_media_get_address_pool (gst_rtsp_media_set_address_pool pool w)).1 = pool ∧
    (∀ s ∈ (gst_rtsp_media_set_address_pool pool w).media.streams, s.pool = pool) ∧
    (gst_rtsp_media_set_address_pool pool w).media.streams.length =
      w.media.streams.length ∧
    (gst_rtsp_media_get_address_pool w).1 = w.media.pool ∧
    (gst_rtsp_media_get_address_pool w).2.media = w.media ∧
    pools_bound (run_registry_ops ops w0) ∧
    (pools_bound w → ∀ op : RegistryOp, pools_bound (op.run w)) := by
  have hb : pools_bound w0 := by
    intro s hs
    rw [h0] at hs
    cases hs
  refine ⟨?_, ?_, ?_, rfl, rfl, run_registry_ops_pools_bound ops w0 hb,
    fun h op => registry_op_pools_bound op w h⟩
  · rw [set_address_pool_eq]
    rfl
  · have h := set_address_pool_pools_bound pool w
    unfold pools_bound at h
    intro s hs
    rw [h s hs, set_address_pool_eq]
  · rw [set_address_pool_eq]
    simp

/-- A session with one stream gets pool `9`, a second stream, then no pool:
both streams follow. -/
theorem address_pool_reaches_every_stream_witness :
    (run_registry_ops [.create_stream 100 200 300, .set_address_pool (some 9),
        .create_stream 101 201 301] world_new).media.streams =
        [⟨0, 100, 300, some 9⟩, ⟨1, 101, 301, some 9⟩] ∧
      (gst_rtsp_media_get_address_pool (gst_rtsp_media_set_address_pool none
        (run_registry_ops [.create_stream 100 200 300, .set_address_pool (some 9),
          .create_stream 101 201 301] world_new))).1 = none ∧
      pools_bound (run_registry_ops [.create_stream 100 200 300, .set_address_pool (some 9),
        .create_stream 101 201 301] world_new) :=
  ⟨by decide,
    (address_pool_reaches_every_stream [] none world_new
      (run_registry_ops [.create_stream 100 200 300, .set_address_pool (some 9),
        .create_stream 101 201 301] world_new) rfl).1,
    (address_pool_reaches_every_stream [.create_stream 100 200 300,
      .set_address_pool (some 9), .create_stream 101 201 301] none world_new world_new
      rfl).2.2.2.2.2.1⟩

/-- C25: on an unprepared session that may be prepared and gets its `rtpbin`,
`gst_rtsp_media_prepare` follows the answer to its request for `PAUSED`.  On
no-preroll it marks the media live and not seekable and at once requests
`PLAYING`; on success or async it marks the media seekable and not live and
makes no further run-state request, also not after a successful wait; when
the request for `PAUSED`, or the request for `PLAYING` that follows
no-preroll, fails, it tears the session down and returns `FALSE`. -/
theorem prepare_follows_preroll_answer (g : Engine) (wakes : List Wake) (w : World)
    (hs : w.media.status = .UNPREPARED)
    (hr : w.media.reusable = true ∨ w.media.reused = false)
    (hb : g.factory_make_rtpbin ≠ none) :
    (g.set_state .PAUSED = .NO_PREROLL →
      (prepare_begin g w).world.media.is_live = true ∧
      (prepare_begin g w).world.media.seekable = false ∧
      (new_events w (prepare_begin g w).world).filter Event.is_run_state_request =
        [.element_set_state .PAUSED, .element_set_state .PLAYING] ∧
      (g.set_state .PLAYING ≠ .FAILURE →
        prepare_begin g w = .wait_status (prepare_begin g w).world)) ∧
    ((g.set_state .PAUSED = .SUCCESS ∨ g.set_state .PAUSED = .ASYNC) →
      prepare_begin g w = .wait_status (prepare_begin g w).world ∧
      (prepare_begin g w).world.media.seekable = true ∧
      (prepare_begin g w).world.media.is_live = false ∧
      (new_events w (prepare_begin g w).world).filter Event.is_run_state_request =
        [.element_set_state .PAUSED] ∧
      ((gst_rtsp_media_prepare g wakes w).1 = true →
        (new_events w (gst_rtsp_media_prepare g wakes w).2).filter
          Event.is_run_state_request = [.element_set_state .PAUSED])) ∧
    ((g.set_state .PAUSED = .FAILURE ∨
        (g.set_state .PAUSED = .NO_PREROLL ∧ g.set_state .PLAYING = .FAILURE)) →
      (gst_rtsp_media_prepare g wakes w).1 = false ∧
      torn_down (gst_rtsp_media_prepare g wakes w).2) := by
  have hb0 := prepare_begin_of_unprepared g w hs hr hb
  have hlog := prepare_setup_log g
    ((emit .element_factory_make_rtpbin (emit .rec_mutex_lock w)).upd
      fun m => { m with rtpbin := g.factory_make_rtpbin })
  have hmed := prepare_setup_media g
    ((emit .element_factory_make_rtpbin (emit .rec_mutex_lock w)).upd
      fun m => { m with rtpbin := g.factory_make_rtpbin })
  have hrun := prepare_setup_events_run_state g
    ((emit .element_factory_make_rtpbin (emit .rec_mutex_lock w)).upd
      fun m => { m with rtpbin := g.factory_make_rtpbin })
  generalize prepare_setup_events g _ = evs at hlog hrun
  generalize prepare_setup g _ = ws at hb0 hlog hmed
  simp only [emit_log, upd_log, List.append_assoc] at hlog
  have hst : ws.media.status = .PREPARING := by rw [hmed]
  have hfail : ∀ w1 : World, w1.media.status = .PREPARING →
      (prepare_state_failed w1).1 = false ∧ torn_down (prepare_state_failed w1).2 := by
    intro w1 h1
    rw [prepare_state_failed_eq w1 (by rw [h1]; decide) (by rw [h1]; intro h; cases h)]
    simp [torn_down]
  refine ⟨?_, ?_, ?_⟩
  · intro hp
    have hw : (prepare_begin g w).world =
        emit (.element_set_state .PLAYING)
          ((ws.upd fun m => { m with seekable := false }).upd
            fun m => { m with is_live := true }) := by
      rw [hb0]
      simp only [prepare_preroll, hp]
      split_ifs <;> rfl
    rw [hw]
    refine ⟨rfl, rfl, ?_, ?_⟩
    · rw [new_events_append w _ ([.rec_mutex_lock, .element_factory_make_rtpbin] ++ evs ++
        [.element_set_state .PLAYING]) (by simp [hlog])]
      simp [List.filter_append, hrun, Event.is_run_state_request]
    · intro hne
      rw [← hw, hb0]
      simp only [prepare_preroll, hp, if_neg hne, PrepareStep.world]
  · intro hp
    have hw : prepare_begin g w =
        .wait_status (ws.upd fun m => { m with seekable := true }) := by
      rw [hb0]
      rcases hp with hp | hp <;> simp only [prepare_preroll, hp]
    have hev : (new_events w (ws.upd fun m => { m with seekable := true })).filter
        Event.is_run_state_request = [.element_set_state .PAUSED] := by
      rw [new_events_append w _ ([.rec_mutex_lock, .element_factory_make_rtpbin] ++ evs)
        (by simp [hlog])]
      simp [List.filter_append, hrun, Event.is_run_state_request]
    rw [hw]
    refine ⟨rfl, rfl, by simp [PrepareStep.world, hmed], hev, ?_⟩
    intro ht
    simp only [gst_rtsp_media_prepare, hw, prepare_wait_status] at ht ⊢
    split_ifs at ht ⊢ with he
    · simp [prepare_state_failed] at ht
    · obtain ⟨es, h1, _, h3⟩ := wait_status_loop_log wakes
        (emit .mutex_lock (emit .rec_mutex_unlock (ws.upd fun m => { m with seekable := true })))
      rw [new_events_append w _ ([.rec_mutex_lock, .element_factory_make_rtpbin] ++ evs ++
        [.rec_mutex_unlock, .mutex_lock] ++ es ++ [.mutex_unlock, .signal_prepared])
        (by simp [gst_rtsp_media_get_status, h1, hlog])]
      have hes : es.filter Event.is_run_state_request = [] := by
        rw [List.filter_eq_nil_iff]
        intro e he'
        rcases h3 e he' with rfl | rfl | rfl <;> simp [Event.is_run_state_request]
      simp [List.filter_append, hrun, hes, Event.is_run_state_request]
  · intro hp
    have hw : ∃ w1, prepare_begin g w = .state_failed w1 ∧ w1.media.status = .PREPARING := by
      rw [hb0]
      rcases hp with hp | ⟨hp, hq⟩
      · exact ⟨ws, by simp only [prepare_preroll, hp], hst⟩
      · refine ⟨emit (.element_set_state .PLAYING)
          ((ws.upd fun m => { m with seekable := false }).upd
            fun m => { m with is_live := true }), ?_, by simpa using hst⟩
        simp only [prepare_preroll, hp, hq, if_true]
    obtain ⟨w1, h1, h2⟩ := hw
    simp only [gst_rtsp_media_prepare, h1]
    exact hfail w1 h2

/-- The live example session: prepare on no-preroll marks it live, requests
`PLAYING` after `PAUSED`; with an engine that refuses, prepare fails and tears
down. -/
theorem prepare_follows_preroll_answer_witness :
    world0.media.status = .UNPREPARED ∧ engine_live.set_state .PAUSED = .NO_PREROLL ∧
      (prepare_begin engine_live world0).world.media.is_live = true ∧
      (new_events world0 (prepare_begin engine_live world0).world).filter
        Event.is_run_state_request =
        [.element_set_state .PAUSED, .element_set_state .PLAYING] ∧
      (gst_rtsp_media_prepare engine_fail [] world0).1 = false ∧
      torn_down (gst_rtsp_media_prepare engine_fail [] world0).2 :=
  ⟨by decide, rfl,
    ((prepare_follows_preroll_answer engine_live [] world0 (by decide) (Or.inr (by decide))
      (by decide)).1 rfl).1,
    ((prepare_follows_preroll_answer engine_live [] world0 (by decide) (Or.inr (by decide))
      (by decide)).1 rfl).2.2.1,
    ((prepare_follows_preroll_answer engine_fail [] world0 (by decide) (Or.inr (by decide))
      (by decide)).2.2 (Or.inl rfl)).1,
    ((prepare_follows_preroll_answer engine_fail [] world0 (by decide) (Or.inr (by decide))
      (by decide)).2.2 (Or.inl rfl)).2⟩

/-- C26: for every finite graph `gst_rtsp_media_collect_streams` ends, the
pass for the least number `k` that names neither `pay<k>` nor `dynpay<k>` being
its last: it appends to the registry one stream for each `pay<i>` with
`i < k`, in increasing `i` and at consecutive indices, and prepends each
`dynpay<i>` with `i < k` to the dynamic elements without a stream for it.
For a graph that holds exactly `pay0` to `pay(n-1)` and an empty registry it
creates `n` streams, stream `i` on `pay<i>`. -/
theorem collect_streams_finds_numbered_producers (graph : List Producer)
    (ghost : Nat → Nat) (w : World) :
    (∃ k w', k ≤ graph.length ∧ (∀ i, i < k → has_producer graph i = true) ∧
      has_producer graph k = false ∧
      gst_rtsp_media_collect_streams graph ghost w = some w' ∧
      w'.media =
        { w.media with
          streams := w.media.streams ++
            collected_streams graph ghost w.media.pool k w.media.streams.length
          dynamic := collected_dynamic graph k ++ w.media.dynamic } ∧
      w'.active = w.active ∧ w'.bus_log = w.bus_log ∧
      (collected_streams graph ghost w.media.pool k w.media.streams.length).map
          (fun s => s.payloader) =
        (List.range k).filterMap
          (fun i => (bin_get_by_name graph (.pay i)).map fun e => e.elem) ∧
      (collected_streams graph ghost w.media.pool k w.media.streams.length).map
          (fun s => s.idx) =
        List.range' w.media.streams.length
          (collected_streams graph ghost w.media.pool k w.media.streams.length).length ∧
      collected_dynamic graph k =
        ((List.range k).filterMap
          (fun i => (bin_get_by_name graph (.dynpay i)).map fun e => e.elem)).reverse) ∧
    (∀ (n : Nat) (elem pad : Nat → Nat), graph = payloaders_only n elem pad →
      w.media.streams = [] →
      ∃ w', gst_rtsp_media_collect_streams graph ghost w = some w' ∧
        w'.media.streams = (List.range n).map (fun i => ⟨i, elem i, ghost i, w.media.pool⟩) ∧
        w'.media.dynamic = w.media.dynamic) := by
  have main : ∀ k, (∀ i, i < k → has_producer graph i = true) →
      has_producer graph k = false → k ≤ graph.length →
      ∃ w', gst_rtsp_media_collect_streams graph ghost w = some w' ∧
        w'.media = collected_media graph ghost k w.media ∧ w'.active = w.active ∧
        w'.bus_log = w.bus_log := by
    intro k h1 h2 h3
    exact collect_streams_loop_eq graph ghost k w.media w.active w.bus_log h1 h2
      (graph.length + 1) 0 w (Nat.zero_le _) (by omega)
      (by simp [collected_media, collected_streams, collected_dynamic]) rfl rfl
  constructor
  · obtain ⟨k, hk, h1, h2⟩ := exists_least_gap graph
    obtain ⟨w', e1, e2, e3, e4⟩ := main k h1 h2 hk
    have hs := collected_streams_spec graph ghost w.media.pool k w.media.streams.length
    exact ⟨k, w', hk, h1, h2, e1, e2, e3, e4, hs.1, hs.2.1, collected_dynamic_spec graph k⟩
  · intro n elem pad hg hw
    subst hg
    have hp := bin_get_by_name_payloaders_only n elem pad
    have h1 : ∀ i, i < n → has_producer (payloaders_only n elem pad) i = true := by
      intro i hi
      simp [has_producer, (hp i).1, hi]
    have h2 : has_producer (payloaders_only n elem pad) n = false := by
      simp [has_producer, (hp n).1, (hp n).2]
    obtain ⟨w', e1, e2, _, _⟩ := main n h1 h2 (by simp [payloaders_only])
    have hc := collected_streams_payloaders_only n elem pad ghost w.media.pool n le_rfl
    refine ⟨w', e1, ?_, ?_⟩
    · rw [e2]
      simp [collected_media, hw, hc.1]
    · rw [e2]
      simp [collected_media, hc.2]

/-- The example graph has `pay0`, `pay1`, `dynpay1` and, behind the gap at `2`,
`pay3`: two streams are created and one dynamic element is recorded; a graph
of exactly three payloaders gives three streams. -/
theorem collect_streams_finds_numbered_producers_witness :
    (gst_rtsp_media_collect_streams graph0 (fun i => 300 + i) world_new).map
        (fun w => (w.media.streams, w.media.dynamic)) =
        some ([⟨0, 100, 300, none⟩, ⟨1, 103, 301, none⟩], [102]) ∧
      ∃ w', gst_rtsp_media_collect_streams
          (payloaders_only 3 (fun i => 100 + i) (fun i => 200 + i)) (fun i => 300 + i)
          world_new = some w' ∧
        w'.media.streams =
          (List.range 3).map (fun i => ⟨i, 100 + i, 300 + i, world_new.media.pool⟩) ∧
        w'.media.dynamic = world_new.media.dynamic :=
  ⟨by decide,
    (collect_streams_finds_numbered_producers
      (payloaders_only 3 (fun i => 100 + i) (fun i => 200 + i)) (fun i => 300 + i)
      world_new).2 3 _ _ rfl rfl⟩

/-- C27 (amended): handling a buffering notification never changes the status
or the target state.  On a live session it changes nothing and requests
nothing.  On a session that is not live it sets the buffering flag to "percent
is not 100"; it requests `PAUSED` exactly when a percent other than 100 arrives
while the session is not buffering and the target state is playing, and it
requests `PLAYING` exactly when percent 100 arrives and the target state is
playing, whether or not the session was buffering. -/
theorem buffering_drives_run_state (g : Engine) (percent : Int) (w : World) :
    (default_handle_message g (.BUFFERING percent) w).2.media.status = w.media.status ∧
    (default_handle_message g (.BUFFERING percent) w).2.media.target_state =
      w.media.target_state ∧
    (w.media.is_live = true → (default_handle_message g (.BUFFERING percent) w).2 = w) ∧
    (w.media.is_live = false →
      (default_handle_message g (.BUFFERING percent) w).2.media =
        { w.media with buffering := decide (percent ≠ 100) } ∧
      new_events w (default_handle_message g (.BUFFERING percent) w).2 =
        (if percent = 100 then
          (if w.media.target_state = .PLAYING then [.element_set_state .PLAYING] else [])
        else
          (if w.media.buffering = false ∧ w.media.target_state = .PLAYING then
            [.element_set_state .PAUSED]
          else [])) ∧
      (default_handle_message g (.BUFFERING percent) w).2.active = w.active ∧
      (default_handle_message g (.BUFFERING percent) w).2.bus_log = w.bus_log) := by
  refine ⟨?_, ?_, ?_, ?_⟩
  · simp only [default_handle_message]
    split_ifs <;> simp
  · simp only [default_handle_message]
    split_ifs <;> simp
  · intro hl
    simp [default_handle_message, hl]
  · intro hl
    by_cases hp : percent = 100 <;> by_cases ht : w.media.target_state = .PLAYING <;>
      cases hb : w.media.buffering <;>
      simp [default_handle_message, hl, hp, ht, hb, new_events]

/-- C27 as stated fails: the playing example session is not live, is not
buffering and has the target state `PLAYING`; a notification with percent 100
does not flip the buffering flag, and yet `PLAYING` is requested. -/
theorem buffering_done_requests_playing_without_flip :
    world_playing.media.is_live = false ∧ world_playing.media.buffering = false ∧
      world_playing.media.target_state = .PLAYING ∧
      (default_handle_message engine0 (.BUFFERING 100) world_playing).2.media.buffering =
        false ∧
      new_events world_playing
        (default_handle_message engine0 (.BUFFERING 100) world_playing).2 =
        [.element_set_state .PLAYING] := by
  decide

/-- The playing example session at percent 50: the flag is set and `PAUSED` is
requested; at percent 50 once more nothing is requested. -/
theorem buffering_drives_run_state_witness :
    world_playing.media.is_live = false ∧
      new_events world_playing
        (default_handle_message engine0 (.BUFFERING 50) world_playing).2 =
        [.element_set_state .PAUSED] ∧
      new_events (default_handle_message engine0 (.BUFFERING 50) world_playing).2
        (default_handle_message engine0 (.BUFFERING 50)
          (default_handle_message engine0 (.BUFFERING 50) world_playing).2).2 = [] :=
  ⟨by decide,
    ((buffering_drives_run_state engine0 50 world_playing).2.2.2 (by decide)).2.1,
    ((buffering_drives_run_state engine0 50
      (default_handle_message engine0 (.BUFFERING 50) world_playing).2).2.2.2
      (by decide)).2.1⟩

/-- C28: what a preroll-complete notification does to the status.  While an
output is being attached, and in `ERROR`, the status stays; otherwise the
range is refreshed and the status becomes `PREPARED` whatever it was.  So a
session in `UNPREPARING` (or `UNPREPARED`) is made `PREPARED`, and an
end-of-stream notification that follows finds it `PREPARED` and tears nothing
down. -/
theorem async_done_overwrites_unpreparing (g : Engine) (w : World) :
    (w.media.adding = true → (default_handle_message g .ASYNC_DONE w).2 = w) ∧
    (w.media.adding = false → w.media.status = .ERROR →
      (default_handle_message g .ASYNC_DONE w).2.media.status = .ERROR) ∧
    (w.media.adding = false → w.media.status ≠ .ERROR →
      (default_handle_message g .ASYNC_DONE w).2.media =
        { (collect_media_stats g w).media with status := .PREPARED }) ∧
    (w.media.adding = false →
      (w.media.status = .UNPREPARING ∨ w.media.status = .UNPREPARED) →
      (default_handle_message g .ASYNC_DONE w).2.media.status = .PREPARED ∧
      (bus_message g .ASYNC_DONE w).2.media.status = .PREPARED ∧
      ∀ g' : Engine,
        (bus_message g' .EOS (bus_message g .ASYNC_DONE w).2).2.media =
          (bus_message g .ASYNC_DONE w).2.media) := by
  have h3 : w.media.adding = false → w.media.status ≠ .ERROR →
      (default_handle_message g .ASYNC_DONE w).2.media =
        { (collect_media_stats g w).media with status := .PREPARED } := by
    intro ha hs
    simp [default_handle_message, ha, gst_rtsp_media_set_status, hs, store_status]
  refine ⟨?_, ?_, h3, ?_⟩
  · intro ha
    simp [default_handle_message, ha]
  · intro ha hs
    simp [default_handle_message, ha, gst_rtsp_media_set_status, hs]
  · intro ha hs
    have hne : w.media.status ≠ .ERROR := by
      rcases hs with h | h <;> rw [h] <;> decide
    have h4 : (bus_message g .ASYNC_DONE w).2.media.status = .PREPARED := by
      simp [bus_message, default_handle_message, ha, gst_rtsp_media_set_status, hne]
    refine ⟨by rw [h3 ha hne], h4, ?_⟩
    intro g'
    exact bus_message_eos_of_not_unpreparing g' _ (by rw [h4]; simp)

/-- The example session waiting in `UNPREPARING`: a preroll-complete
notification makes it `PREPARED`, and the end-of-stream notification after it
leaves the two streams in the registry. -/
theorem async_done_overwrites_unpreparing_witness :
    world_unpreparing.media.status = .UNPREPARING ∧
      world_unpreparing.media.adding = false ∧
      (bus_message engine0 .ASYNC_DONE world_unpreparing).2.media.status = .PREPARED ∧
      (bus_message engine0 .EOS
        (bus_message engine0 .ASYNC_DONE world_unpreparing).2).2.media.status = .PREPARED ∧
      (bus_message engine0 .EOS
        (bus_message engine0 .ASYNC_DONE world_unpreparing).2).2.media.streams.length = 2 :=
  ⟨by decide, by decide,
    ((async_done_overwrites_unpreparing engine0 world_unpreparing).2.2.2 (by decide)
      (Or.inl (by decide))).2.1,
    by decide, by decide⟩

/-- C29: the state lock across `gst_rtsp_media_prepare`.  When the first part
reaches the label `wait_status` and the wait delivers `ERROR` (an error
notification or the timeout), the calls of prepare end with a release of the
state lock that follows as many releases as acquisitions: the lock is released
once more than prepare acquired it, and its depth at return is one below its
depth at entry.  On every other path the depth at return is the depth at
entry. -/
theorem prepare_releases_state_lock_after_failed_wait (g : Engine) (wakes : List Wake)
    (w : World) :
    (∀ w1, prepare_begin g w = .wait_status w1 →
      (gst_rtsp_media_get_status wakes (emit .rec_mutex_unlock w1)).1 = .ERROR →
      (∃ es, (gst_rtsp_media_prepare g wakes w).2.log =
          w.log ++ (es ++ [.rec_mutex_unlock]) ∧
        lock_balance .rec_mutex_lock .rec_mutex_unlock es = 0) ∧
      state_lock_depth (gst_rtsp_media_prepare g wakes w).2 = state_lock_depth w - 1) ∧
    ((∀ w1, prepare_begin g w = .wait_status w1 →
        (gst_rtsp_media_get_status wakes (emit .rec_mutex_unlock w1)).1 ≠ .ERROR) →
      state_lock_depth (gst_rtsp_media_prepare g wakes w).2 = state_lock_depth w) := by
  obtain ⟨es, hes, hlog⟩ := prepare_begin_log g w
  have hb0 := lock_balance_of_no_sync .rec_mutex_lock .rec_mutex_unlock es rfl rfl hes
  constructor
  · intro w1 h1 he
    rw [h1] at hlog
    simp only [PrepareStep.world, List.append_nil] at hlog
    obtain ⟨es2, h2, hes2, _⟩ := get_status_log wakes (emit .rec_mutex_unlock w1)
    obtain ⟨es3, h3, hes3, _⟩ := unprepare_log
      (gst_rtsp_media_get_status wakes (emit .rec_mutex_unlock w1)).2
    have hb2 := lock_balance_of_no_sync .rec_mutex_lock .rec_mutex_unlock es2 rfl rfl hes2
    have hb3 := lock_balance_of_no_sync .rec_mutex_lock .rec_mutex_unlock es3 rfl rfl hes3
    have hl : (gst_rtsp_media_prepare g wakes w).2.log =
        w.log ++ (([.rec_mutex_lock] ++ es ++ [.rec_mutex_unlock] ++
          ([.mutex_lock] ++ es2 ++ [.mutex_unlock]) ++
          ([.rec_mutex_lock] ++ es3 ++ [.rec_mutex_unlock])) ++ [.rec_mutex_unlock]) := by
      simp only [gst_rtsp_media_prepare, h1, prepare_wait_status, he, if_true,
        prepare_state_failed, emit_log, h3, h2, hlog]
      simp
    have hbal : lock_balance .rec_mutex_lock .rec_mutex_unlock
        ([.rec_mutex_lock] ++ es ++ [.rec_mutex_unlock] ++
          ([.mutex_lock] ++ es2 ++ [.mutex_unlock]) ++
          ([.rec_mutex_lock] ++ es3 ++ [.rec_mutex_unlock])) = 0 := by
      simp only [lock_balance_append, hb0, hb2, hb3]
      simp [lock_balance]
    refine ⟨⟨_, hl, hbal⟩, ?_⟩
    rw [state_lock_depth_of_log w _ _ hl, lock_balance_append, hbal]
    simp [lock_balance, sub_eq_add_neg]
  · intro hne
    cases hb : prepare_begin g w with
    | returned ret w1 =>
      rw [hb] at hlog
      simp only [PrepareStep.world] at hlog
      simp only [gst_rtsp_media_prepare, hb]
      rw [state_lock_depth_of_log w _ _ hlog, lock_balance_append, lock_balance_append, hb0]
      simp [lock_balance]
    | state_failed w1 =>
      rw [hb] at hlog
      simp only [PrepareStep.world, List.append_nil] at hlog
      simp only [gst_rtsp_media_prepare, hb, prepare_state_failed]
      rw [state_lock_depth_of_log _ (emit .rec_mutex_unlock (gst_rtsp_media_unprepare w1).2)
        [.rec_mutex_unlock] rfl, unprepare_state_lock_depth,
        state_lock_depth_of_log w _ _ hlog, lock_balance_append, hb0]
      simp [lock_balance]
    | wait_status w1 =>
      rw [hb] at hlog
      simp only [PrepareStep.world, List.append_nil] at hlog
      simp only [gst_rtsp_media_prepare, hb, prepare_wait_status, if_neg (hne w1 hb)]
      rw [state_lock_depth_of_log _ (emit .signal_prepared _) [.signal_prepared] rfl,
        get_status_state_lock_depth,
        state_lock_depth_of_log _ (emit .rec_mutex_unlock w1) [.rec_mutex_unlock] rfl,
        state_lock_depth_of_log w _ _ hlog, lock_balance_append, hb0]
      simp [lock_balance]

/-- The new session `world0` whose preparation times out: prepare takes the
state lock twice (itself and in unprepare) and releases it three times, the
last time without holding it. -/
theorem prepare_releases_state_lock_after_failed_wait_witness :
    (gst_rtsp_media_get_status []
        (emit .rec_mutex_unlock (prepare_begin engine0 world0).world)).1 = .ERROR ∧
      (new_events world0 (gst_rtsp_media_prepare engine0 [] world0).2).count
        .rec_mutex_lock = 2 ∧
      (new_events world0 (gst_rtsp_media_prepare engine0 [] world0).2).count
        .rec_mutex_unlock = 3 ∧
      released_only_held .rec_mutex_lock .rec_mutex_unlock 0
        (new_events world0 (gst_rtsp_media_prepare engine0 [] world0).2) = false ∧
      state_lock_depth (gst_rtsp_media_prepare engine0 [] world0).2 =
        state_lock_depth world0 - 1 :=
  ⟨by decide, by decide, by decide, by decide,
    ((prepare_releases_state_lock_after_failed_wait engine0 [] world0).1
      (prepare_begin engine0 world0).world rfl (by decide)).2⟩

/-- C30: two functions do not pair the attribute mutex.
`gst_rtsp_media_get_buffer_size` returns the stored size, but it releases the
mutex before the read and again after it and never takes it.
`no_more_pads_cb` takes the mutex and releases it only when there is a
fakesink to remove; without one it returns with the mutex held.
`gst_rtsp_media_set_buffer_size` takes and releases it once. -/
theorem buffer_size_read_and_no_more_pads_unpaired (size : Nat) (w : World) :
    (gst_rtsp_media_get_buffer_size w).1 = w.media.buffer_size ∧
    (gst_rtsp_media_get_buffer_size (gst_rtsp_media_set_buffer_size size w)).1 = size ∧
    new_events w (gst_rtsp_media_set_buffer_size size w) = [.mutex_lock, .mutex_unlock] ∧
    new_events w (gst_rtsp_media_get_buffer_size w).2 = [.mutex_unlock, .mutex_unlock] ∧
    mutex_depth (gst_rtsp_media_get_buffer_size w).2 = mutex_depth w - 2 ∧
    (w.media.fakesink = none →
      no_more_pads_cb w = emit .mutex_lock w ∧
      new_events w (no_more_pads_cb w) = [.mutex_lock] ∧
      mutex_depth (no_more_pads_cb w) = mutex_depth w + 1) ∧
    (∀ fakesink : Nat, w.media.fakesink = some fakesink →
      new_events w (no_more_pads_cb w) =
        [.mutex_lock, .mutex_unlock, .bin_remove (some fakesink),
          .child_set_state fakesink .NULL] ∧
      (no_more_pads_cb w).media.fakesink = none ∧
      mutex_depth (no_more_pads_cb w) = mutex_depth w) := by
  have hg : (gst_rtsp_media_get_buffer_size w).2.log =
      w.log ++ [.mutex_unlock, .mutex_unlock] := by
    simp [gst_rtsp_media_get_buffer_size]
  refine ⟨rfl, rfl, new_events_append _ _ _ (by simp [gst_rtsp_media_set_buffer_size]),
    new_events_append _ _ _ hg, ?_, ?_, ?_⟩
  · rw [mutex_depth_of_log w _ _ hg]
    simp [lock_balance, sub_eq_add_neg]
  · intro hf
    have h : no_more_pads_cb w = emit .mutex_lock w := by
      simp [no_more_pads_cb, hf]
    rw [h]
    refine ⟨rfl, new_events_append _ _ _ rfl, ?_⟩
    rw [mutex_depth_of_log w (emit .mutex_lock w) [.mutex_lock] rfl]
    simp [lock_balance]
  · intro fakesink hf
    have h : (no_more_pads_cb w).log = w.log ++ [.mutex_lock, .mutex_unlock,
        .bin_remove (some fakesink), .child_set_state fakesink .NULL] := by
      simp [no_more_pads_cb, hf]
    refine ⟨new_events_append _ _ _ h, by simp [no_more_pads_cb, hf], ?_⟩
    rw [mutex_depth_of_log w _ _ h]
    simp [lock_balance]

/-- The new session: reading the buffer size releases the attribute mutex
twice without holding it, and the no-more-pads callback leaves it held. -/
theorem buffer_size_read_and_no_more_pads_unpaired_witness :
    world_new.media.fakesink = none ∧
      new_events world_new (gst_rtsp_media_get_buffer_size world_new).2 =
        [.mutex_unlock, .mutex_unlock] ∧
      released_only_held .mutex_lock .mutex_unlock 0
        (new_events world_new (gst_rtsp_media_get_buffer_size world_new).2) = false ∧
      new_events world_new (no_more_pads_cb world_new) = [.mutex_lock] ∧
      mutex_depth (no_more_pads_cb world_new) = mutex_depth world_new + 1 :=
  ⟨by decide,
    (buffer_size_read_and_no_more_pads_unpaired 0 world_new).2.2.2.1,
    by decide,
    ((buffer_size_read_and_no_more_pads_unpaired 0 world_new).2.2.2.2.2.1 (by decide)).2.1,
    ((buffer_size_read_and_no_more_pads_unpaired 0 world_new).2.2.2.2.2.1 (by decide)).2.2⟩

end RtspMedia

namespace RtspThreadPool

/-! ## Basic facts about the pool -/

@[simp]
theorem pool_emit_self (e : PoolEvent) (p : GstRTSPThreadPool) :
    (pool_emit e p).self = p.self := rfl

@[simp]
theorem pool_emit_max_threads (e : PoolEvent) (p : GstRTSPThreadPool) :
    (pool_emit e p).max_threads = p.max_threads := rfl

@[simp]
theorem pool_emit_threads (e : PoolEvent) (p : GstRTSPThreadPool) :
    (pool_emit e p).threads = p.threads := rfl

@[simp]
theorem pool_emit_heap (e : PoolEvent) (p : GstRTSPThreadPool) :
    (pool_emit e p).heap = p.heap := rfl

@[simp]
theorem pool_emit_log (e : PoolEvent) (p : GstRTSPThreadPool) :
    (pool_emit e p).log = p.log ++ [e] := rfl

/-- A counter inside the 32-bit range is not changed by the wrap. -/
theorem wrap_gint_of_range (x : Int) (h1 : -2147483648 ≤ x) (h2 : x < 2147483648) :
    wrap_gint x = x := by
  unfold wrap_gint
  omega

@[simp]
theorem heap_update_length (thread : Nat) (f : GstRTSPThreadImpl → GstRTSPThreadImpl)
    (heap : List GstRTSPThreadImpl) : (heap_update thread f heap).length = heap.length := by
  unfold heap_update
  split <;> simp

/-- An update changes the object the pointer refers to, and no other. -/
theorem heap_update_get (thread : Nat) (f : GstRTSPThreadImpl → GstRTSPThreadImpl)
    (heap : List GstRTSPThreadImpl) (i : Nat) :
    (heap_update thread f heap)[i]? =
      if i = thread then (heap[i]?).map f else heap[i]? := by
  unfold heap_update
  split
  · next impl h =>
    by_cases hi : i = thread
    · subst hi
      simp [h, List.getElem?_set]
      by_contra hlt
      rw [List.getElem?_eq_none (not_lt.mp hlt)] at h
      exact Option.noConfusion h
    · simp [hi, List.getElem?_set, Ne.symm hi]
  · next h =>
    by_cases hi : i = thread
    · subst hi
      simp [h]
    · simp [hi]

@[simp]
theorem thread_ref_threads (thread : Nat) (p : GstRTSPThreadPool) :
    (gst_rtsp_thread_ref thread p).threads = p.threads := rfl

@[simp]
theorem thread_ref_max_threads (thread : Nat) (p : GstRTSPThreadPool) :
    (gst_rtsp_thread_ref thread p).max_threads = p.max_threads := rfl

@[simp]
theorem thread_unref_threads (thread : Nat) (p : GstRTSPThreadPool) :
    (gst_rtsp_thread_unref thread p).threads = p.threads := rfl

@[simp]
theorem thread_unref_max_threads (thread : Nat) (p : GstRTSPThreadPool) :
    (gst_rtsp_thread_unref thread p).max_threads = p.max_threads := rfl

@[simp]
theorem set_max_threads_threads (m : Int) (p : GstRTSPThreadPool) :
    (gst_rtsp_thread_pool_set_max_threads m p).threads = p.threads := rfl

@[simp]
theorem set_max_threads_max_threads (m : Int) (p : GstRTSPThreadPool) :
    (gst_rtsp_thread_pool_set_max_threads m p).max_threads = m := rfl

@[simp]
theorem get_max_threads_threads (p : GstRTSPThreadPool) :
    (gst_rtsp_thread_pool_get_max_threads p).2.threads = p.threads := rfl

@[simp]
theorem get_max_threads_max_threads (p : GstRTSPThreadPool) :
    (gst_rtsp_thread_pool_get_max_threads p).2.max_threads = p.max_threads := rfl

@[simp]
theorem do_loop_threads (thread : Nat) (p : GstRTSPThreadPool) :
    (do_loop thread p).threads = p.threads.erase thread := rfl

@[simp]
theorem do_loop_max_threads (thread : Nat) (p : GstRTSPThreadPool) :
    (do_loop thread p).max_threads = p.max_threads := rfl

@[simp]
theorem thread_reuse_threads (thread : Nat) (p : GstRTSPThreadPool) :
    (thread_reuse thread p).threads = p.threads := rfl

@[simp]
theorem thread_reuse_max_threads (thread : Nat) (p : GstRTSPThreadPool) :
    (thread_reuse thread p).max_threads = p.max_threads := rfl

@[simp]
theorem thread_stop_threads (thread : Nat) (p : GstRTSPThreadPool) :
    (thread_stop thread p).threads = p.threads := by
  unfold thread_stop
  simp only []
  split_ifs <;> rfl

@[simp]
theorem thread_stop_max_threads (thread : Nat) (p : GstRTSPThreadPool) :
    (thread_stop thread p).max_threads = p.max_threads := by
  unfold thread_stop
  simp only []
  split_ifs <;> rfl

/-- The function `make_thread` in closed form. -/
theorem make_thread_eq (a : GLib) (type : GstRTSPThreadType) (p : GstRTSPThreadPool) :
    make_thread a type p =
      (p.heap.length,
        { p with
          heap := p.heap ++
            [⟨type, a.main_context_new, a.main_loop_new, 1, 1, some p.self, 0⟩]
          log := p.log ++ [.thread_new p.heap.length] }) := rfl

/-- The test of the ceiling in closed form. -/
theorem max_threads_reached_fst (p : GstRTSPThreadPool) :
    (max_threads_reached p).1 =
      decide (0 < p.max_threads ∧ p.max_threads ≤ (p.threads.length : Int)) := by
  unfold max_threads_reached
  simp only [pool_emit_max_threads, pool_emit_threads]
  split_ifs with h
  · simp [h]
  · simp [h]

@[simp]
theorem max_threads_reached_threads (p : GstRTSPThreadPool) :
    (max_threads_reached p).2.threads = p.threads := by
  unfold max_threads_reached
  simp only [pool_emit_max_threads]
  split_ifs <;> rfl

@[simp]
theorem max_threads_reached_max_threads (p : GstRTSPThreadPool) :
    (max_threads_reached p).2.max_threads = p.max_threads := by
  unfold max_threads_reached
  simp only [pool_emit_max_threads]
  split_ifs <;> rfl

@[simp]
theorem max_threads_reached_heap (p : GstRTSPThreadPool) :
    (max_threads_reached p).2.heap = p.heap := by
  unfold max_threads_reached
  simp only [pool_emit_max_threads]
  split_ifs <;> rfl

@[simp]
theorem max_threads_reached_self (p : GstRTSPThreadPool) :
    (max_threads_reached p).2.self = p.self := by
  unfold max_threads_reached
  simp only [pool_emit_max_threads]
  split_ifs <;> rfl

/-- The recycling arm on a queue that is not empty. -/
theorem recycle_thread_cons (p : GstRTSPThreadPool) (thread : Nat) (rest : List Nat)
    (h : p.threads = thread :: rest) :
    recycle_thread p =
      (some thread,
        { p with
          threads := rest ++ [thread]
          heap := heap_update thread (fun t => { t with refcount := t.refcount + 1 }) p.heap
          log := p.log ++ [.queue_pop_head, .thread_ref thread, .queue_push_tail thread] }) := by
  obtain ⟨s, m, q, hp, l⟩ := p
  simp only at h
  subst h
  simp [recycle_thread, queue_push_tail, gst_rtsp_thread_ref, pool_emit]

/-- The recycling arm keeps the ceiling and the length of the queue. -/
theorem recycle_thread_length (p : GstRTSPThreadPool) :
    (recycle_thread p).2.threads.length = p.threads.length ∧
      (recycle_thread p).2.max_threads = p.max_threads := by
  cases h : p.threads with
  | nil => simp [recycle_thread, h]
  | cons t rest => rw [recycle_thread_cons p t rest h]; simp

/-- An acquisition keeps the ceiling. -/
theorem get_thread_max_threads (a : GLib) (type : GstRTSPThreadType) (state : Option Nat)
    (p : GstRTSPThreadPool) :
    (gst_rtsp_thread_pool_get_thread a type state p).2.max_threads = p.max_threads := by
  cases state with
  | none => rfl
  | some s =>
    cases type with
    | MEDIA =>
      simp only [gst_rtsp_thread_pool_get_thread, default_get_thread, thread_error, make_thread_eq]
      split_ifs <;> rfl
    | OTHER => rfl
    | CLIENT =>
      simp only [gst_rtsp_thread_pool_get_thread, default_get_thread, thread_error,
        make_thread_eq, pool_emit_max_threads]
      split_ifs
      · rfl
      · simp [(recycle_thread_length _).2]
      · simp
      · simp [queue_push_tail]

/-- An acquisition for media, or one that delivers no thread, keeps the queue;
an acquisition for a client connection keeps the ceiling invariant. -/
theorem get_thread_within_ceiling (a : GLib) (type : GstRTSPThreadType)
    (state : Option Nat) (p : GstRTSPThreadPool) (h : within_ceiling p) :
    within_ceiling (gst_rtsp_thread_pool_get_thread a type state p).2 := by
  unfold within_ceiling at h ⊢
  rw [get_thread_max_threads]
  intro h0
  have h := h h0
  cases state with
  | none => exact h
  | some s =>
    cases type with
    | MEDIA =>
      simp only [gst_rtsp_thread_pool_get_thread, default_get_thread, thread_error, make_thread_eq]
      split_ifs <;> exact h
    | OTHER => exact h
    | CLIENT =>
      simp only [gst_rtsp_thread_pool_get_thread, default_get_thread, thread_error,
        make_thread_eq, pool_emit_max_threads, max_threads_reached_fst, pool_emit_threads,
        decide_eq_true_eq]
      split_ifs with h1 h2 h3
      · exact h
      · rw [(recycle_thread_length _).1]
        simpa using h
      · simpa using h
      · simp only [queue_push_tail, pool_emit_threads, max_threads_reached_threads,
          List.length_append, List.length_singleton, Nat.cast_add, Nat.cast_one]
        omega

/-- An operation that does not lower the ceiling below the length of the queue
keeps the ceiling invariant. -/
theorem op_run_within_ceiling (op : PoolOp) (p : GstRTSPThreadPool)
    (h : within_ceiling p) (hk : op.keeps_ceiling p = true) :
    within_ceiling (op.run p) := by
  cases op with
  | get_thread a type => exact get_thread_within_ceiling a type (some 0) p h
  | set_max_threads m =>
    unfold within_ceiling
    simp only [PoolOp.keeps_ceiling, decide_eq_true_eq] at hk
    simp only [PoolOp.run, set_max_threads_max_threads, set_max_threads_threads]
    omega
  | get_max_threads => exact h
  | do_loop thread =>
    unfold within_ceiling at h ⊢
    simp only [PoolOp.run, do_loop_max_threads, do_loop_threads]
    intro h0
    have h := h h0
    have hl : (p.threads.erase thread).length ≤ p.threads.length := List.length_erase_le _ _
    omega
  | reuse thread => exact h
  | stop thread =>
    unfold within_ceiling at h ⊢
    simpa [PoolOp.run] using h

/-- A sequence of operations none of which lowers the ceiling below the length
of the queue keeps the ceiling invariant. -/
theorem run_pool_ops_within_ceiling (ops : List PoolOp) (p : GstRTSPThreadPool)
    (h : within_ceiling p) (hk : never_lowered ops p = true) :
    within_ceiling (run_pool_ops ops p) := by
  induction ops generalizing p with
  | nil => exact h
  | cons op ops ih =>
    simp only [never_lowered, Bool.and_eq_true] at hk
    exact ih (op.run p) (op_run_within_ceiling op p h hk.1) hk.2

/-- The counter after `k` calls of `gst_rtsp_thread_reuse`; nothing else
changes. -/
theorem reuse_iterate (k : Nat) (impl : GstRTSPThreadImpl)
    (h1 : -2147483648 ≤ impl.reused) (h2 : impl.reused + k < 2147483648) :
    gst_rtsp_thread_reuse^[k] impl = { impl with reused := impl.reused + k } := by
  induction k with
  | zero => simp
  | succ k ih =>
    rw [Function.iterate_succ_apply', ih (by push_cast at h2; omega)]
    simp only [gst_rtsp_thread_reuse]
    rw [wrap_gint_of_range _ (by omega) (by push_cast at h2 ⊢; omega)]
    push_cast
    congr 1
    omega

/-- As long as fewer calls of `gst_rtsp_thread_stop` were made than the counter
held, the counter goes down by one per call and no quit is requested. -/
theorem stop_iterate (j : Nat) (impl : GstRTSPThreadImpl)
    (h1 : (j : Int) < impl.reused) (h2 : impl.reused < 2147483648) :
    gst_rtsp_thread_stop^[j] impl = { impl with reused := impl.reused - j } := by
  induction j with
  | zero => simp
  | succ j ih =>
    rw [Function.iterate_succ_apply', ih (by push_cast at h1; omega)]
    simp only [gst_rtsp_thread_stop]
    rw [wrap_gint_of_range _ (by push_cast at h1; omega) (by omega)]
    have : ¬ (impl.reused - (j : Int) - 1 = 0) := by push_cast at h1; omega
    simp only [this, if_false]
    push_cast
    congr 1
    omega

/-- With a non-negative ceiling an acquisition leaves the queue no longer than
the larger of its length before and the ceiling. -/
theorem get_thread_length_le (a : GLib) (type : GstRTSPThreadType) (state : Option Nat)
    (p : GstRTSPThreadPool) (h0 : 0 ≤ p.max_threads) :
    ((gst_rtsp_thread_pool_get_thread a type state p).2.threads.length : Int) ≤
      max (p.threads.length : Int) p.max_threads := by
  cases state with
  | none => exact le_max_left _ _
  | some s =>
    cases type with
    | MEDIA =>
      simp only [gst_rtsp_thread_pool_get_thread, default_get_thread, thread_error, make_thread_eq]
      split_ifs <;> exact le_max_left _ _
    | OTHER => exact le_max_left _ _
    | CLIENT =>
      simp only [gst_rtsp_thread_pool_get_thread, default_get_thread, thread_error,
        make_thread_eq, pool_emit_max_threads, max_threads_reached_fst, pool_emit_threads,
        decide_eq_true_eq]
      split_ifs with h1 h2 h3
      · exact le_max_left _ _
      · rw [(recycle_thread_length _).1]
        simp
      · simp
      · simp only [queue_push_tail, pool_emit_threads, max_threads_reached_threads,
          List.length_append, List.length_singleton, Nat.cast_add, Nat.cast_one]
        refine le_trans ?_ (le_max_right _ _)
        omega

/-- An acquisition for a client connection at the ceiling, in closed form. -/
theorem get_thread_client_at_ceiling (a : GLib) (state : Nat) (p : GstRTSPThreadPool)
    (thread : Nat) (rest : List Nat) (ht : p.threads = thread :: rest)
    (h1 : 0 < p.max_threads) (h2 : p.max_threads ≤ (p.threads.length : Int)) :
    gst_rtsp_thread_pool_get_thread a .CLIENT (some state) p =
      (some thread,
        { p with
          threads := rest ++ [thread]
          heap := heap_update thread (fun t => { t with refcount := t.refcount + 1 }) p.heap
          log := p.log ++ [.load_max_threads, .load_max_threads, .queue_get_length,
            .load_max_threads, .queue_pop_head, .thread_ref thread,
            .queue_push_tail thread] }) := by
  have h3 : p.max_threads ≠ 0 := by omega
  have h4 : (max_threads_reached (pool_emit .load_max_threads p)).1 = true := by
    rw [max_threads_reached_fst]
    simp [h1, h2]
  have h5 : (max_threads_reached (pool_emit .load_max_threads p)).2 =
      { p with log := p.log ++ [.load_max_threads, .load_max_threads, .queue_get_length,
          .load_max_threads] } := by
    simp [max_threads_reached, h1, pool_emit]
  simp only [gst_rtsp_thread_pool_get_thread, default_get_thread, pool_emit_max_threads,
    if_neg h3, h4, if_true]
  rw [h5]
  have h6 := recycle_thread_cons
    { p with log := p.log ++ [.load_max_threads, .load_max_threads, .queue_get_length,
        .load_max_threads] } thread rest ht
  rw [h6]
  simp

/-- The calls of an acquisition for a client connection start with a read of
the ceiling, and none of them takes the lock of the pool. -/
theorem get_thread_client_log (a : GLib) (state : Nat) (p : GstRTSPThreadPool) :
    ∃ es, (gst_rtsp_thread_pool_get_thread a .CLIENT (some state) p).2.log =
        p.log ++ .load_max_threads :: es ∧ PoolEvent.mutex_lock ∉ es ∧
      (∀ t, (gst_rtsp_thread_pool_get_thread a .CLIENT (some state) p).1 = some t →
        PoolEvent.queue_push_tail t ∈ es) := by
  simp only [gst_rtsp_thread_pool_get_thread, default_get_thread, pool_emit_max_threads]
  split_ifs with h1 h2 h3
  · exact ⟨[], by simp, by simp, by simp⟩
  · cases ht : p.threads with
    | nil =>
      refine ⟨(max_threads_reached (pool_emit .load_max_threads p)).2.log.drop
        (p.log.length + 1) ++ [.queue_pop_head], ?_, ?_, ?_⟩ <;>
      · simp only [max_threads_reached, pool_emit_max_threads]
        split_ifs <;> simp [recycle_thread, ht, pool_emit]
    | cons t rest =>
      refine ⟨(max_threads_reached (pool_emit .load_max_threads p)).2.log.drop
        (p.log.length + 1) ++ [.queue_pop_head, .thread_ref t, .queue_push_tail t], ?_, ?_, ?_⟩ <;>
      · simp only [max_threads_reached, pool_emit_max_threads]
        split_ifs <;>
          simp [recycle_thread, ht, pool_emit, queue_push_tail, gst_rtsp_thread_ref]
  · refine ⟨(max_threads_reached (pool_emit .load_max_threads p)).2.log.drop
      (p.log.length + 1) ++ [.thread_new p.heap.length,
        .thread_pool_push p.heap.length a.thread_pool_push, .thread_unref p.heap.length],
      ?_, ?_, ?_⟩ <;>
    · simp only [max_threads_reached, pool_emit_max_threads]
      split_ifs <;>
        simp [thread_error, make_thread_eq, pool_emit, gst_rtsp_thread_unref]
  · refine ⟨(max_threads_reached (pool_emit .load_max_threads p)).2.log.drop
      (p.log.length + 1) ++ [.thread_new p.heap.length,
        .thread_pool_push p.heap.length a.thread_pool_push, .queue_push_tail p.heap.length],
      ?_, ?_, ?_⟩ <;>
    · simp only [max_threads_reached, pool_emit_max_threads]
      split_ifs <;>
        simp [make_thread_eq, pool_emit, queue_push_tail]

/-- The calls appended to a log that grew by `es`. -/
theorem new_pool_events_append (p p' : GstRTSPThreadPool) (es : List PoolEvent)
    (h : p'.log = p.log ++ es) : new_pool_events p p' = es := by
  simp [new_pool_events, h]

/-! ## The claims about the pool -/

/-- C18: at a positive ceiling that the queue has reached, an acquisition for a
client connection creates no thread object: it returns the head of the queue
and moves it to the tail, so the queue keeps its length.  What it adds one to
is the reference count of the mini object (`gst_rtsp_thread_ref`); the counter
`reused` of that thread, and of every other, is left as it was. -/
theorem recycle_leaves_reuse_counter (a : GLib) (state : Nat) (p : GstRTSPThreadPool)
    (h1 : 0 < p.max_threads) (h2 : p.max_threads ≤ (p.threads.length : Int)) :
    ∃ thread rest, p.threads = thread :: rest ∧
      (gst_rtsp_thread_pool_get_thread a .CLIENT (some state) p).1 = some thread ∧
      (gst_rtsp_thread_pool_get_thread a .CLIENT (some state) p).2.threads = rest ++ [thread] ∧
      (gst_rtsp_thread_pool_get_thread a .CLIENT (some state) p).2.threads.length =
        p.threads.length ∧
      (gst_rtsp_thread_pool_get_thread a .CLIENT (some state) p).2.heap.length =
        p.heap.length ∧
      (∀ i : Nat,
        ((gst_rtsp_thread_pool_get_thread a .CLIENT (some state) p).2.heap[i]?).map
            (fun t => t.reused) =
          (p.heap[i]?).map (fun t => t.reused)) ∧
      ((gst_rtsp_thread_pool_get_thread a .CLIENT (some state) p).2.heap[thread]?).map
          (fun t => t.refcount) =
        (p.heap[thread]?).map (fun t => t.refcount + 1) ∧
      (gst_rtsp_thread_pool_get_thread a .CLIENT (some state) p).2.log =
        p.log ++ [.load_max_threads, .load_max_threads, .queue_get_length,
          .load_max_threads, .queue_pop_head, .thread_ref thread, .queue_push_tail thread] := by
  cases ht : p.threads with
  | nil =>
    rw [ht] at h2
    simp only [List.length_nil, Nat.cast_zero] at h2
    omega
  | cons thread rest =>
    refine ⟨thread, rest, rfl, ?_⟩
    rw [get_thread_client_at_ceiling a state p thread rest ht h1 h2]
    refine ⟨rfl, rfl, ?_, ?_, ?_, ?_, rfl⟩
    · simp [ht]
    · simp
    · intro i
      simp only [heap_update_get]
      split_ifs
      · cases p.heap[i]? <;> rfl
      · rfl
    · simp only [heap_update_get, if_true]
      cases p.heap[thread]? <;> rfl

/-- Ceiling `2`, third acquisition: the pool returns thread `0` from the head of
the queue `[0, 1]` and queues it at the tail; there are still two thread
objects, both with `reused = 1`, and thread `0` now has two references.  One
`gst_rtsp_thread_stop` of thread `0` then already asks its loop to quit. -/
theorem recycle_leaves_reuse_counter_witness :
    pool_full.max_threads = 2 ∧ pool_full.threads = [0, 1] ∧
      (pool_full.heap.map fun t => t.reused) = [1, 1] ∧
      (gst_rtsp_thread_pool_get_thread glib0 .CLIENT (some 0) pool_full).1 = some 0 ∧
      (gst_rtsp_thread_pool_get_thread glib0 .CLIENT (some 0) pool_full).2.threads = [1, 0] ∧
      ((gst_rtsp_thread_pool_get_thread glib0 .CLIENT (some 0) pool_full).2.heap.map
        fun t => (t.reused, t.refcount)) = [(1, 2), (1, 1)] ∧
      ((thread_stop 0
        (gst_rtsp_thread_pool_get_thread glib0 .CLIENT (some 0) pool_full).2).heap.map
        fun t => t.quits) = [1, 0] ∧
      ∃ thread rest, pool_full.threads = thread :: rest ∧
        (gst_rtsp_thread_pool_get_thread glib0 .CLIENT (some 0) pool_full).1 = some thread :=
  ⟨by decide, by decide, by decide, by decide, by decide, by decide, by decide,
    (recycle_leaves_reuse_counter glib0 0 pool_full (by decide) (by decide)).imp
      fun _ h => h.imp fun _ h => ⟨h.1, h.2.1⟩⟩

/-- C19: whatever the ceiling and the queue, an acquisition for media whose
push succeeds returns a thread object that did not exist before, of type
`MEDIA`, with `reused = 1` and the pool as its qdata, and leaves the queue,
the ceiling and the other thread objects alone; an acquisition for a client
connection with ceiling `0` returns `NULL` and changes neither the queue nor
any thread object. -/
theorem media_acquisition_is_new (a : GLib) (state : Nat) (p : GstRTSPThreadPool) :
    (a.thread_pool_push = true →
      (gst_rtsp_thread_pool_get_thread a .MEDIA (some state) p).1 = some p.heap.length ∧
      p.heap[p.heap.length]? = none ∧
      (gst_rtsp_thread_pool_get_thread a .MEDIA (some state) p).2.heap =
        p.heap ++ [⟨.MEDIA, a.main_context_new, a.main_loop_new, 1, 1, some p.self, 0⟩] ∧
      (gst_rtsp_thread_pool_get_thread a .MEDIA (some state) p).2.heap[p.heap.length]? =
        some ⟨.MEDIA, a.main_context_new, a.main_loop_new, 1, 1, some p.self, 0⟩ ∧
      (gst_rtsp_thread_pool_get_thread a .MEDIA (some state) p).2.threads = p.threads ∧
      (gst_rtsp_thread_pool_get_thread a .MEDIA (some state) p).2.max_threads = p.max_threads ∧
      (gst_rtsp_thread_pool_get_thread a .MEDIA (some state) p).2.log =
        p.log ++ [.thread_new p.heap.length, .thread_pool_push p.heap.length true]) ∧
    (p.max_threads = 0 →
      (gst_rtsp_thread_pool_get_thread a .CLIENT (some state) p).1 = none ∧
      (gst_rtsp_thread_pool_get_thread a .CLIENT (some state) p).2.threads = p.threads ∧
      (gst_rtsp_thread_pool_get_thread a .CLIENT (some state) p).2.heap = p.heap ∧
      (gst_rtsp_thread_pool_get_thread a .CLIENT (some state) p).2.max_threads = 0) := by
  constructor
  · intro h
    simp [gst_rtsp_thread_pool_get_thread, default_get_thread, make_thread_eq, h, pool_emit]
  · intro h
    simp [gst_rtsp_thread_pool_get_thread, default_get_thread, h]

/-- The full pool (ceiling `2`, queue `[0, 1]`) gives a media acquisition the
new thread `2` and keeps its queue; with ceiling `0` a client acquisition gets
nothing. -/
theorem media_acquisition_is_new_witness :
    glib0.thread_pool_push = true ∧
      (gst_rtsp_thread_pool_get_thread glib0 .MEDIA (some 0) pool_full).1 = some 2 ∧
      (gst_rtsp_thread_pool_get_thread glib0 .MEDIA (some 0) pool_full).2.threads = [0, 1] ∧
      (gst_rtsp_thread_pool_get_thread glib0 .CLIENT (some 0)
        (gst_rtsp_thread_pool_set_max_threads 0 pool_full)).1 = none :=
  ⟨rfl,
    ((media_acquisition_is_new glib0 0 pool_full).1 rfl).1,
    ((media_acquisition_is_new glib0 0 pool_full).1 rfl).2.2.2.2.1,
    ((media_acquisition_is_new glib0 0
      (gst_rtsp_thread_pool_set_max_threads 0 pool_full)).2 rfl).1⟩

/-- C20: a new thread object has `reused = 1`; `gst_rtsp_thread_reuse` adds
one to the counter and `gst_rtsp_thread_stop` takes one from it (inside the
range of a `gint`), and stop asks the loop to quit exactly when the counter has
become `0`.  So after `k` reuses of a new thread the first `k` stops request no
quit and the stop number `k + 1` requests it. -/
theorem reuse_counter_arithmetic :
    (∀ (type : GstRTSPThreadType) (context loop : Nat),
      (gst_rtsp_thread_new type context loop).reused = 1 ∧
      (gst_rtsp_thread_new type context loop).quits = 0) ∧
    (∀ impl : GstRTSPThreadImpl, -2147483648 ≤ impl.reused → impl.reused < 2147483647 →
      gst_rtsp_thread_reuse impl = { impl with reused := impl.reused + 1 }) ∧
    (∀ impl : GstRTSPThreadImpl, -2147483648 < impl.reused → impl.reused ≤ 2147483647 →
      (gst_rtsp_thread_stop impl).reused = impl.reused - 1) ∧
    (∀ impl : GstRTSPThreadImpl,
      ((gst_rtsp_thread_stop impl).reused = 0 →
        (gst_rtsp_thread_stop impl).quits = impl.quits + 1) ∧
      ((gst_rtsp_thread_stop impl).reused ≠ 0 →
        (gst_rtsp_thread_stop impl).quits = impl.quits)) ∧
    (∀ (type : GstRTSPThreadType) (context loop k : Nat), k < 2147483647 →
      (∀ j : Nat, j ≤ k →
        (gst_rtsp_thread_stop^[j]
          (gst_rtsp_thread_reuse^[k] (gst_rtsp_thread_new type context loop))).quits = 0) ∧
      (gst_rtsp_thread_stop^[k + 1]
        (gst_rtsp_thread_reuse^[k] (gst_rtsp_thread_new type context loop))).quits = 1 ∧
      (gst_rtsp_thread_stop^[k + 1]
        (gst_rtsp_thread_reuse^[k] (gst_rtsp_thread_new type context loop))).reused = 0) := by
  refine ⟨fun _ _ _ => ⟨rfl, rfl⟩, ?_, ?_, ?_, ?_⟩
  · intro impl h1 h2
    simp only [gst_rtsp_thread_reuse]
    rw [wrap_gint_of_range _ (by omega) (by omega)]
  · intro impl h1 h2
    have hw := wrap_gint_of_range (impl.reused - 1) (by omega) (by omega)
    simp only [gst_rtsp_thread_stop]
    split_ifs <;> exact hw
  · intro impl
    simp only [gst_rtsp_thread_stop]
    split_ifs with h
    · exact ⟨fun _ => rfl, fun h' => absurd h h'⟩
    · exact ⟨fun h' => absurd h' h, fun _ => rfl⟩
  · intro type context loop k hk
    have hr : gst_rtsp_thread_reuse^[k] (gst_rtsp_thread_new type context loop) =
        { gst_rtsp_thread_new type context loop with reused := 1 + k } := by
      rw [reuse_iterate k _ (by show (-2147483648 : Int) ≤ 1; decide)]
      · rfl
      · show (1 : Int) + (k : Int) < 2147483648
        omega
    rw [hr]
    have hs : ∀ j : Nat, j ≤ k →
        gst_rtsp_thread_stop^[j]
            { gst_rtsp_thread_new type context loop with reused := 1 + k } =
          { gst_rtsp_thread_new type context loop with reused := 1 + k - j } := by
      intro j hj
      rw [stop_iterate j _ (by show (j : Int) < 1 + (k : Int); omega)
        (by show (1 : Int) + (k : Int) < 2147483648; omega)]
    refine ⟨fun j hj => by rw [hs j hj]; rfl, ?_⟩
    rw [Function.iterate_succ_apply', hs k le_rfl]
    have h1 : (1 : Int) + (k : Int) - (k : Int) - 1 = 0 := by omega
    simp [gst_rtsp_thread_stop, wrap_gint, h1, gst_rtsp_thread_new, gst_rtsp_thread_init,
      slice_new0]

/-- A thread reused twice: the first two stops request no quit, the third
does. -/
theorem reuse_counter_arithmetic_witness :
    (gst_rtsp_thread_stop^[2]
        (gst_rtsp_thread_reuse^[2] (gst_rtsp_thread_new .CLIENT 50 51))).quits = 0 ∧
      (gst_rtsp_thread_stop^[3]
        (gst_rtsp_thread_reuse^[2] (gst_rtsp_thread_new .CLIENT 50 51))).quits = 1 :=
  ⟨(reuse_counter_arithmetic.2.2.2.2 .CLIENT 50 51 2 (by decide)).1 2 le_rfl,
    (reuse_counter_arithmetic.2.2.2.2 .CLIENT 50 51 2 (by decide)).2.1⟩

/-- C21: the acquisition policy does not hold the lock of the pool.  In an
acquisition for a client connection no call takes the lock; its first call
reads the ceiling, and the thread it returns was pushed on the queue, so reads
of the ceiling and changes of the queue are made with the lock free.  Only the
removal at the exit of a loop (`do_loop`) is made under the lock. -/
theorem acquisition_takes_no_pool_lock (a : GLib) (state : Nat) (p : GstRTSPThreadPool) :
    PoolEvent.mutex_lock ∉
        new_pool_events p (gst_rtsp_thread_pool_get_thread a .CLIENT (some state) p).2 ∧
      (new_pool_events p
        (gst_rtsp_thread_pool_get_thread a .CLIENT (some state) p).2).head? =
        some .load_max_threads ∧
      (∀ t, (gst_rtsp_thread_pool_get_thread a .CLIENT (some state) p).1 = some t →
        PoolEvent.queue_push_tail t ∈
          new_pool_events p (gst_rtsp_thread_pool_get_thread a .CLIENT (some state) p).2) ∧
      accesses_locked 0
        (new_pool_events p (gst_rtsp_thread_pool_get_thread a .CLIENT (some state) p).2) =
        false ∧
      (∀ thread : Nat,
        new_pool_events p (do_loop thread p) =
          [.main_loop_run thread, .mutex_lock, .queue_remove thread, .mutex_unlock,
            .thread_unref thread] ∧
        accesses_locked 0 (new_pool_events p (do_loop thread p)) = true) := by
  obtain ⟨es, h1, h2, h3⟩ := get_thread_client_log a state p
  rw [new_pool_events_append _ _ _ h1]
  refine ⟨?_, rfl, ?_, ?_, ?_⟩
  · simpa using h2
  · intro t ht
    exact List.mem_cons_of_mem _ (h3 t ht)
  · simp [accesses_locked, PoolEvent.is_queue_mutation]
  · intro thread
    have h : (do_loop thread p).log = p.log ++ [.main_loop_run thread, .mutex_lock,
        .queue_remove thread, .mutex_unlock, .thread_unref thread] := by
      simp [do_loop, gst_rtsp_thread_unref, pool_emit]
    rw [new_pool_events_append _ _ _ h]
    exact ⟨rfl, by simp [accesses_locked, PoolEvent.is_queue_mutation]⟩

/-- Ceiling `2`, third acquisition: the ceiling is read three times and the
queue is popped and pushed, all without the lock of the pool. -/
theorem acquisition_takes_no_pool_lock_witness :
    new_pool_events pool_full
        (gst_rtsp_thread_pool_get_thread glib0 .CLIENT (some 0) pool_full).2 =
        [.load_max_threads, .load_max_threads, .queue_get_length, .load_max_threads,
          .queue_pop_head, .thread_ref 0, .queue_push_tail 0] ∧
      accesses_locked 0
        (new_pool_events pool_full
          (gst_rtsp_thread_pool_get_thread glib0 .CLIENT (some 0) pool_full).2) = false :=
  ⟨by decide, (acquisition_takes_no_pool_lock glib0 0 pool_full).2.2.2.1⟩

end RtspThreadPool
